import Mathlib

/-!
Verification of the ptime package (Persian / Solar Hijri calendar).

Shallow embedding notes:

* Go integers are modeled as Int. Go division `/` and remainder `%` truncate
  toward zero; they are modeled by Int.tdiv and Int.tmod, which have exactly
  those semantics.
* The Go struct Time is modeled as a Lean structure; in-place mutation is
  modeled by state passing (each mutator returns the updated value).
* A Go *time.Location is modeled as Option Unit: a nil pointer is none.
  A Go panic on a nil location is modeled by returning none (Option result).
* The host time.Time value handed to SetTime is modeled by its Gregorian
  calendar fields, its clock fields, and its location; the host weekday of a
  Gregorian day is derived from its Julian Day Number via the standard
  correspondence (jdn + 1) mod 7 = Go weekday, Sunday = 0.
* int(math.Ceil(float64(x) / 31.0)) is modeled as the exact integer ceiling:
  for the integer magnitudes reached here (far below 2^53) the float64
  computation is exact up to rounding inside one unit interval, so the
  ceiling agrees with the mathematical one.
-/

namespace Ptime

/-- Helper between (ptime.go): clamps value into [lo, hi] by saturation. -/
def between (value lo hi : Int) : Int :=
  if value < lo then lo
  else if value > hi then hi
  else value

/-- Helper divider (ptime.go): num % den for positive num, otherwise
num - ((((num+1)/den)-1)*den), with Go truncating division/remainder. -/
def divider (num den : Int) : Int :=
  if num > 0 then Int.tmod num den
  else num - (Int.tdiv (num + 1) den - 1) * den

/-- Table p_month_count (ptime.go): for month m in 1..12 the triple
(days, leap_days, days_before_start). -/
def p_month_count (m : Int) : Int × Int × Int :=
  if m = 1 then (31, 31, 0)
  else if m = 2 then (31, 31, 31)
  else if m = 3 then (31, 31, 62)
  else if m = 4 then (31, 31, 93)
  else if m = 5 then (31, 31, 124)
  else if m = 6 then (31, 31, 155)
  else if m = 7 then (30, 30, 186)
  else if m = 8 then (30, 30, 216)
  else if m = 9 then (30, 30, 246)
  else if m = 10 then (30, 30, 276)
  else if m = 11 then (30, 30, 306)
  else (29, 30, 336)

/-- Function getJdn (ptime.go): Persian (year, month, day) to Julian Day
Number. This is the spec's persianToJDN. -/
def getJdn (year month day : Int) : Int :=
  let base := if 0 ≤ year then year - 473 - 1 else year - 473
  let epy := 474 + Int.tmod base 2820
  let md := if month ≤ 7 then (month - 1) * 31 else (month - 1) * 30 + 6
  day + md + Int.tdiv (epy * 682 - 110) 2816 + (epy - 1) * 365
    + Int.tdiv base 2820 * 1029983 + 1948320

/-- The Gregorian-to-JDN fragment of SetTime (ptime.go lines 294-301): the
proleptic Gregorian formula strictly after 1582-10-14, the Julian formula on
or before. This is the spec's gregorianToJDN. -/
def gregorianToJDN (gy gm gd : Int) : Int :=
  if gy > 1582 ∨ (gy = 1582 ∧ gm > 10) ∨ (gy = 1582 ∧ gm = 10 ∧ gd > 14) then
    Int.tdiv (1461 * (gy + 4800 + Int.tdiv (gm - 14) 12)) 4
      + Int.tdiv (367 * (gm - 2 - 12 * Int.tdiv (gm - 14) 12)) 12
      - Int.tdiv (3 * Int.tdiv (gy + 4900 + Int.tdiv (gm - 14) 12) 100) 4
      + gd - 32075
  else
    367 * gy - Int.tdiv (7 * (gy + 5001 + Int.tdiv (gm - 9) 7)) 4
      + Int.tdiv (275 * gm) 9 + gd + 1729777

/-- Integer ceiling of a / b for b > 0, modeling int(math.Ceil(...)) on an
exact integer quotient (see the header note on float64 exactness). -/
def ceilInt (a b : Int) : Int := -(Int.fdiv (-a) b)

/-- The JDN-to-Persian fragment of SetTime (ptime.go lines 303-331),
including the rem == 1029982 cycle-boundary special case and the extra
decrement for computed year ≤ 0. This is the spec's jdnToPersian. -/
def jdnToPersian (jdn : Int) : Int × Int × Int :=
  let dep := jdn - getJdn 475 1 1
  let cyc := Int.tdiv dep 1029983
  let rem := Int.tmod dep 1029983
  let ycyc :=
    if rem = 1029982 then 2820
    else
      Int.tdiv (2134 * Int.tdiv rem 366 + 2816 * Int.tmod rem 366 + 2815) 1028522
        + Int.tdiv rem 366 + 1
  let year0 := ycyc + 2820 * cyc + 474
  let year := if year0 ≤ 0 then year0 - 1 else year0
  let dy := jdn - getJdn year 1 1 + 1
  let month := if dy ≤ 186 then ceilInt dy 31 else ceilInt (dy - 6) 30
  let day := jdn - getJdn year month 1 + 1
  (year, month, day)

/-- The JDN inversion in the body of Time.Time() (ptime.go lines 215-245),
selecting one of two algebraic inversions by jdn > 2299160. This is the
spec's jdnToGregorian. -/
def jdnToGregorian (jdn : Int) : Int × Int × Int :=
  if jdn > 2299160 then
    let l0 := jdn + 68569
    let n := Int.tdiv (4 * l0) 146097
    let l1 := l0 - Int.tdiv (146097 * n + 3) 4
    let i := Int.tdiv (4000 * (l1 + 1)) 1461001
    let l2 := l1 - Int.tdiv (1461 * i) 4 + 31
    let j := Int.tdiv (80 * l2) 2447
    let day := l2 - Int.tdiv (2447 * j) 80
    let l3 := Int.tdiv j 11
    (100 * (n - 49) + i + l3, j + 2 - 12 * l3, day)
  else
    let j0 := jdn + 1402
    let k := Int.tdiv (j0 - 1) 1461
    let l := j0 - 1461 * k
    let n := Int.tdiv (l - 1) 365 - Int.tdiv l 1461
    let i0 := l - 365 * n + 30
    let j1 := Int.tdiv (80 * i0) 2447
    let day := i0 - Int.tdiv (2447 * j1) 80
    let i1 := Int.tdiv j1 11
    (4 * k + n + i1 - 4716, j1 + 2 - 12 * i1, day)

/-- Euclidean-division reformulation of jdnToGregorian: on the range of
JDNs reachable from valid dates (jdn of 0001-01-01 onward) every division
in jdnToGregorian has a nonnegative numerator, where Go truncating
division agrees with Euclidean division; proved in jdnToGregorian_eq_E. -/
def jdnToGregorianE (jdn : Int) : Int × Int × Int :=
  if jdn > 2299160 then
    let l0 := jdn + 68569
    let n := 4 * l0 / 146097
    let l1 := l0 - (146097 * n + 3) / 4
    let i := 4000 * (l1 + 1) / 1461001
    let l2 := l1 - 1461 * i / 4 + 31
    let j := 80 * l2 / 2447
    let day := l2 - 2447 * j / 80
    let l3 := j / 11
    (100 * (n - 49) + i + l3, j + 2 - 12 * l3, day)
  else
    let j0 := jdn + 1402
    let k := (j0 - 1) / 1461
    let l := j0 - 1461 * k
    let n := (l - 1) / 365 - l / 1461
    let i0 := l - 365 * n + 30
    let j1 := 80 * i0 / 2447
    let day := i0 - 2447 * j1 / 80
    let i1 := j1 / 11
    (4 * k + n + i1 - 4716, j1 + 2 - 12 * i1, day)

/-- The struct Time (ptime.go). loc models the *time.Location pointer
(none = nil); wday caches the weekday (Shanbe = 0). -/
structure Time where
  year : Int
  month : Int
  day : Int
  hour : Int
  min : Int
  sec : Int
  nsec : Int
  loc : Option Unit
  wday : Int

/-- The zero value Time{} of the Go struct. -/
def zeroTime : Time := ⟨0, 0, 0, 0, 0, 0, 0, none, 0⟩

/-- Function getWeekday (ptime.go): maps a Go weekday (Sunday = 0) to a
Persian weekday (Shanbe/Saturday = 0). -/
def getWeekday (wd : Int) : Int :=
  if wd = 6 then 0
  else if wd = 0 then 1
  else if wd = 1 then 2
  else if wd = 2 then 3
  else if wd = 3 then 4
  else if wd = 4 then 5
  else if wd = 5 then 6
  else 0

/-- Go weekday (Sunday = 0) of the Gregorian day with Julian Day Number jdn,
modeling the host time library via the standard correspondence. -/
def hostWeekday (jdn : Int) : Int := (jdn + 1) % 7

/-- Method IsLeap (ptime.go): true if the year of t is a leap year. -/
def Time.IsLeap (t : Time) : Bool :=
  decide (divider (25 * t.year + 11) 33 < 8)

/-- Method resetWeekday (ptime.go): recomputes wday from the Gregorian
equivalent of the moment (whose weekday is a function of its JDN). -/
def Time.resetWeekday (t : Time) : Time :=
  { t with wday := getWeekday (hostWeekday (getJdn t.year t.month t.day)) }

/-- Function norm_nanosecond (ptime.go). -/
def norm_nanosecond (t : Time) : Time :=
  { t with nsec := between t.nsec 0 999999999 }

/-- Function norm_second (ptime.go). -/
def norm_second (t : Time) : Time :=
  { t with sec := between t.sec 0 59 }

/-- Function norm_minute (ptime.go). -/
def norm_minute (t : Time) : Time :=
  { t with min := between t.min 0 59 }

/-- Function norm_hour (ptime.go). -/
def norm_hour (t : Time) : Time :=
  { t with hour := between t.hour 0 23 }

/-- Function norm_month (ptime.go). -/
def norm_month (t : Time) : Time :=
  { t with month := between t.month 1 12 }

/-- Function norm_day (ptime.go): clamps day into [1, days in month], where
the month length table is indexed 1 for a leap year and 0 otherwise. -/
def norm_day (t : Time) : Time :=
  { t with day := between t.day 1 (if t.IsLeap then (p_month_count t.month).2.1 else (p_month_count t.month).1) }

/-- Method norm (ptime.go): normalizes nanosecond, second, minute, hour,
month, day in that order. -/
def Time.norm (t : Time) : Time :=
  norm_day (norm_month (norm_hour (norm_minute (norm_second (norm_nanosecond t)))))

/-- Days in a Persian month as used by norm_day and RMonthDay:
p_month_count[month-1][IsLeap ? 1 : 0] for the given year. This is the
spec's daysInMonth(year, month). -/
def daysInMonth (year month : Int) : Int :=
  if divider (25 * year + 11) 33 < 8 then (p_month_count month).2.1
  else (p_month_count month).1

/-- Method SetTime (ptime.go lines 284-332): sets pt to the moment t. The
host instant is modeled by its Gregorian fields gy gm gd, its clock fields,
and its location. Every field of the receiver is overwritten. -/
def Time.SetTime (_pt : Time) (gy gm gd hour min sec nsec : Int)
    (loc : Option Unit) : Time :=
  let jdn := gregorianToJDN gy gm gd
  match jdnToPersian jdn with
  | (y, m, d) =>
    { year := y, month := m, day := d, hour := hour, min := min, sec := sec,
      nsec := nsec, loc := loc, wday := getWeekday (hostWeekday jdn) }

/-- Method Set (ptime.go): panics (none) on a nil location, otherwise
assigns all fields, recomputes the weekday, and normalizes. -/
def Time.Set (t : Time) (year month day hour min sec nsec : Int)
    (loc : Option Unit) : Option Time :=
  match loc with
  | none => none
  | some _ =>
    some (Time.norm (Time.resetWeekday
      { t with year := year, month := month, day := day, hour := hour,
               min := min, sec := sec, nsec := nsec, loc := loc }))

/-- Function Date (ptime.go): panics (none) on a nil location, otherwise
builds a Time from the zero value via Set. -/
def Date (year month day hour min sec nsec : Int) (loc : Option Unit) :
    Option Time :=
  match loc with
  | none => none
  | some _ => Time.Set zeroTime year month day hour min sec nsec loc

/-- Function Unix (ptime.go): panics (none) on a nil location. Modelled from
the spec: the host instant time.Unix(sec, nsec).In(loc) is abstracted by its
Gregorian date and clock fields gy..gnsec (the host conversion is not part
of this repository). -/
def Unix (gy gm gd ghour gmin gsec gnsec : Int) (loc : Option Unit) :
    Option Time :=
  match loc with
  | none => none
  | some _ => some (Time.SetTime zeroTime gy gm gd ghour gmin gsec gnsec loc)

/-- Function Now (ptime.go): panics (none) on a nil location. Modelled from
the spec: the host instant time.Now().In(loc) is abstracted by its Gregorian
date and clock fields. -/
def Now (gy gm gd ghour gmin gsec gnsec : Int) (loc : Option Unit) :
    Option Time :=
  match loc with
  | none => none
  | some _ => some (Time.SetTime zeroTime gy gm gd ghour gmin gsec gnsec loc)

/-- Method SetUnix (ptime.go): panics (none) on a nil location; otherwise
delegates to SetTime of the host instant (abstracted as in Unix). -/
def Time.SetUnix (t : Time) (gy gm gd ghour gmin gsec gnsec : Int)
    (loc : Option Unit) : Option Time :=
  match loc with
  | none => none
  | some _ => some (Time.SetTime t gy gm gd ghour gmin gsec gnsec loc)

/-- Method In (ptime.go): panics (none) on a nil location, otherwise sets
the location and recomputes the weekday. -/
def Time.In (t : Time) (loc : Option Unit) : Option Time :=
  match loc with
  | none => none
  | some _ => some (Time.resetWeekday { t with loc := loc })

/-- Method SetYear (ptime.go). -/
def Time.SetYear (t : Time) (year : Int) : Time :=
  Time.resetWeekday (norm_day { t with year := year })

/-- Method SetMonth (ptime.go). -/
def Time.SetMonth (t : Time) (month : Int) : Time :=
  Time.resetWeekday (norm_day (norm_month { t with month := month }))

/-- Method SetDay (ptime.go). -/
def Time.SetDay (t : Time) (day : Int) : Time :=
  Time.resetWeekday (norm_day { t with day := day })

/-- Method SetHour (ptime.go). -/
def Time.SetHour (t : Time) (hour : Int) : Time :=
  norm_hour { t with hour := hour }

/-- Method SetMinute (ptime.go). -/
def Time.SetMinute (t : Time) (min : Int) : Time :=
  norm_minute { t with min := min }

/-- Method SetSecond (ptime.go). -/
def Time.SetSecond (t : Time) (sec : Int) : Time :=
  norm_second { t with sec := sec }

/-- Method SetNanosecond (ptime.go). -/
def Time.SetNanosecond (t : Time) (nsec : Int) : Time :=
  norm_nanosecond { t with nsec := nsec }

/-- Method At (ptime.go): sets the clock fields and normalizes them. -/
def Time.At (t : Time) (hour min sec nsec : Int) : Time :=
  norm_nanosecond (norm_second (norm_minute (norm_hour
    { t with hour := hour, min := min, sec := sec, nsec := nsec })))

/-- The AM marker constant (ptime.go). -/
def AM : Int := 0

/-- The PM marker constant (ptime.go). -/
def PM : Int := 1

/-- Method AmPm (ptime.go). -/
def Time.AmPm (t : Time) : Int :=
  if t.hour > 12 ∨ (t.hour = 12 ∧ (t.min > 0 ∨ t.sec > 0)) then PM else AM

/-- Method Hour12 (ptime.go): the hour of t in the range [0, 11]. -/
def Time.Hour12 (t : Time) : Int :=
  if t.hour ≥ 12 then t.hour - 12 else t.hour

/-- Function modifyHour (ptime.go): remaps a zero value to the format's
maximum, used only at formatting time. -/
def modifyHour (value mx : Int) : Int :=
  if value = 0 then mx else value

/-- Proleptic Gregorian leap rule (formalization of a valid Gregorian year
after the 1582 cutover): divisible by 4 and not by 100 unless by 400. -/
def gregorianLeap (y : Int) : Prop :=
  y % 4 = 0 ∧ (¬y % 100 = 0 ∨ y % 400 = 0)

/-- Leap rule of the hybrid historical calendar the code implements: the
Julian rule through 1582, the Gregorian rule afterwards. -/
def hybridLeap (y : Int) : Prop :=
  (y ≤ 1582 ∧ y % 4 = 0) ∨ (1582 < y ∧ y % 4 = 0 ∧ (¬y % 100 = 0 ∨ y % 400 = 0))

instance (y : Int) : Decidable (hybridLeap y) := by
  unfold hybridLeap
  infer_instance

/-- Month lengths of the hybrid historical calendar. -/
def gregorianMonthDays (y m : Int) : Int :=
  if m = 2 then (if hybridLeap y then 29 else 28)
  else if m = 4 ∨ m = 6 ∨ m = 9 ∨ m = 11 then 30
  else 31

/-- Validity of a Gregorian calendar date in the hybrid historical calendar
the code implements (the spec's "valid Gregorian date" with year in
[1, 3000]): month and day in range for the hybrid leap rule, and the ten
days 1582-10-05 .. 1582-10-14 skipped by the Gregorian reform do not exist. -/
def validGregorian (y m d : Int) : Prop :=
  1 ≤ y ∧ y ≤ 3000 ∧ 1 ≤ m ∧ m ≤ 12 ∧ 1 ≤ d ∧ d ≤ gregorianMonthDays y m
    ∧ ¬(y = 1582 ∧ m = 10 ∧ 5 ≤ d ∧ d ≤ 14)

instance (y m d : Int) : Decidable (validGregorian y m d) := by
  unfold validGregorian gregorianMonthDays hybridLeap
  infer_instance

/-! ## Arithmetic helper lemmas about Go (truncating) division -/

/-- Truncating division agrees with Euclidean division on a nonnegative
numerator and denominator. -/
theorem tdivE (a b : Int) (ha : 0 ≤ a) (hb : 0 ≤ b) : Int.tdiv a b = a / b :=
  Int.tdiv_eq_ediv ha hb

/-- Truncating remainder agrees with the Euclidean remainder on a
nonnegative numerator and denominator. -/
theorem tmodE (a b : Int) (ha : 0 ≤ a) (hb : 0 ≤ b) : Int.tmod a b = a % b :=
  Int.tmod_eq_emod ha hb

/-- Truncating division of a nonpositive numerator by a nonnegative
denominator, expressed through Euclidean division of the negation. -/
theorem tdiv_nonpos_eq (a b : Int) (ha : a ≤ 0) (hb : 0 ≤ b) :
    Int.tdiv a b = -(-a / b) := by
  have h1 : Int.tdiv (-(-a)) b = -Int.tdiv (-a) b := Int.neg_tdiv (-a) b
  rw [neg_neg] at h1
  rw [h1, tdivE (-a) b (by omega) hb]


/-- Value of the truncating division (m - 14) / 12 used by the Gregorian
formula for months 1..12. -/
lemma tdiv_m14 (m : Int) (h1 : 1 ≤ m) (h2 : m ≤ 12) :
    Int.tdiv (m - 14) 12 = if m ≤ 2 then -1 else 0 := by
  interval_cases m <;> decide

/-- Value of the truncating division (m - 9) / 7 used by the Julian formula
for months 1..12. -/
lemma tdiv_m9 (m : Int) (h1 : 1 ≤ m) (h2 : m ≤ 12) :
    Int.tdiv (m - 9) 7 = if m ≤ 2 then -1 else 0 := by
  interval_cases m <;> decide

/-- Closed Euclidean form of the Gregorian-branch forward formula for
months 3..12. -/
lemma gregorianToJDN_greg_ge3 (y m d : Int)
    (hc : y > 1582 ∨ (y = 1582 ∧ m > 10) ∨ (y = 1582 ∧ m = 10 ∧ d > 14))
    (hy : 1 ≤ y) (hm1 : 3 ≤ m) (hm2 : m ≤ 12) :
    gregorianToJDN y m d
      = (1461 * (y + 4800)) / 4 + (367 * (m - 2)) / 12
          - 3 * ((y + 4900) / 100) / 4 + d - 32075 := by
  simp only [gregorianToJDN, if_pos hc]
  rw [tdiv_m14 m (by omega) hm2, if_neg (by omega : ¬m ≤ 2)]
  rw [show y + 4800 + (0 : Int) = y + 4800 from by ring]
  rw [show m - 2 - 12 * (0 : Int) = m - 2 from by ring]
  rw [show y + 4900 + (0 : Int) = y + 4900 from by ring]
  rw [tdivE (1461 * (y + 4800)) 4 (by omega) (by norm_num)]
  rw [tdivE (367 * (m - 2)) 12 (by omega) (by norm_num)]
  rw [tdivE (y + 4900) 100 (by omega) (by norm_num)]
  rw [tdivE (3 * ((y + 4900) / 100)) 4 (by omega) (by norm_num)]

/-- Closed Euclidean form of the Gregorian-branch forward formula for
months 1..2. -/
lemma gregorianToJDN_greg_le2 (y m d : Int)
    (hc : y > 1582 ∨ (y = 1582 ∧ m > 10) ∨ (y = 1582 ∧ m = 10 ∧ d > 14))
    (hy : 1 ≤ y) (hm1 : 1 ≤ m) (hm2 : m ≤ 2) :
    gregorianToJDN y m d
      = (1461 * (y + 4799)) / 4 + (367 * (m + 10)) / 12
          - 3 * ((y + 4899) / 100) / 4 + d - 32075 := by
  simp only [gregorianToJDN, if_pos hc]
  rw [tdiv_m14 m hm1 (by omega), if_pos hm2]
  rw [show y + 4800 + (-1 : Int) = y + 4799 from by ring]
  rw [show m - 2 - 12 * (-1 : Int) = m + 10 from by ring]
  rw [show y + 4900 + (-1 : Int) = y + 4899 from by ring]
  rw [tdivE (1461 * (y + 4799)) 4 (by omega) (by norm_num)]
  rw [tdivE (367 * (m + 10)) 12 (by omega) (by norm_num)]
  rw [tdivE (y + 4899) 100 (by omega) (by norm_num)]
  rw [tdivE (3 * ((y + 4899) / 100)) 4 (by omega) (by norm_num)]

/-- Closed Euclidean form of the Julian-branch forward formula for months
3..12. -/
lemma gregorianToJDN_jul_ge3 (y m d : Int)
    (hc : ¬(y > 1582 ∨ (y = 1582 ∧ m > 10) ∨ (y = 1582 ∧ m = 10 ∧ d > 14)))
    (hy : 1 ≤ y) (hm1 : 3 ≤ m) (hm2 : m ≤ 12) :
    gregorianToJDN y m d
      = 367 * y - (7 * (y + 5001)) / 4 + (275 * m) / 9 + d + 1729777 := by
  simp only [gregorianToJDN, if_neg hc]
  rw [tdiv_m9 m (by omega) hm2, if_neg (by omega : ¬m ≤ 2)]
  rw [show y + 5001 + (0 : Int) = y + 5001 from by ring]
  rw [tdivE (7 * (y + 5001)) 4 (by omega) (by norm_num)]
  rw [tdivE (275 * m) 9 (by omega) (by norm_num)]

/-- Closed Euclidean form of the Julian-branch forward formula for months
1..2. -/
lemma gregorianToJDN_jul_le2 (y m d : Int)
    (hc : ¬(y > 1582 ∨ (y = 1582 ∧ m > 10) ∨ (y = 1582 ∧ m = 10 ∧ d > 14)))
    (hy : 1 ≤ y) (hm1 : 1 ≤ m) (hm2 : m ≤ 2) :
    gregorianToJDN y m d
      = 367 * y - (7 * (y + 5000)) / 4 + (275 * m) / 9 + d + 1729777 := by
  simp only [gregorianToJDN, if_neg hc]
  rw [tdiv_m9 m hm1 (by omega), if_pos hm2]
  rw [show y + 5001 + (-1 : Int) = y + 5000 from by ring]
  rw [tdivE (7 * (y + 5000)) 4 (by omega) (by norm_num)]
  rw [tdivE (275 * m) 9 (by omega) (by norm_num)]

/-- On the JDN range reachable from valid dates, jdnToGregorian agrees
with its Euclidean reformulation. -/
lemma jdnToGregorian_eq_E (jdn : Int) (h : 1721424 ≤ jdn) :
    jdnToGregorian jdn = jdnToGregorianE jdn := by
  by_cases hb : jdn > 2299160
  · simp only [jdnToGregorian, jdnToGregorianE, if_pos hb]
    rw [tdivE (4 * (jdn + 68569)) 146097 (by omega) (by norm_num)]
    rw [tdivE (146097 * (4 * (jdn + 68569) / 146097) + 3) 4 (by omega) (by norm_num)]
    rw [tdivE (4000 * (jdn + 68569 - (146097 * (4 * (jdn + 68569) / 146097) + 3) / 4 + 1)) 1461001 (by omega) (by norm_num)]
    rw [tdivE (1461 * (4000 * (jdn + 68569 - (146097 * (4 * (jdn + 68569) / 146097) + 3) / 4 + 1) / 1461001)) 4 (by omega) (by norm_num)]
    rw [tdivE (80 * (jdn + 68569 - (146097 * (4 * (jdn + 68569) / 146097) + 3) / 4 - 1461 * (4000 * (jdn + 68569 - (146097 * (4 * (jdn + 68569) / 146097) + 3) / 4 + 1) / 1461001) / 4 + 31)) 2447 (by omega) (by norm_num)]
    rw [tdivE (2447 * (80 * (jdn + 68569 - (146097 * (4 * (jdn + 68569) / 146097) + 3) / 4 - 1461 * (4000 * (jdn + 68569 - (146097 * (4 * (jdn + 68569) / 146097) + 3) / 4 + 1) / 1461001) / 4 + 31) / 2447)) 80 (by omega) (by norm_num)]
    rw [tdivE ((80 * (jdn + 68569 - (146097 * (4 * (jdn + 68569) / 146097) + 3) / 4 - 1461 * (4000 * (jdn + 68569 - (146097 * (4 * (jdn + 68569) / 146097) + 3) / 4 + 1) / 1461001) / 4 + 31) / 2447)) 11 (by omega) (by norm_num)]
  · simp only [jdnToGregorian, jdnToGregorianE, if_neg hb]
    rw [tdivE (jdn + 1402 - 1) 1461 (by omega) (by norm_num)]
    rw [tdivE (jdn + 1402 - 1461 * ((jdn + 1402 - 1) / 1461) - 1) 365 (by omega) (by norm_num)]
    rw [tdivE (jdn + 1402 - 1461 * ((jdn + 1402 - 1) / 1461)) 1461 (by omega) (by norm_num)]
    rw [tdivE (80 * (jdn + 1402 - 1461 * ((jdn + 1402 - 1) / 1461) - 365 * ((jdn + 1402 - 1461 * ((jdn + 1402 - 1) / 1461) - 1) / 365 - (jdn + 1402 - 1461 * ((jdn + 1402 - 1) / 1461)) / 1461) + 30)) 2447 (by omega) (by norm_num)]
    rw [tdivE (2447 * ((80 * (jdn + 1402 - 1461 * ((jdn + 1402 - 1) / 1461) - 365 * ((jdn + 1402 - 1461 * ((jdn + 1402 - 1) / 1461) - 1) / 365 - (jdn + 1402 - 1461 * ((jdn + 1402 - 1) / 1461)) / 1461) + 30)) / 2447)) 80 (by omega) (by norm_num)]
    rw [tdivE (((80 * (jdn + 1402 - 1461 * ((jdn + 1402 - 1) / 1461) - 365 * ((jdn + 1402 - 1461 * ((jdn + 1402 - 1) / 1461) - 1) / 365 - (jdn + 1402 - 1461 * ((jdn + 1402 - 1) / 1461)) / 1461) + 30)) / 2447)) 11 (by omega) (by norm_num)]

lemma jdnToGregorianE_greg_m1 (y d : Int) (hy1 : 1583 ≤ y) (hy2 : y ≤ 3000)
    (hd1 : 1 ≤ d) (hd2 : d ≤ 31) :
    jdnToGregorianE ((1461 * (y + 4799)) / 4 + (367 * (1 + 10)) / 12 - 3 * ((y + 4899) / 100) / 4 + d - 32075) = (y, 1, d) := by
  simp only [jdnToGregorianE]
  rw [if_pos (by omega)]
  simp only [Prod.mk.injEq]
  have hA : (1461 * (y + 4799)) / 4 = 365 * (y + 4799) + (y + 4799) / 4 := by omega
  have hC1 : (y + 4899) / 100 = (y + 4799) / 100 + 1 := by omega
  have hc4 : (y + 4799) / 4 = 25 * ((y + 4799) / 100) + ((y + 4799) % 100) / 4 := by omega
  have hfg : 3 * ((y + 4899) / 100) / 4 + ((y + 4799) / 100) / 4 = (y + 4799) / 100 := by omega
  have h1 : 4 * ((1461 * (y + 4799)) / 4 + (367 * (1 + 10)) / 12 - 3 * ((y + 4899) / 100) / 4 + d - 32075 + 68569) / 146097 = (y + 4799) / 100 + 1 := by omega
  have h1b : (146097 * (4 * ((1461 * (y + 4799)) / 4 + (367 * (1 + 10)) / 12 - 3 * ((y + 4899) / 100) / 4 + d - 32075 + 68569) / 146097) + 3) / 4 = 36524 * ((y + 4799) / 100) + ((y + 4799) / 100) / 4 + 36525 := by omega
  have hl1 : (1461 * (y + 4799)) / 4 + (367 * (1 + 10)) / 12 - 3 * ((y + 4899) / 100) / 4 + d - 32075 + 68569 - (146097 * (4 * ((1461 * (y + 4799)) / 4 + (367 * (1 + 10)) / 12 - 3 * ((y + 4899) / 100) / 4 + d - 32075 + 68569) / 146097) + 3) / 4 = 365 * ((y + 4799) % 100) + ((y + 4799) % 100) / 4 + 306 + d - 1 := by omega
  have h2 : 4000 * ((1461 * (y + 4799)) / 4 + (367 * (1 + 10)) / 12 - 3 * ((y + 4899) / 100) / 4 + d - 32075 + 68569 - (146097 * (4 * ((1461 * (y + 4799)) / 4 + (367 * (1 + 10)) / 12 - 3 * ((y + 4899) / 100) / 4 + d - 32075 + 68569) / 146097) + 3) / 4 + 1) / 1461001 = (y + 4799) % 100 := by omega
  have h2b : 1461 * (4000 * ((1461 * (y + 4799)) / 4 + (367 * (1 + 10)) / 12 - 3 * ((y + 4899) / 100) / 4 + d - 32075 + 68569 - (146097 * (4 * ((1461 * (y + 4799)) / 4 + (367 * (1 + 10)) / 12 - 3 * ((y + 4899) / 100) / 4 + d - 32075 + 68569) / 146097) + 3) / 4 + 1) / 1461001) / 4 = 365 * ((y + 4799) % 100) + ((y + 4799) % 100) / 4 := by omega
  have hl2 : (1461 * (y + 4799)) / 4 + (367 * (1 + 10)) / 12 - 3 * ((y + 4899) / 100) / 4 + d - 32075 + 68569 - (146097 * (4 * ((1461 * (y + 4799)) / 4 + (367 * (1 + 10)) / 12 - 3 * ((y + 4899) / 100) / 4 + d - 32075 + 68569) / 146097) + 3) / 4 - 1461 * (4000 * ((1461 * (y + 4799)) / 4 + (367 * (1 + 10)) / 12 - 3 * ((y + 4899) / 100) / 4 + d - 32075 + 68569 - (146097 * (4 * ((1461 * (y + 4799)) / 4 + (367 * (1 + 10)) / 12 - 3 * ((y + 4899) / 100) / 4 + d - 32075 + 68569) / 146097) + 3) / 4 + 1) / 1461001) / 4 + 31 = 336 + d := by omega
  have h3 : 80 * ((1461 * (y + 4799)) / 4 + (367 * (1 + 10)) / 12 - 3 * ((y + 4899) / 100) / 4 + d - 32075 + 68569 - (146097 * (4 * ((1461 * (y + 4799)) / 4 + (367 * (1 + 10)) / 12 - 3 * ((y + 4899) / 100) / 4 + d - 32075 + 68569) / 146097) + 3) / 4 - 1461 * (4000 * ((1461 * (y + 4799)) / 4 + (367 * (1 + 10)) / 12 - 3 * ((y + 4899) / 100) / 4 + d - 32075 + 68569 - (146097 * (4 * ((1461 * (y + 4799)) / 4 + (367 * (1 + 10)) / 12 - 3 * ((y + 4899) / 100) / 4 + d - 32075 + 68569) / 146097) + 3) / 4 + 1) / 1461001) / 4 + 31) / 2447 = 11 := by omega
  have h4 : 2447 * (80 * ((1461 * (y + 4799)) / 4 + (367 * (1 + 10)) / 12 - 3 * ((y + 4899) / 100) / 4 + d - 32075 + 68569 - (146097 * (4 * ((1461 * (y + 4799)) / 4 + (367 * (1 + 10)) / 12 - 3 * ((y + 4899) / 100) / 4 + d - 32075 + 68569) / 146097) + 3) / 4 - 1461 * (4000 * ((1461 * (y + 4799)) / 4 + (367 * (1 + 10)) / 12 - 3 * ((y + 4899) / 100) / 4 + d - 32075 + 68569 - (146097 * (4 * ((1461 * (y + 4799)) / 4 + (367 * (1 + 10)) / 12 - 3 * ((y + 4899) / 100) / 4 + d - 32075 + 68569) / 146097) + 3) / 4 + 1) / 1461001) / 4 + 31) / 2447) / 80 = 336 := by omega
  have h5 : (80 * ((1461 * (y + 4799)) / 4 + (367 * (1 + 10)) / 12 - 3 * ((y + 4899) / 100) / 4 + d - 32075 + 68569 - (146097 * (4 * ((1461 * (y + 4799)) / 4 + (367 * (1 + 10)) / 12 - 3 * ((y + 4899) / 100) / 4 + d - 32075 + 68569) / 146097) + 3) / 4 - 1461 * (4000 * ((1461 * (y + 4799)) / 4 + (367 * (1 + 10)) / 12 - 3 * ((y + 4899) / 100) / 4 + d - 32075 + 68569 - (146097 * (4 * ((1461 * (y + 4799)) / 4 + (367 * (1 + 10)) / 12 - 3 * ((y + 4899) / 100) / 4 + d - 32075 + 68569) / 146097) + 3) / 4 + 1) / 1461001) / 4 + 31) / 2447) / 11 = 1 := by omega
  exact ⟨by omega, by omega, by omega⟩

lemma jdnToGregorianE_greg_m2 (y d : Int) (hy1 : 1583 ≤ y) (hy2 : y ≤ 3000)
    (hd1 : 1 ≤ d) (hd2 : d ≤ 28 ∨ (y % 4 = 0 ∧ (¬y % 100 = 0 ∨ y % 400 = 0) ∧ d ≤ 29)) :
    jdnToGregorianE ((1461 * (y + 4799)) / 4 + (367 * (2 + 10)) / 12 - 3 * ((y + 4899) / 100) / 4 + d - 32075) = (y, 2, d) := by
  simp only [jdnToGregorianE]
  rw [if_pos (by omega)]
  simp only [Prod.mk.injEq]
  rcases hd2 with hd28 | ⟨hy4, hy100or, hd29⟩
  · have hA : (1461 * (y + 4799)) / 4 = 365 * (y + 4799) + (y + 4799) / 4 := by omega
    have hC1 : (y + 4899) / 100 = (y + 4799) / 100 + 1 := by omega
    have hc4 : (y + 4799) / 4 = 25 * ((y + 4799) / 100) + ((y + 4799) % 100) / 4 := by omega
    have hfg : 3 * ((y + 4899) / 100) / 4 + ((y + 4799) / 100) / 4 = (y + 4799) / 100 := by omega
    have h1 : 4 * ((1461 * (y + 4799)) / 4 + (367 * (2 + 10)) / 12 - 3 * ((y + 4899) / 100) / 4 + d - 32075 + 68569) / 146097 = (y + 4799) / 100 + 1 := by omega
    have h1b : (146097 * (4 * ((1461 * (y + 4799)) / 4 + (367 * (2 + 10)) / 12 - 3 * ((y + 4899) / 100) / 4 + d - 32075 + 68569) / 146097) + 3) / 4 = 36524 * ((y + 4799) / 100) + ((y + 4799) / 100) / 4 + 36525 := by omega
    have hl1 : (1461 * (y + 4799)) / 4 + (367 * (2 + 10)) / 12 - 3 * ((y + 4899) / 100) / 4 + d - 32075 + 68569 - (146097 * (4 * ((1461 * (y + 4799)) / 4 + (367 * (2 + 10)) / 12 - 3 * ((y + 4899) / 100) / 4 + d - 32075 + 68569) / 146097) + 3) / 4 = 365 * ((y + 4799) % 100) + ((y + 4799) % 100) / 4 + 337 + d - 1 := by omega
    have h2 : 4000 * ((1461 * (y + 4799)) / 4 + (367 * (2 + 10)) / 12 - 3 * ((y + 4899) / 100) / 4 + d - 32075 + 68569 - (146097 * (4 * ((1461 * (y + 4799)) / 4 + (367 * (2 + 10)) / 12 - 3 * ((y + 4899) / 100) / 4 + d - 32075 + 68569) / 146097) + 3) / 4 + 1) / 1461001 = (y + 4799) % 100 := by omega
    have h2b : 1461 * (4000 * ((1461 * (y + 4799)) / 4 + (367 * (2 + 10)) / 12 - 3 * ((y + 4899) / 100) / 4 + d - 32075 + 68569 - (146097 * (4 * ((1461 * (y + 4799)) / 4 + (367 * (2 + 10)) / 12 - 3 * ((y + 4899) / 100) / 4 + d - 32075 + 68569) / 146097) + 3) / 4 + 1) / 1461001) / 4 = 365 * ((y + 4799) % 100) + ((y + 4799) % 100) / 4 := by omega
    have hl2 : (1461 * (y + 4799)) / 4 + (367 * (2 + 10)) / 12 - 3 * ((y + 4899) / 100) / 4 + d - 32075 + 68569 - (146097 * (4 * ((1461 * (y + 4799)) / 4 + (367 * (2 + 10)) / 12 - 3 * ((y + 4899) / 100) / 4 + d - 32075 + 68569) / 146097) + 3) / 4 - 1461 * (4000 * ((1461 * (y + 4799)) / 4 + (367 * (2 + 10)) / 12 - 3 * ((y + 4899) / 100) / 4 + d - 32075 + 68569 - (146097 * (4 * ((1461 * (y + 4799)) / 4 + (367 * (2 + 10)) / 12 - 3 * ((y + 4899) / 100) / 4 + d - 32075 + 68569) / 146097) + 3) / 4 + 1) / 1461001) / 4 + 31 = 367 + d := by omega
    have h3 : 80 * ((1461 * (y + 4799)) / 4 + (367 * (2 + 10)) / 12 - 3 * ((y + 4899) / 100) / 4 + d - 32075 + 68569 - (146097 * (4 * ((1461 * (y + 4799)) / 4 + (367 * (2 + 10)) / 12 - 3 * ((y + 4899) / 100) / 4 + d - 32075 + 68569) / 146097) + 3) / 4 - 1461 * (4000 * ((1461 * (y + 4799)) / 4 + (367 * (2 + 10)) / 12 - 3 * ((y + 4899) / 100) / 4 + d - 32075 + 68569 - (146097 * (4 * ((1461 * (y + 4799)) / 4 + (367 * (2 + 10)) / 12 - 3 * ((y + 4899) / 100) / 4 + d - 32075 + 68569) / 146097) + 3) / 4 + 1) / 1461001) / 4 + 31) / 2447 = 12 := by omega
    have h4 : 2447 * (80 * ((1461 * (y + 4799)) / 4 + (367 * (2 + 10)) / 12 - 3 * ((y + 4899) / 100) / 4 + d - 32075 + 68569 - (146097 * (4 * ((1461 * (y + 4799)) / 4 + (367 * (2 + 10)) / 12 - 3 * ((y + 4899) / 100) / 4 + d - 32075 + 68569) / 146097) + 3) / 4 - 1461 * (4000 * ((1461 * (y + 4799)) / 4 + (367 * (2 + 10)) / 12 - 3 * ((y + 4899) / 100) / 4 + d - 32075 + 68569 - (146097 * (4 * ((1461 * (y + 4799)) / 4 + (367 * (2 + 10)) / 12 - 3 * ((y + 4899) / 100) / 4 + d - 32075 + 68569) / 146097) + 3) / 4 + 1) / 1461001) / 4 + 31) / 2447) / 80 = 367 := by omega
    have h5 : (80 * ((1461 * (y + 4799)) / 4 + (367 * (2 + 10)) / 12 - 3 * ((y + 4899) / 100) / 4 + d - 32075 + 68569 - (146097 * (4 * ((1461 * (y + 4799)) / 4 + (367 * (2 + 10)) / 12 - 3 * ((y + 4899) / 100) / 4 + d - 32075 + 68569) / 146097) + 3) / 4 - 1461 * (4000 * ((1461 * (y + 4799)) / 4 + (367 * (2 + 10)) / 12 - 3 * ((y + 4899) / 100) / 4 + d - 32075 + 68569 - (146097 * (4 * ((1461 * (y + 4799)) / 4 + (367 * (2 + 10)) / 12 - 3 * ((y + 4899) / 100) / 4 + d - 32075 + 68569) / 146097) + 3) / 4 + 1) / 1461001) / 4 + 31) / 2447) / 11 = 1 := by omega
    exact ⟨by omega, by omega, by omega⟩
  · rcases hy100or with hy100 | hy400
    · have hE : (y + 4799) % 100 ≤ 98 := by omega
      have hA : (1461 * (y + 4799)) / 4 = 365 * (y + 4799) + (y + 4799) / 4 := by omega
      have hC1 : (y + 4899) / 100 = (y + 4799) / 100 + 1 := by omega
      have hc4 : (y + 4799) / 4 = 25 * ((y + 4799) / 100) + ((y + 4799) % 100) / 4 := by omega
      have hfg : 3 * ((y + 4899) / 100) / 4 + ((y + 4799) / 100) / 4 = (y + 4799) / 100 := by omega
      have h1 : 4 * ((1461 * (y + 4799)) / 4 + (367 * (2 + 10)) / 12 - 3 * ((y + 4899) / 100) / 4 + d - 32075 + 68569) / 146097 = (y + 4799) / 100 + 1 := by omega
      have h1b : (146097 * (4 * ((1461 * (y + 4799)) / 4 + (367 * (2 + 10)) / 12 - 3 * ((y + 4899) / 100) / 4 + d - 32075 + 68569) / 146097) + 3) / 4 = 36524 * ((y + 4799) / 100) + ((y + 4799) / 100) / 4 + 36525 := by omega
      have hl1 : (1461 * (y + 4799)) / 4 + (367 * (2 + 10)) / 12 - 3 * ((y + 4899) / 100) / 4 + d - 32075 + 68569 - (146097 * (4 * ((1461 * (y + 4799)) / 4 + (367 * (2 + 10)) / 12 - 3 * ((y + 4899) / 100) / 4 + d - 32075 + 68569) / 146097) + 3) / 4 = 365 * ((y + 4799) % 100) + ((y + 4799) % 100) / 4 + 337 + d - 1 := by omega
      have h2 : 4000 * ((1461 * (y + 4799)) / 4 + (367 * (2 + 10)) / 12 - 3 * ((y + 4899) / 100) / 4 + d - 32075 + 68569 - (146097 * (4 * ((1461 * (y + 4799)) / 4 + (367 * (2 + 10)) / 12 - 3 * ((y + 4899) / 100) / 4 + d - 32075 + 68569) / 146097) + 3) / 4 + 1) / 1461001 = (y + 4799) % 100 := by omega
      have h2b : 1461 * (4000 * ((1461 * (y + 4799)) / 4 + (367 * (2 + 10)) / 12 - 3 * ((y + 4899) / 100) / 4 + d - 32075 + 68569 - (146097 * (4 * ((1461 * (y + 4799)) / 4 + (367 * (2 + 10)) / 12 - 3 * ((y + 4899) / 100) / 4 + d - 32075 + 68569) / 146097) + 3) / 4 + 1) / 1461001) / 4 = 365 * ((y + 4799) % 100) + ((y + 4799) % 100) / 4 := by omega
      have hl2 : (1461 * (y + 4799)) / 4 + (367 * (2 + 10)) / 12 - 3 * ((y + 4899) / 100) / 4 + d - 32075 + 68569 - (146097 * (4 * ((1461 * (y + 4799)) / 4 + (367 * (2 + 10)) / 12 - 3 * ((y + 4899) / 100) / 4 + d - 32075 + 68569) / 146097) + 3) / 4 - 1461 * (4000 * ((1461 * (y + 4799)) / 4 + (367 * (2 + 10)) / 12 - 3 * ((y + 4899) / 100) / 4 + d - 32075 + 68569 - (146097 * (4 * ((1461 * (y + 4799)) / 4 + (367 * (2 + 10)) / 12 - 3 * ((y + 4899) / 100) / 4 + d - 32075 + 68569) / 146097) + 3) / 4 + 1) / 1461001) / 4 + 31 = 367 + d := by omega
      have h3 : 80 * ((1461 * (y + 4799)) / 4 + (367 * (2 + 10)) / 12 - 3 * ((y + 4899) / 100) / 4 + d - 32075 + 68569 - (146097 * (4 * ((1461 * (y + 4799)) / 4 + (367 * (2 + 10)) / 12 - 3 * ((y + 4899) / 100) / 4 + d - 32075 + 68569) / 146097) + 3) / 4 - 1461 * (4000 * ((1461 * (y + 4799)) / 4 + (367 * (2 + 10)) / 12 - 3 * ((y + 4899) / 100) / 4 + d - 32075 + 68569 - (146097 * (4 * ((1461 * (y + 4799)) / 4 + (367 * (2 + 10)) / 12 - 3 * ((y + 4899) / 100) / 4 + d - 32075 + 68569) / 146097) + 3) / 4 + 1) / 1461001) / 4 + 31) / 2447 = 12 := by omega
      have h4 : 2447 * (80 * ((1461 * (y + 4799)) / 4 + (367 * (2 + 10)) / 12 - 3 * ((y + 4899) / 100) / 4 + d - 32075 + 68569 - (146097 * (4 * ((1461 * (y + 4799)) / 4 + (367 * (2 + 10)) / 12 - 3 * ((y + 4899) / 100) / 4 + d - 32075 + 68569) / 146097) + 3) / 4 - 1461 * (4000 * ((1461 * (y + 4799)) / 4 + (367 * (2 + 10)) / 12 - 3 * ((y + 4899) / 100) / 4 + d - 32075 + 68569 - (146097 * (4 * ((1461 * (y + 4799)) / 4 + (367 * (2 + 10)) / 12 - 3 * ((y + 4899) / 100) / 4 + d - 32075 + 68569) / 146097) + 3) / 4 + 1) / 1461001) / 4 + 31) / 2447) / 80 = 367 := by omega
      have h5 : (80 * ((1461 * (y + 4799)) / 4 + (367 * (2 + 10)) / 12 - 3 * ((y + 4899) / 100) / 4 + d - 32075 + 68569 - (146097 * (4 * ((1461 * (y + 4799)) / 4 + (367 * (2 + 10)) / 12 - 3 * ((y + 4899) / 100) / 4 + d - 32075 + 68569) / 146097) + 3) / 4 - 1461 * (4000 * ((1461 * (y + 4799)) / 4 + (367 * (2 + 10)) / 12 - 3 * ((y + 4899) / 100) / 4 + d - 32075 + 68569 - (146097 * (4 * ((1461 * (y + 4799)) / 4 + (367 * (2 + 10)) / 12 - 3 * ((y + 4899) / 100) / 4 + d - 32075 + 68569) / 146097) + 3) / 4 + 1) / 1461001) / 4 + 31) / 2447) / 11 = 1 := by omega
      exact ⟨by omega, by omega, by omega⟩
    · have hD : (y + 4799) / 100 % 4 = 3 := by omega
      have hA : (1461 * (y + 4799)) / 4 = 365 * (y + 4799) + (y + 4799) / 4 := by omega
      have hC1 : (y + 4899) / 100 = (y + 4799) / 100 + 1 := by omega
      have hc4 : (y + 4799) / 4 = 25 * ((y + 4799) / 100) + ((y + 4799) % 100) / 4 := by omega
      have hfg : 3 * ((y + 4899) / 100) / 4 + ((y + 4799) / 100) / 4 = (y + 4799) / 100 := by omega
      have h1 : 4 * ((1461 * (y + 4799)) / 4 + (367 * (2 + 10)) / 12 - 3 * ((y + 4899) / 100) / 4 + d - 32075 + 68569) / 146097 = (y + 4799) / 100 + 1 := by omega
      have h1b : (146097 * (4 * ((1461 * (y + 4799)) / 4 + (367 * (2 + 10)) / 12 - 3 * ((y + 4899) / 100) / 4 + d - 32075 + 68569) / 146097) + 3) / 4 = 36524 * ((y + 4799) / 100) + ((y + 4799) / 100) / 4 + 36525 := by omega
      have hl1 : (1461 * (y + 4799)) / 4 + (367 * (2 + 10)) / 12 - 3 * ((y + 4899) / 100) / 4 + d - 32075 + 68569 - (146097 * (4 * ((1461 * (y + 4799)) / 4 + (367 * (2 + 10)) / 12 - 3 * ((y + 4899) / 100) / 4 + d - 32075 + 68569) / 146097) + 3) / 4 = 365 * ((y + 4799) % 100) + ((y + 4799) % 100) / 4 + 337 + d - 1 := by omega
      have h2 : 4000 * ((1461 * (y + 4799)) / 4 + (367 * (2 + 10)) / 12 - 3 * ((y + 4899) / 100) / 4 + d - 32075 + 68569 - (146097 * (4 * ((1461 * (y + 4799)) / 4 + (367 * (2 + 10)) / 12 - 3 * ((y + 4899) / 100) / 4 + d - 32075 + 68569) / 146097) + 3) / 4 + 1) / 1461001 = (y + 4799) % 100 := by omega
      have h2b : 1461 * (4000 * ((1461 * (y + 4799)) / 4 + (367 * (2 + 10)) / 12 - 3 * ((y + 4899) / 100) / 4 + d - 32075 + 68569 - (146097 * (4 * ((1461 * (y + 4799)) / 4 + (367 * (2 + 10)) / 12 - 3 * ((y + 4899) / 100) / 4 + d - 32075 + 68569) / 146097) + 3) / 4 + 1) / 1461001) / 4 = 365 * ((y + 4799) % 100) + ((y + 4799) % 100) / 4 := by omega
      have hl2 : (1461 * (y + 4799)) / 4 + (367 * (2 + 10)) / 12 - 3 * ((y + 4899) / 100) / 4 + d - 32075 + 68569 - (146097 * (4 * ((1461 * (y + 4799)) / 4 + (367 * (2 + 10)) / 12 - 3 * ((y + 4899) / 100) / 4 + d - 32075 + 68569) / 146097) + 3) / 4 - 1461 * (4000 * ((1461 * (y + 4799)) / 4 + (367 * (2 + 10)) / 12 - 3 * ((y + 4899) / 100) / 4 + d - 32075 + 68569 - (146097 * (4 * ((1461 * (y + 4799)) / 4 + (367 * (2 + 10)) / 12 - 3 * ((y + 4899) / 100) / 4 + d - 32075 + 68569) / 146097) + 3) / 4 + 1) / 1461001) / 4 + 31 = 367 + d := by omega
      have h3 : 80 * ((1461 * (y + 4799)) / 4 + (367 * (2 + 10)) / 12 - 3 * ((y + 4899) / 100) / 4 + d - 32075 + 68569 - (146097 * (4 * ((1461 * (y + 4799)) / 4 + (367 * (2 + 10)) / 12 - 3 * ((y + 4899) / 100) / 4 + d - 32075 + 68569) / 146097) + 3) / 4 - 1461 * (4000 * ((1461 * (y + 4799)) / 4 + (367 * (2 + 10)) / 12 - 3 * ((y + 4899) / 100) / 4 + d - 32075 + 68569 - (146097 * (4 * ((1461 * (y + 4799)) / 4 + (367 * (2 + 10)) / 12 - 3 * ((y + 4899) / 100) / 4 + d - 32075 + 68569) / 146097) + 3) / 4 + 1) / 1461001) / 4 + 31) / 2447 = 12 := by omega
      have h4 : 2447 * (80 * ((1461 * (y + 4799)) / 4 + (367 * (2 + 10)) / 12 - 3 * ((y + 4899) / 100) / 4 + d - 32075 + 68569 - (146097 * (4 * ((1461 * (y + 4799)) / 4 + (367 * (2 + 10)) / 12 - 3 * ((y + 4899) / 100) / 4 + d - 32075 + 68569) / 146097) + 3) / 4 - 1461 * (4000 * ((1461 * (y + 4799)) / 4 + (367 * (2 + 10)) / 12 - 3 * ((y + 4899) / 100) / 4 + d - 32075 + 68569 - (146097 * (4 * ((1461 * (y + 4799)) / 4 + (367 * (2 + 10)) / 12 - 3 * ((y + 4899) / 100) / 4 + d - 32075 + 68569) / 146097) + 3) / 4 + 1) / 1461001) / 4 + 31) / 2447) / 80 = 367 := by omega
      have h5 : (80 * ((1461 * (y + 4799)) / 4 + (367 * (2 + 10)) / 12 - 3 * ((y + 4899) / 100) / 4 + d - 32075 + 68569 - (146097 * (4 * ((1461 * (y + 4799)) / 4 + (367 * (2 + 10)) / 12 - 3 * ((y + 4899) / 100) / 4 + d - 32075 + 68569) / 146097) + 3) / 4 - 1461 * (4000 * ((1461 * (y + 4799)) / 4 + (367 * (2 + 10)) / 12 - 3 * ((y + 4899) / 100) / 4 + d - 32075 + 68569 - (146097 * (4 * ((1461 * (y + 4799)) / 4 + (367 * (2 + 10)) / 12 - 3 * ((y + 4899) / 100) / 4 + d - 32075 + 68569) / 146097) + 3) / 4 + 1) / 1461001) / 4 + 31) / 2447) / 11 = 1 := by omega
      exact ⟨by omega, by omega, by omega⟩

lemma jdnToGregorianE_greg_m3 (y d : Int) (hy1 : 1583 ≤ y) (hy2 : y ≤ 3000)
    (hd1 : 1 ≤ d) (hd2 : d ≤ 31) :
    jdnToGregorianE ((1461 * (y + 4800)) / 4 + (367 * (3 - 2)) / 12 - 3 * ((y + 4900) / 100) / 4 + d - 32075) = (y, 3, d) := by
  simp only [jdnToGregorianE]
  rw [if_pos (by omega)]
  simp only [Prod.mk.injEq]
  have hA : (1461 * (y + 4800)) / 4 = 365 * (y + 4800) + (y + 4800) / 4 := by omega
  have hC1 : (y + 4900) / 100 = (y + 4800) / 100 + 1 := by omega
  have hc4 : (y + 4800) / 4 = 25 * ((y + 4800) / 100) + ((y + 4800) % 100) / 4 := by omega
  have hfg : 3 * ((y + 4900) / 100) / 4 + ((y + 4800) / 100) / 4 = (y + 4800) / 100 := by omega
  have h1 : 4 * ((1461 * (y + 4800)) / 4 + (367 * (3 - 2)) / 12 - 3 * ((y + 4900) / 100) / 4 + d - 32075 + 68569) / 146097 = (y + 4800) / 100 + 1 := by omega
  have h1b : (146097 * (4 * ((1461 * (y + 4800)) / 4 + (367 * (3 - 2)) / 12 - 3 * ((y + 4900) / 100) / 4 + d - 32075 + 68569) / 146097) + 3) / 4 = 36524 * ((y + 4800) / 100) + ((y + 4800) / 100) / 4 + 36525 := by omega
  have hl1 : (1461 * (y + 4800)) / 4 + (367 * (3 - 2)) / 12 - 3 * ((y + 4900) / 100) / 4 + d - 32075 + 68569 - (146097 * (4 * ((1461 * (y + 4800)) / 4 + (367 * (3 - 2)) / 12 - 3 * ((y + 4900) / 100) / 4 + d - 32075 + 68569) / 146097) + 3) / 4 = 365 * ((y + 4800) % 100) + ((y + 4800) % 100) / 4 + 0 + d - 1 := by omega
  have h2 : 4000 * ((1461 * (y + 4800)) / 4 + (367 * (3 - 2)) / 12 - 3 * ((y + 4900) / 100) / 4 + d - 32075 + 68569 - (146097 * (4 * ((1461 * (y + 4800)) / 4 + (367 * (3 - 2)) / 12 - 3 * ((y + 4900) / 100) / 4 + d - 32075 + 68569) / 146097) + 3) / 4 + 1) / 1461001 = (y + 4800) % 100 := by omega
  have h2b : 1461 * (4000 * ((1461 * (y + 4800)) / 4 + (367 * (3 - 2)) / 12 - 3 * ((y + 4900) / 100) / 4 + d - 32075 + 68569 - (146097 * (4 * ((1461 * (y + 4800)) / 4 + (367 * (3 - 2)) / 12 - 3 * ((y + 4900) / 100) / 4 + d - 32075 + 68569) / 146097) + 3) / 4 + 1) / 1461001) / 4 = 365 * ((y + 4800) % 100) + ((y + 4800) % 100) / 4 := by omega
  have hl2 : (1461 * (y + 4800)) / 4 + (367 * (3 - 2)) / 12 - 3 * ((y + 4900) / 100) / 4 + d - 32075 + 68569 - (146097 * (4 * ((1461 * (y + 4800)) / 4 + (367 * (3 - 2)) / 12 - 3 * ((y + 4900) / 100) / 4 + d - 32075 + 68569) / 146097) + 3) / 4 - 1461 * (4000 * ((1461 * (y + 4800)) / 4 + (367 * (3 - 2)) / 12 - 3 * ((y + 4900) / 100) / 4 + d - 32075 + 68569 - (146097 * (4 * ((1461 * (y + 4800)) / 4 + (367 * (3 - 2)) / 12 - 3 * ((y + 4900) / 100) / 4 + d - 32075 + 68569) / 146097) + 3) / 4 + 1) / 1461001) / 4 + 31 = 30 + d := by omega
  have h3 : 80 * ((1461 * (y + 4800)) / 4 + (367 * (3 - 2)) / 12 - 3 * ((y + 4900) / 100) / 4 + d - 32075 + 68569 - (146097 * (4 * ((1461 * (y + 4800)) / 4 + (367 * (3 - 2)) / 12 - 3 * ((y + 4900) / 100) / 4 + d - 32075 + 68569) / 146097) + 3) / 4 - 1461 * (4000 * ((1461 * (y + 4800)) / 4 + (367 * (3 - 2)) / 12 - 3 * ((y + 4900) / 100) / 4 + d - 32075 + 68569 - (146097 * (4 * ((1461 * (y + 4800)) / 4 + (367 * (3 - 2)) / 12 - 3 * ((y + 4900) / 100) / 4 + d - 32075 + 68569) / 146097) + 3) / 4 + 1) / 1461001) / 4 + 31) / 2447 = 1 := by omega
  have h4 : 2447 * (80 * ((1461 * (y + 4800)) / 4 + (367 * (3 - 2)) / 12 - 3 * ((y + 4900) / 100) / 4 + d - 32075 + 68569 - (146097 * (4 * ((1461 * (y + 4800)) / 4 + (367 * (3 - 2)) / 12 - 3 * ((y + 4900) / 100) / 4 + d - 32075 + 68569) / 146097) + 3) / 4 - 1461 * (4000 * ((1461 * (y + 4800)) / 4 + (367 * (3 - 2)) / 12 - 3 * ((y + 4900) / 100) / 4 + d - 32075 + 68569 - (146097 * (4 * ((1461 * (y + 4800)) / 4 + (367 * (3 - 2)) / 12 - 3 * ((y + 4900) / 100) / 4 + d - 32075 + 68569) / 146097) + 3) / 4 + 1) / 1461001) / 4 + 31) / 2447) / 80 = 30 := by omega
  have h5 : (80 * ((1461 * (y + 4800)) / 4 + (367 * (3 - 2)) / 12 - 3 * ((y + 4900) / 100) / 4 + d - 32075 + 68569 - (146097 * (4 * ((1461 * (y + 4800)) / 4 + (367 * (3 - 2)) / 12 - 3 * ((y + 4900) / 100) / 4 + d - 32075 + 68569) / 146097) + 3) / 4 - 1461 * (4000 * ((1461 * (y + 4800)) / 4 + (367 * (3 - 2)) / 12 - 3 * ((y + 4900) / 100) / 4 + d - 32075 + 68569 - (146097 * (4 * ((1461 * (y + 4800)) / 4 + (367 * (3 - 2)) / 12 - 3 * ((y + 4900) / 100) / 4 + d - 32075 + 68569) / 146097) + 3) / 4 + 1) / 1461001) / 4 + 31) / 2447) / 11 = 0 := by omega
  exact ⟨by omega, by omega, by omega⟩

lemma jdnToGregorianE_greg_m4 (y d : Int) (hy1 : 1583 ≤ y) (hy2 : y ≤ 3000)
    (hd1 : 1 ≤ d) (hd2 : d ≤ 30) :
    jdnToGregorianE ((1461 * (y + 4800)) / 4 + (367 * (4 - 2)) / 12 - 3 * ((y + 4900) / 100) / 4 + d - 32075) = (y, 4, d) := by
  simp only [jdnToGregorianE]
  rw [if_pos (by omega)]
  simp only [Prod.mk.injEq]
  have hA : (1461 * (y + 4800)) / 4 = 365 * (y + 4800) + (y + 4800) / 4 := by omega
  have hC1 : (y + 4900) / 100 = (y + 4800) / 100 + 1 := by omega
  have hc4 : (y + 4800) / 4 = 25 * ((y + 4800) / 100) + ((y + 4800) % 100) / 4 := by omega
  have hfg : 3 * ((y + 4900) / 100) / 4 + ((y + 4800) / 100) / 4 = (y + 4800) / 100 := by omega
  have h1 : 4 * ((1461 * (y + 4800)) / 4 + (367 * (4 - 2)) / 12 - 3 * ((y + 4900) / 100) / 4 + d - 32075 + 68569) / 146097 = (y + 4800) / 100 + 1 := by omega
  have h1b : (146097 * (4 * ((1461 * (y + 4800)) / 4 + (367 * (4 - 2)) / 12 - 3 * ((y + 4900) / 100) / 4 + d - 32075 + 68569) / 146097) + 3) / 4 = 36524 * ((y + 4800) / 100) + ((y + 4800) / 100) / 4 + 36525 := by omega
  have hl1 : (1461 * (y + 4800)) / 4 + (367 * (4 - 2)) / 12 - 3 * ((y + 4900) / 100) / 4 + d - 32075 + 68569 - (146097 * (4 * ((1461 * (y + 4800)) / 4 + (367 * (4 - 2)) / 12 - 3 * ((y + 4900) / 100) / 4 + d - 32075 + 68569) / 146097) + 3) / 4 = 365 * ((y + 4800) % 100) + ((y + 4800) % 100) / 4 + 31 + d - 1 := by omega
  have h2 : 4000 * ((1461 * (y + 4800)) / 4 + (367 * (4 - 2)) / 12 - 3 * ((y + 4900) / 100) / 4 + d - 32075 + 68569 - (146097 * (4 * ((1461 * (y + 4800)) / 4 + (367 * (4 - 2)) / 12 - 3 * ((y + 4900) / 100) / 4 + d - 32075 + 68569) / 146097) + 3) / 4 + 1) / 1461001 = (y + 4800) % 100 := by omega
  have h2b : 1461 * (4000 * ((1461 * (y + 4800)) / 4 + (367 * (4 - 2)) / 12 - 3 * ((y + 4900) / 100) / 4 + d - 32075 + 68569 - (146097 * (4 * ((1461 * (y + 4800)) / 4 + (367 * (4 - 2)) / 12 - 3 * ((y + 4900) / 100) / 4 + d - 32075 + 68569) / 146097) + 3) / 4 + 1) / 1461001) / 4 = 365 * ((y + 4800) % 100) + ((y + 4800) % 100) / 4 := by omega
  have hl2 : (1461 * (y + 4800)) / 4 + (367 * (4 - 2)) / 12 - 3 * ((y + 4900) / 100) / 4 + d - 32075 + 68569 - (146097 * (4 * ((1461 * (y + 4800)) / 4 + (367 * (4 - 2)) / 12 - 3 * ((y + 4900) / 100) / 4 + d - 32075 + 68569) / 146097) + 3) / 4 - 1461 * (4000 * ((1461 * (y + 4800)) / 4 + (367 * (4 - 2)) / 12 - 3 * ((y + 4900) / 100) / 4 + d - 32075 + 68569 - (146097 * (4 * ((1461 * (y + 4800)) / 4 + (367 * (4 - 2)) / 12 - 3 * ((y + 4900) / 100) / 4 + d - 32075 + 68569) / 146097) + 3) / 4 + 1) / 1461001) / 4 + 31 = 61 + d := by omega
  have h3 : 80 * ((1461 * (y + 4800)) / 4 + (367 * (4 - 2)) / 12 - 3 * ((y + 4900) / 100) / 4 + d - 32075 + 68569 - (146097 * (4 * ((1461 * (y + 4800)) / 4 + (367 * (4 - 2)) / 12 - 3 * ((y + 4900) / 100) / 4 + d - 32075 + 68569) / 146097) + 3) / 4 - 1461 * (4000 * ((1461 * (y + 4800)) / 4 + (367 * (4 - 2)) / 12 - 3 * ((y + 4900) / 100) / 4 + d - 32075 + 68569 - (146097 * (4 * ((1461 * (y + 4800)) / 4 + (367 * (4 - 2)) / 12 - 3 * ((y + 4900) / 100) / 4 + d - 32075 + 68569) / 146097) + 3) / 4 + 1) / 1461001) / 4 + 31) / 2447 = 2 := by omega
  have h4 : 2447 * (80 * ((1461 * (y + 4800)) / 4 + (367 * (4 - 2)) / 12 - 3 * ((y + 4900) / 100) / 4 + d - 32075 + 68569 - (146097 * (4 * ((1461 * (y + 4800)) / 4 + (367 * (4 - 2)) / 12 - 3 * ((y + 4900) / 100) / 4 + d - 32075 + 68569) / 146097) + 3) / 4 - 1461 * (4000 * ((1461 * (y + 4800)) / 4 + (367 * (4 - 2)) / 12 - 3 * ((y + 4900) / 100) / 4 + d - 32075 + 68569 - (146097 * (4 * ((1461 * (y + 4800)) / 4 + (367 * (4 - 2)) / 12 - 3 * ((y + 4900) / 100) / 4 + d - 32075 + 68569) / 146097) + 3) / 4 + 1) / 1461001) / 4 + 31) / 2447) / 80 = 61 := by omega
  have h5 : (80 * ((1461 * (y + 4800)) / 4 + (367 * (4 - 2)) / 12 - 3 * ((y + 4900) / 100) / 4 + d - 32075 + 68569 - (146097 * (4 * ((1461 * (y + 4800)) / 4 + (367 * (4 - 2)) / 12 - 3 * ((y + 4900) / 100) / 4 + d - 32075 + 68569) / 146097) + 3) / 4 - 1461 * (4000 * ((1461 * (y + 4800)) / 4 + (367 * (4 - 2)) / 12 - 3 * ((y + 4900) / 100) / 4 + d - 32075 + 68569 - (146097 * (4 * ((1461 * (y + 4800)) / 4 + (367 * (4 - 2)) / 12 - 3 * ((y + 4900) / 100) / 4 + d - 32075 + 68569) / 146097) + 3) / 4 + 1) / 1461001) / 4 + 31) / 2447) / 11 = 0 := by omega
  exact ⟨by omega, by omega, by omega⟩

lemma jdnToGregorianE_greg_m5 (y d : Int) (hy1 : 1583 ≤ y) (hy2 : y ≤ 3000)
    (hd1 : 1 ≤ d) (hd2 : d ≤ 31) :
    jdnToGregorianE ((1461 * (y + 4800)) / 4 + (367 * (5 - 2)) / 12 - 3 * ((y + 4900) / 100) / 4 + d - 32075) = (y, 5, d) := by
  simp only [jdnToGregorianE]
  rw [if_pos (by omega)]
  simp only [Prod.mk.injEq]
  have hA : (1461 * (y + 4800)) / 4 = 365 * (y + 4800) + (y + 4800) / 4 := by omega
  have hC1 : (y + 4900) / 100 = (y + 4800) / 100 + 1 := by omega
  have hc4 : (y + 4800) / 4 = 25 * ((y + 4800) / 100) + ((y + 4800) % 100) / 4 := by omega
  have hfg : 3 * ((y + 4900) / 100) / 4 + ((y + 4800) / 100) / 4 = (y + 4800) / 100 := by omega
  have h1 : 4 * ((1461 * (y + 4800)) / 4 + (367 * (5 - 2)) / 12 - 3 * ((y + 4900) / 100) / 4 + d - 32075 + 68569) / 146097 = (y + 4800) / 100 + 1 := by omega
  have h1b : (146097 * (4 * ((1461 * (y + 4800)) / 4 + (367 * (5 - 2)) / 12 - 3 * ((y + 4900) / 100) / 4 + d - 32075 + 68569) / 146097) + 3) / 4 = 36524 * ((y + 4800) / 100) + ((y + 4800) / 100) / 4 + 36525 := by omega
  have hl1 : (1461 * (y + 4800)) / 4 + (367 * (5 - 2)) / 12 - 3 * ((y + 4900) / 100) / 4 + d - 32075 + 68569 - (146097 * (4 * ((1461 * (y + 4800)) / 4 + (367 * (5 - 2)) / 12 - 3 * ((y + 4900) / 100) / 4 + d - 32075 + 68569) / 146097) + 3) / 4 = 365 * ((y + 4800) % 100) + ((y + 4800) % 100) / 4 + 61 + d - 1 := by omega
  have h2 : 4000 * ((1461 * (y + 4800)) / 4 + (367 * (5 - 2)) / 12 - 3 * ((y + 4900) / 100) / 4 + d - 32075 + 68569 - (146097 * (4 * ((1461 * (y + 4800)) / 4 + (367 * (5 - 2)) / 12 - 3 * ((y + 4900) / 100) / 4 + d - 32075 + 68569) / 146097) + 3) / 4 + 1) / 1461001 = (y + 4800) % 100 := by omega
  have h2b : 1461 * (4000 * ((1461 * (y + 4800)) / 4 + (367 * (5 - 2)) / 12 - 3 * ((y + 4900) / 100) / 4 + d - 32075 + 68569 - (146097 * (4 * ((1461 * (y + 4800)) / 4 + (367 * (5 - 2)) / 12 - 3 * ((y + 4900) / 100) / 4 + d - 32075 + 68569) / 146097) + 3) / 4 + 1) / 1461001) / 4 = 365 * ((y + 4800) % 100) + ((y + 4800) % 100) / 4 := by omega
  have hl2 : (1461 * (y + 4800)) / 4 + (367 * (5 - 2)) / 12 - 3 * ((y + 4900) / 100) / 4 + d - 32075 + 68569 - (146097 * (4 * ((1461 * (y + 4800)) / 4 + (367 * (5 - 2)) / 12 - 3 * ((y + 4900) / 100) / 4 + d - 32075 + 68569) / 146097) + 3) / 4 - 1461 * (4000 * ((1461 * (y + 4800)) / 4 + (367 * (5 - 2)) / 12 - 3 * ((y + 4900) / 100) / 4 + d - 32075 + 68569 - (146097 * (4 * ((1461 * (y + 4800)) / 4 + (367 * (5 - 2)) / 12 - 3 * ((y + 4900) / 100) / 4 + d - 32075 + 68569) / 146097) + 3) / 4 + 1) / 1461001) / 4 + 31 = 91 + d := by omega
  have h3 : 80 * ((1461 * (y + 4800)) / 4 + (367 * (5 - 2)) / 12 - 3 * ((y + 4900) / 100) / 4 + d - 32075 + 68569 - (146097 * (4 * ((1461 * (y + 4800)) / 4 + (367 * (5 - 2)) / 12 - 3 * ((y + 4900) / 100) / 4 + d - 32075 + 68569) / 146097) + 3) / 4 - 1461 * (4000 * ((1461 * (y + 4800)) / 4 + (367 * (5 - 2)) / 12 - 3 * ((y + 4900) / 100) / 4 + d - 32075 + 68569 - (146097 * (4 * ((1461 * (y + 4800)) / 4 + (367 * (5 - 2)) / 12 - 3 * ((y + 4900) / 100) / 4 + d - 32075 + 68569) / 146097) + 3) / 4 + 1) / 1461001) / 4 + 31) / 2447 = 3 := by omega
  have h4 : 2447 * (80 * ((1461 * (y + 4800)) / 4 + (367 * (5 - 2)) / 12 - 3 * ((y + 4900) / 100) / 4 + d - 32075 + 68569 - (146097 * (4 * ((1461 * (y + 4800)) / 4 + (367 * (5 - 2)) / 12 - 3 * ((y + 4900) / 100) / 4 + d - 32075 + 68569) / 146097) + 3) / 4 - 1461 * (4000 * ((1461 * (y + 4800)) / 4 + (367 * (5 - 2)) / 12 - 3 * ((y + 4900) / 100) / 4 + d - 32075 + 68569 - (146097 * (4 * ((1461 * (y + 4800)) / 4 + (367 * (5 - 2)) / 12 - 3 * ((y + 4900) / 100) / 4 + d - 32075 + 68569) / 146097) + 3) / 4 + 1) / 1461001) / 4 + 31) / 2447) / 80 = 91 := by omega
  have h5 : (80 * ((1461 * (y + 4800)) / 4 + (367 * (5 - 2)) / 12 - 3 * ((y + 4900) / 100) / 4 + d - 32075 + 68569 - (146097 * (4 * ((1461 * (y + 4800)) / 4 + (367 * (5 - 2)) / 12 - 3 * ((y + 4900) / 100) / 4 + d - 32075 + 68569) / 146097) + 3) / 4 - 1461 * (4000 * ((1461 * (y + 4800)) / 4 + (367 * (5 - 2)) / 12 - 3 * ((y + 4900) / 100) / 4 + d - 32075 + 68569 - (146097 * (4 * ((1461 * (y + 4800)) / 4 + (367 * (5 - 2)) / 12 - 3 * ((y + 4900) / 100) / 4 + d - 32075 + 68569) / 146097) + 3) / 4 + 1) / 1461001) / 4 + 31) / 2447) / 11 = 0 := by omega
  exact ⟨by omega, by omega, by omega⟩

lemma jdnToGregorianE_greg_m6 (y d : Int) (hy1 : 1583 ≤ y) (hy2 : y ≤ 3000)
    (hd1 : 1 ≤ d) (hd2 : d ≤ 30) :
    jdnToGregorianE ((1461 * (y + 4800)) / 4 + (367 * (6 - 2)) / 12 - 3 * ((y + 4900) / 100) / 4 + d - 32075) = (y, 6, d) := by
  simp only [jdnToGregorianE]
  rw [if_pos (by omega)]
  simp only [Prod.mk.injEq]
  have hA : (1461 * (y + 4800)) / 4 = 365 * (y + 4800) + (y + 4800) / 4 := by omega
  have hC1 : (y + 4900) / 100 = (y + 4800) / 100 + 1 := by omega
  have hc4 : (y + 4800) / 4 = 25 * ((y + 4800) / 100) + ((y + 4800) % 100) / 4 := by omega
  have hfg : 3 * ((y + 4900) / 100) / 4 + ((y + 4800) / 100) / 4 = (y + 4800) / 100 := by omega
  have h1 : 4 * ((1461 * (y + 4800)) / 4 + (367 * (6 - 2)) / 12 - 3 * ((y + 4900) / 100) / 4 + d - 32075 + 68569) / 146097 = (y + 4800) / 100 + 1 := by omega
  have h1b : (146097 * (4 * ((1461 * (y + 4800)) / 4 + (367 * (6 - 2)) / 12 - 3 * ((y + 4900) / 100) / 4 + d - 32075 + 68569) / 146097) + 3) / 4 = 36524 * ((y + 4800) / 100) + ((y + 4800) / 100) / 4 + 36525 := by omega
  have hl1 : (1461 * (y + 4800)) / 4 + (367 * (6 - 2)) / 12 - 3 * ((y + 4900) / 100) / 4 + d - 32075 + 68569 - (146097 * (4 * ((1461 * (y + 4800)) / 4 + (367 * (6 - 2)) / 12 - 3 * ((y + 4900) / 100) / 4 + d - 32075 + 68569) / 146097) + 3) / 4 = 365 * ((y + 4800) % 100) + ((y + 4800) % 100) / 4 + 92 + d - 1 := by omega
  have h2 : 4000 * ((1461 * (y + 4800)) / 4 + (367 * (6 - 2)) / 12 - 3 * ((y + 4900) / 100) / 4 + d - 32075 + 68569 - (146097 * (4 * ((1461 * (y + 4800)) / 4 + (367 * (6 - 2)) / 12 - 3 * ((y + 4900) / 100) / 4 + d - 32075 + 68569) / 146097) + 3) / 4 + 1) / 1461001 = (y + 4800) % 100 := by omega
  have h2b : 1461 * (4000 * ((1461 * (y + 4800)) / 4 + (367 * (6 - 2)) / 12 - 3 * ((y + 4900) / 100) / 4 + d - 32075 + 68569 - (146097 * (4 * ((1461 * (y + 4800)) / 4 + (367 * (6 - 2)) / 12 - 3 * ((y + 4900) / 100) / 4 + d - 32075 + 68569) / 146097) + 3) / 4 + 1) / 1461001) / 4 = 365 * ((y + 4800) % 100) + ((y + 4800) % 100) / 4 := by omega
  have hl2 : (1461 * (y + 4800)) / 4 + (367 * (6 - 2)) / 12 - 3 * ((y + 4900) / 100) / 4 + d - 32075 + 68569 - (146097 * (4 * ((1461 * (y + 4800)) / 4 + (367 * (6 - 2)) / 12 - 3 * ((y + 4900) / 100) / 4 + d - 32075 + 68569) / 146097) + 3) / 4 - 1461 * (4000 * ((1461 * (y + 4800)) / 4 + (367 * (6 - 2)) / 12 - 3 * ((y + 4900) / 100) / 4 + d - 32075 + 68569 - (146097 * (4 * ((1461 * (y + 4800)) / 4 + (367 * (6 - 2)) / 12 - 3 * ((y + 4900) / 100) / 4 + d - 32075 + 68569) / 146097) + 3) / 4 + 1) / 1461001) / 4 + 31 = 122 + d := by omega
  have h3 : 80 * ((1461 * (y + 4800)) / 4 + (367 * (6 - 2)) / 12 - 3 * ((y + 4900) / 100) / 4 + d - 32075 + 68569 - (146097 * (4 * ((1461 * (y + 4800)) / 4 + (367 * (6 - 2)) / 12 - 3 * ((y + 4900) / 100) / 4 + d - 32075 + 68569) / 146097) + 3) / 4 - 1461 * (4000 * ((1461 * (y + 4800)) / 4 + (367 * (6 - 2)) / 12 - 3 * ((y + 4900) / 100) / 4 + d - 32075 + 68569 - (146097 * (4 * ((1461 * (y + 4800)) / 4 + (367 * (6 - 2)) / 12 - 3 * ((y + 4900) / 100) / 4 + d - 32075 + 68569) / 146097) + 3) / 4 + 1) / 1461001) / 4 + 31) / 2447 = 4 := by omega
  have h4 : 2447 * (80 * ((1461 * (y + 4800)) / 4 + (367 * (6 - 2)) / 12 - 3 * ((y + 4900) / 100) / 4 + d - 32075 + 68569 - (146097 * (4 * ((1461 * (y + 4800)) / 4 + (367 * (6 - 2)) / 12 - 3 * ((y + 4900) / 100) / 4 + d - 32075 + 68569) / 146097) + 3) / 4 - 1461 * (4000 * ((1461 * (y + 4800)) / 4 + (367 * (6 - 2)) / 12 - 3 * ((y + 4900) / 100) / 4 + d - 32075 + 68569 - (146097 * (4 * ((1461 * (y + 4800)) / 4 + (367 * (6 - 2)) / 12 - 3 * ((y + 4900) / 100) / 4 + d - 32075 + 68569) / 146097) + 3) / 4 + 1) / 1461001) / 4 + 31) / 2447) / 80 = 122 := by omega
  have h5 : (80 * ((1461 * (y + 4800)) / 4 + (367 * (6 - 2)) / 12 - 3 * ((y + 4900) / 100) / 4 + d - 32075 + 68569 - (146097 * (4 * ((1461 * (y + 4800)) / 4 + (367 * (6 - 2)) / 12 - 3 * ((y + 4900) / 100) / 4 + d - 32075 + 68569) / 146097) + 3) / 4 - 1461 * (4000 * ((1461 * (y + 4800)) / 4 + (367 * (6 - 2)) / 12 - 3 * ((y + 4900) / 100) / 4 + d - 32075 + 68569 - (146097 * (4 * ((1461 * (y + 4800)) / 4 + (367 * (6 - 2)) / 12 - 3 * ((y + 4900) / 100) / 4 + d - 32075 + 68569) / 146097) + 3) / 4 + 1) / 1461001) / 4 + 31) / 2447) / 11 = 0 := by omega
  exact ⟨by omega, by omega, by omega⟩

lemma jdnToGregorianE_greg_m7 (y d : Int) (hy1 : 1583 ≤ y) (hy2 : y ≤ 3000)
    (hd1 : 1 ≤ d) (hd2 : d ≤ 31) :
    jdnToGregorianE ((1461 * (y + 4800)) / 4 + (367 * (7 - 2)) / 12 - 3 * ((y + 4900) / 100) / 4 + d - 32075) = (y, 7, d) := by
  simp only [jdnToGregorianE]
  rw [if_pos (by omega)]
  simp only [Prod.mk.injEq]
  have hA : (1461 * (y + 4800)) / 4 = 365 * (y + 4800) + (y + 4800) / 4 := by omega
  have hC1 : (y + 4900) / 100 = (y + 4800) / 100 + 1 := by omega
  have hc4 : (y + 4800) / 4 = 25 * ((y + 4800) / 100) + ((y + 4800) % 100) / 4 := by omega
  have hfg : 3 * ((y + 4900) / 100) / 4 + ((y + 4800) / 100) / 4 = (y + 4800) / 100 := by omega
  have h1 : 4 * ((1461 * (y + 4800)) / 4 + (367 * (7 - 2)) / 12 - 3 * ((y + 4900) / 100) / 4 + d - 32075 + 68569) / 146097 = (y + 4800) / 100 + 1 := by omega
  have h1b : (146097 * (4 * ((1461 * (y + 4800)) / 4 + (367 * (7 - 2)) / 12 - 3 * ((y + 4900) / 100) / 4 + d - 32075 + 68569) / 146097) + 3) / 4 = 36524 * ((y + 4800) / 100) + ((y + 4800) / 100) / 4 + 36525 := by omega
  have hl1 : (1461 * (y + 4800)) / 4 + (367 * (7 - 2)) / 12 - 3 * ((y + 4900) / 100) / 4 + d - 32075 + 68569 - (146097 * (4 * ((1461 * (y + 4800)) / 4 + (367 * (7 - 2)) / 12 - 3 * ((y + 4900) / 100) / 4 + d - 32075 + 68569) / 146097) + 3) / 4 = 365 * ((y + 4800) % 100) + ((y + 4800) % 100) / 4 + 122 + d - 1 := by omega
  have h2 : 4000 * ((1461 * (y + 4800)) / 4 + (367 * (7 - 2)) / 12 - 3 * ((y + 4900) / 100) / 4 + d - 32075 + 68569 - (146097 * (4 * ((1461 * (y + 4800)) / 4 + (367 * (7 - 2)) / 12 - 3 * ((y + 4900) / 100) / 4 + d - 32075 + 68569) / 146097) + 3) / 4 + 1) / 1461001 = (y + 4800) % 100 := by omega
  have h2b : 1461 * (4000 * ((1461 * (y + 4800)) / 4 + (367 * (7 - 2)) / 12 - 3 * ((y + 4900) / 100) / 4 + d - 32075 + 68569 - (146097 * (4 * ((1461 * (y + 4800)) / 4 + (367 * (7 - 2)) / 12 - 3 * ((y + 4900) / 100) / 4 + d - 32075 + 68569) / 146097) + 3) / 4 + 1) / 1461001) / 4 = 365 * ((y + 4800) % 100) + ((y + 4800) % 100) / 4 := by omega
  have hl2 : (1461 * (y + 4800)) / 4 + (367 * (7 - 2)) / 12 - 3 * ((y + 4900) / 100) / 4 + d - 32075 + 68569 - (146097 * (4 * ((1461 * (y + 4800)) / 4 + (367 * (7 - 2)) / 12 - 3 * ((y + 4900) / 100) / 4 + d - 32075 + 68569) / 146097) + 3) / 4 - 1461 * (4000 * ((1461 * (y + 4800)) / 4 + (367 * (7 - 2)) / 12 - 3 * ((y + 4900) / 100) / 4 + d - 32075 + 68569 - (146097 * (4 * ((1461 * (y + 4800)) / 4 + (367 * (7 - 2)) / 12 - 3 * ((y + 4900) / 100) / 4 + d - 32075 + 68569) / 146097) + 3) / 4 + 1) / 1461001) / 4 + 31 = 152 + d := by omega
  have h3 : 80 * ((1461 * (y + 4800)) / 4 + (367 * (7 - 2)) / 12 - 3 * ((y + 4900) / 100) / 4 + d - 32075 + 68569 - (146097 * (4 * ((1461 * (y + 4800)) / 4 + (367 * (7 - 2)) / 12 - 3 * ((y + 4900) / 100) / 4 + d - 32075 + 68569) / 146097) + 3) / 4 - 1461 * (4000 * ((1461 * (y + 4800)) / 4 + (367 * (7 - 2)) / 12 - 3 * ((y + 4900) / 100) / 4 + d - 32075 + 68569 - (146097 * (4 * ((1461 * (y + 4800)) / 4 + (367 * (7 - 2)) / 12 - 3 * ((y + 4900) / 100) / 4 + d - 32075 + 68569) / 146097) + 3) / 4 + 1) / 1461001) / 4 + 31) / 2447 = 5 := by omega
  have h4 : 2447 * (80 * ((1461 * (y + 4800)) / 4 + (367 * (7 - 2)) / 12 - 3 * ((y + 4900) / 100) / 4 + d - 32075 + 68569 - (146097 * (4 * ((1461 * (y + 4800)) / 4 + (367 * (7 - 2)) / 12 - 3 * ((y + 4900) / 100) / 4 + d - 32075 + 68569) / 146097) + 3) / 4 - 1461 * (4000 * ((1461 * (y + 4800)) / 4 + (367 * (7 - 2)) / 12 - 3 * ((y + 4900) / 100) / 4 + d - 32075 + 68569 - (146097 * (4 * ((1461 * (y + 4800)) / 4 + (367 * (7 - 2)) / 12 - 3 * ((y + 4900) / 100) / 4 + d - 32075 + 68569) / 146097) + 3) / 4 + 1) / 1461001) / 4 + 31) / 2447) / 80 = 152 := by omega
  have h5 : (80 * ((1461 * (y + 4800)) / 4 + (367 * (7 - 2)) / 12 - 3 * ((y + 4900) / 100) / 4 + d - 32075 + 68569 - (146097 * (4 * ((1461 * (y + 4800)) / 4 + (367 * (7 - 2)) / 12 - 3 * ((y + 4900) / 100) / 4 + d - 32075 + 68569) / 146097) + 3) / 4 - 1461 * (4000 * ((1461 * (y + 4800)) / 4 + (367 * (7 - 2)) / 12 - 3 * ((y + 4900) / 100) / 4 + d - 32075 + 68569 - (146097 * (4 * ((1461 * (y + 4800)) / 4 + (367 * (7 - 2)) / 12 - 3 * ((y + 4900) / 100) / 4 + d - 32075 + 68569) / 146097) + 3) / 4 + 1) / 1461001) / 4 + 31) / 2447) / 11 = 0 := by omega
  exact ⟨by omega, by omega, by omega⟩

lemma jdnToGregorianE_greg_m8 (y d : Int) (hy1 : 1583 ≤ y) (hy2 : y ≤ 3000)
    (hd1 : 1 ≤ d) (hd2 : d ≤ 31) :
    jdnToGregorianE ((1461 * (y + 4800)) / 4 + (367 * (8 - 2)) / 12 - 3 * ((y + 4900) / 100) / 4 + d - 32075) = (y, 8, d) := by
  simp only [jdnToGregorianE]
  rw [if_pos (by omega)]
  simp only [Prod.mk.injEq]
  have hA : (1461 * (y + 4800)) / 4 = 365 * (y + 4800) + (y + 4800) / 4 := by omega
  have hC1 : (y + 4900) / 100 = (y + 4800) / 100 + 1 := by omega
  have hc4 : (y + 4800) / 4 = 25 * ((y + 4800) / 100) + ((y + 4800) % 100) / 4 := by omega
  have hfg : 3 * ((y + 4900) / 100) / 4 + ((y + 4800) / 100) / 4 = (y + 4800) / 100 := by omega
  have h1 : 4 * ((1461 * (y + 4800)) / 4 + (367 * (8 - 2)) / 12 - 3 * ((y + 4900) / 100) / 4 + d - 32075 + 68569) / 146097 = (y + 4800) / 100 + 1 := by omega
  have h1b : (146097 * (4 * ((1461 * (y + 4800)) / 4 + (367 * (8 - 2)) / 12 - 3 * ((y + 4900) / 100) / 4 + d - 32075 + 68569) / 146097) + 3) / 4 = 36524 * ((y + 4800) / 100) + ((y + 4800) / 100) / 4 + 36525 := by omega
  have hl1 : (1461 * (y + 4800)) / 4 + (367 * (8 - 2)) / 12 - 3 * ((y + 4900) / 100) / 4 + d - 32075 + 68569 - (146097 * (4 * ((1461 * (y + 4800)) / 4 + (367 * (8 - 2)) / 12 - 3 * ((y + 4900) / 100) / 4 + d - 32075 + 68569) / 146097) + 3) / 4 = 365 * ((y + 4800) % 100) + ((y + 4800) % 100) / 4 + 153 + d - 1 := by omega
  have h2 : 4000 * ((1461 * (y + 4800)) / 4 + (367 * (8 - 2)) / 12 - 3 * ((y + 4900) / 100) / 4 + d - 32075 + 68569 - (146097 * (4 * ((1461 * (y + 4800)) / 4 + (367 * (8 - 2)) / 12 - 3 * ((y + 4900) / 100) / 4 + d - 32075 + 68569) / 146097) + 3) / 4 + 1) / 1461001 = (y + 4800) % 100 := by omega
  have h2b : 1461 * (4000 * ((1461 * (y + 4800)) / 4 + (367 * (8 - 2)) / 12 - 3 * ((y + 4900) / 100) / 4 + d - 32075 + 68569 - (146097 * (4 * ((1461 * (y + 4800)) / 4 + (367 * (8 - 2)) / 12 - 3 * ((y + 4900) / 100) / 4 + d - 32075 + 68569) / 146097) + 3) / 4 + 1) / 1461001) / 4 = 365 * ((y + 4800) % 100) + ((y + 4800) % 100) / 4 := by omega
  have hl2 : (1461 * (y + 4800)) / 4 + (367 * (8 - 2)) / 12 - 3 * ((y + 4900) / 100) / 4 + d - 32075 + 68569 - (146097 * (4 * ((1461 * (y + 4800)) / 4 + (367 * (8 - 2)) / 12 - 3 * ((y + 4900) / 100) / 4 + d - 32075 + 68569) / 146097) + 3) / 4 - 1461 * (4000 * ((1461 * (y + 4800)) / 4 + (367 * (8 - 2)) / 12 - 3 * ((y + 4900) / 100) / 4 + d - 32075 + 68569 - (146097 * (4 * ((1461 * (y + 4800)) / 4 + (367 * (8 - 2)) / 12 - 3 * ((y + 4900) / 100) / 4 + d - 32075 + 68569) / 146097) + 3) / 4 + 1) / 1461001) / 4 + 31 = 183 + d := by omega
  have h3 : 80 * ((1461 * (y + 4800)) / 4 + (367 * (8 - 2)) / 12 - 3 * ((y + 4900) / 100) / 4 + d - 32075 + 68569 - (146097 * (4 * ((1461 * (y + 4800)) / 4 + (367 * (8 - 2)) / 12 - 3 * ((y + 4900) / 100) / 4 + d - 32075 + 68569) / 146097) + 3) / 4 - 1461 * (4000 * ((1461 * (y + 4800)) / 4 + (367 * (8 - 2)) / 12 - 3 * ((y + 4900) / 100) / 4 + d - 32075 + 68569 - (146097 * (4 * ((1461 * (y + 4800)) / 4 + (367 * (8 - 2)) / 12 - 3 * ((y + 4900) / 100) / 4 + d - 32075 + 68569) / 146097) + 3) / 4 + 1) / 1461001) / 4 + 31) / 2447 = 6 := by omega
  have h4 : 2447 * (80 * ((1461 * (y + 4800)) / 4 + (367 * (8 - 2)) / 12 - 3 * ((y + 4900) / 100) / 4 + d - 32075 + 68569 - (146097 * (4 * ((1461 * (y + 4800)) / 4 + (367 * (8 - 2)) / 12 - 3 * ((y + 4900) / 100) / 4 + d - 32075 + 68569) / 146097) + 3) / 4 - 1461 * (4000 * ((1461 * (y + 4800)) / 4 + (367 * (8 - 2)) / 12 - 3 * ((y + 4900) / 100) / 4 + d - 32075 + 68569 - (146097 * (4 * ((1461 * (y + 4800)) / 4 + (367 * (8 - 2)) / 12 - 3 * ((y + 4900) / 100) / 4 + d - 32075 + 68569) / 146097) + 3) / 4 + 1) / 1461001) / 4 + 31) / 2447) / 80 = 183 := by omega
  have h5 : (80 * ((1461 * (y + 4800)) / 4 + (367 * (8 - 2)) / 12 - 3 * ((y + 4900) / 100) / 4 + d - 32075 + 68569 - (146097 * (4 * ((1461 * (y + 4800)) / 4 + (367 * (8 - 2)) / 12 - 3 * ((y + 4900) / 100) / 4 + d - 32075 + 68569) / 146097) + 3) / 4 - 1461 * (4000 * ((1461 * (y + 4800)) / 4 + (367 * (8 - 2)) / 12 - 3 * ((y + 4900) / 100) / 4 + d - 32075 + 68569 - (146097 * (4 * ((1461 * (y + 4800)) / 4 + (367 * (8 - 2)) / 12 - 3 * ((y + 4900) / 100) / 4 + d - 32075 + 68569) / 146097) + 3) / 4 + 1) / 1461001) / 4 + 31) / 2447) / 11 = 0 := by omega
  exact ⟨by omega, by omega, by omega⟩

lemma jdnToGregorianE_greg_m9 (y d : Int) (hy1 : 1583 ≤ y) (hy2 : y ≤ 3000)
    (hd1 : 1 ≤ d) (hd2 : d ≤ 30) :
    jdnToGregorianE ((1461 * (y + 4800)) / 4 + (367 * (9 - 2)) / 12 - 3 * ((y + 4900) / 100) / 4 + d - 32075) = (y, 9, d) := by
  simp only [jdnToGregorianE]
  rw [if_pos (by omega)]
  simp only [Prod.mk.injEq]
  have hA : (1461 * (y + 4800)) / 4 = 365 * (y + 4800) + (y + 4800) / 4 := by omega
  have hC1 : (y + 4900) / 100 = (y + 4800) / 100 + 1 := by omega
  have hc4 : (y + 4800) / 4 = 25 * ((y + 4800) / 100) + ((y + 4800) % 100) / 4 := by omega
  have hfg : 3 * ((y + 4900) / 100) / 4 + ((y + 4800) / 100) / 4 = (y + 4800) / 100 := by omega
  have h1 : 4 * ((1461 * (y + 4800)) / 4 + (367 * (9 - 2)) / 12 - 3 * ((y + 4900) / 100) / 4 + d - 32075 + 68569) / 146097 = (y + 4800) / 100 + 1 := by omega
  have h1b : (146097 * (4 * ((1461 * (y + 4800)) / 4 + (367 * (9 - 2)) / 12 - 3 * ((y + 4900) / 100) / 4 + d - 32075 + 68569) / 146097) + 3) / 4 = 36524 * ((y + 4800) / 100) + ((y + 4800) / 100) / 4 + 36525 := by omega
  have hl1 : (1461 * (y + 4800)) / 4 + (367 * (9 - 2)) / 12 - 3 * ((y + 4900) / 100) / 4 + d - 32075 + 68569 - (146097 * (4 * ((1461 * (y + 4800)) / 4 + (367 * (9 - 2)) / 12 - 3 * ((y + 4900) / 100) / 4 + d - 32075 + 68569) / 146097) + 3) / 4 = 365 * ((y + 4800) % 100) + ((y + 4800) % 100) / 4 + 184 + d - 1 := by omega
  have h2 : 4000 * ((1461 * (y + 4800)) / 4 + (367 * (9 - 2)) / 12 - 3 * ((y + 4900) / 100) / 4 + d - 32075 + 68569 - (146097 * (4 * ((1461 * (y + 4800)) / 4 + (367 * (9 - 2)) / 12 - 3 * ((y + 4900) / 100) / 4 + d - 32075 + 68569) / 146097) + 3) / 4 + 1) / 1461001 = (y + 4800) % 100 := by omega
  have h2b : 1461 * (4000 * ((1461 * (y + 4800)) / 4 + (367 * (9 - 2)) / 12 - 3 * ((y + 4900) / 100) / 4 + d - 32075 + 68569 - (146097 * (4 * ((1461 * (y + 4800)) / 4 + (367 * (9 - 2)) / 12 - 3 * ((y + 4900) / 100) / 4 + d - 32075 + 68569) / 146097) + 3) / 4 + 1) / 1461001) / 4 = 365 * ((y + 4800) % 100) + ((y + 4800) % 100) / 4 := by omega
  have hl2 : (1461 * (y + 4800)) / 4 + (367 * (9 - 2)) / 12 - 3 * ((y + 4900) / 100) / 4 + d - 32075 + 68569 - (146097 * (4 * ((1461 * (y + 4800)) / 4 + (367 * (9 - 2)) / 12 - 3 * ((y + 4900) / 100) / 4 + d - 32075 + 68569) / 146097) + 3) / 4 - 1461 * (4000 * ((1461 * (y + 4800)) / 4 + (367 * (9 - 2)) / 12 - 3 * ((y + 4900) / 100) / 4 + d - 32075 + 68569 - (146097 * (4 * ((1461 * (y + 4800)) / 4 + (367 * (9 - 2)) / 12 - 3 * ((y + 4900) / 100) / 4 + d - 32075 + 68569) / 146097) + 3) / 4 + 1) / 1461001) / 4 + 31 = 214 + d := by omega
  have h3 : 80 * ((1461 * (y + 4800)) / 4 + (367 * (9 - 2)) / 12 - 3 * ((y + 4900) / 100) / 4 + d - 32075 + 68569 - (146097 * (4 * ((1461 * (y + 4800)) / 4 + (367 * (9 - 2)) / 12 - 3 * ((y + 4900) / 100) / 4 + d - 32075 + 68569) / 146097) + 3) / 4 - 1461 * (4000 * ((1461 * (y + 4800)) / 4 + (367 * (9 - 2)) / 12 - 3 * ((y + 4900) / 100) / 4 + d - 32075 + 68569 - (146097 * (4 * ((1461 * (y + 4800)) / 4 + (367 * (9 - 2)) / 12 - 3 * ((y + 4900) / 100) / 4 + d - 32075 + 68569) / 146097) + 3) / 4 + 1) / 1461001) / 4 + 31) / 2447 = 7 := by omega
  have h4 : 2447 * (80 * ((1461 * (y + 4800)) / 4 + (367 * (9 - 2)) / 12 - 3 * ((y + 4900) / 100) / 4 + d - 32075 + 68569 - (146097 * (4 * ((1461 * (y + 4800)) / 4 + (367 * (9 - 2)) / 12 - 3 * ((y + 4900) / 100) / 4 + d - 32075 + 68569) / 146097) + 3) / 4 - 1461 * (4000 * ((1461 * (y + 4800)) / 4 + (367 * (9 - 2)) / 12 - 3 * ((y + 4900) / 100) / 4 + d - 32075 + 68569 - (146097 * (4 * ((1461 * (y + 4800)) / 4 + (367 * (9 - 2)) / 12 - 3 * ((y + 4900) / 100) / 4 + d - 32075 + 68569) / 146097) + 3) / 4 + 1) / 1461001) / 4 + 31) / 2447) / 80 = 214 := by omega
  have h5 : (80 * ((1461 * (y + 4800)) / 4 + (367 * (9 - 2)) / 12 - 3 * ((y + 4900) / 100) / 4 + d - 32075 + 68569 - (146097 * (4 * ((1461 * (y + 4800)) / 4 + (367 * (9 - 2)) / 12 - 3 * ((y + 4900) / 100) / 4 + d - 32075 + 68569) / 146097) + 3) / 4 - 1461 * (4000 * ((1461 * (y + 4800)) / 4 + (367 * (9 - 2)) / 12 - 3 * ((y + 4900) / 100) / 4 + d - 32075 + 68569 - (146097 * (4 * ((1461 * (y + 4800)) / 4 + (367 * (9 - 2)) / 12 - 3 * ((y + 4900) / 100) / 4 + d - 32075 + 68569) / 146097) + 3) / 4 + 1) / 1461001) / 4 + 31) / 2447) / 11 = 0 := by omega
  exact ⟨by omega, by omega, by omega⟩

lemma jdnToGregorianE_greg_m10 (y d : Int) (hy1 : 1583 ≤ y ∨ (y = 1582 ∧ 15 ≤ d)) (hy2 : y ≤ 3000)
    (hd1 : 1 ≤ d) (hd2 : d ≤ 31) :
    jdnToGregorianE ((1461 * (y + 4800)) / 4 + (367 * (10 - 2)) / 12 - 3 * ((y + 4900) / 100) / 4 + d - 32075) = (y, 10, d) := by
  simp only [jdnToGregorianE]
  rw [if_pos (by omega)]
  simp only [Prod.mk.injEq]
  have hA : (1461 * (y + 4800)) / 4 = 365 * (y + 4800) + (y + 4800) / 4 := by omega
  have hC1 : (y + 4900) / 100 = (y + 4800) / 100 + 1 := by omega
  have hc4 : (y + 4800) / 4 = 25 * ((y + 4800) / 100) + ((y + 4800) % 100) / 4 := by omega
  have hfg : 3 * ((y + 4900) / 100) / 4 + ((y + 4800) / 100) / 4 = (y + 4800) / 100 := by omega
  have h1 : 4 * ((1461 * (y + 4800)) / 4 + (367 * (10 - 2)) / 12 - 3 * ((y + 4900) / 100) / 4 + d - 32075 + 68569) / 146097 = (y + 4800) / 100 + 1 := by omega
  have h1b : (146097 * (4 * ((1461 * (y + 4800)) / 4 + (367 * (10 - 2)) / 12 - 3 * ((y + 4900) / 100) / 4 + d - 32075 + 68569) / 146097) + 3) / 4 = 36524 * ((y + 4800) / 100) + ((y + 4800) / 100) / 4 + 36525 := by omega
  have hl1 : (1461 * (y + 4800)) / 4 + (367 * (10 - 2)) / 12 - 3 * ((y + 4900) / 100) / 4 + d - 32075 + 68569 - (146097 * (4 * ((1461 * (y + 4800)) / 4 + (367 * (10 - 2)) / 12 - 3 * ((y + 4900) / 100) / 4 + d - 32075 + 68569) / 146097) + 3) / 4 = 365 * ((y + 4800) % 100) + ((y + 4800) % 100) / 4 + 214 + d - 1 := by omega
  have h2 : 4000 * ((1461 * (y + 4800)) / 4 + (367 * (10 - 2)) / 12 - 3 * ((y + 4900) / 100) / 4 + d - 32075 + 68569 - (146097 * (4 * ((1461 * (y + 4800)) / 4 + (367 * (10 - 2)) / 12 - 3 * ((y + 4900) / 100) / 4 + d - 32075 + 68569) / 146097) + 3) / 4 + 1) / 1461001 = (y + 4800) % 100 := by omega
  have h2b : 1461 * (4000 * ((1461 * (y + 4800)) / 4 + (367 * (10 - 2)) / 12 - 3 * ((y + 4900) / 100) / 4 + d - 32075 + 68569 - (146097 * (4 * ((1461 * (y + 4800)) / 4 + (367 * (10 - 2)) / 12 - 3 * ((y + 4900) / 100) / 4 + d - 32075 + 68569) / 146097) + 3) / 4 + 1) / 1461001) / 4 = 365 * ((y + 4800) % 100) + ((y + 4800) % 100) / 4 := by omega
  have hl2 : (1461 * (y + 4800)) / 4 + (367 * (10 - 2)) / 12 - 3 * ((y + 4900) / 100) / 4 + d - 32075 + 68569 - (146097 * (4 * ((1461 * (y + 4800)) / 4 + (367 * (10 - 2)) / 12 - 3 * ((y + 4900) / 100) / 4 + d - 32075 + 68569) / 146097) + 3) / 4 - 1461 * (4000 * ((1461 * (y + 4800)) / 4 + (367 * (10 - 2)) / 12 - 3 * ((y + 4900) / 100) / 4 + d - 32075 + 68569 - (146097 * (4 * ((1461 * (y + 4800)) / 4 + (367 * (10 - 2)) / 12 - 3 * ((y + 4900) / 100) / 4 + d - 32075 + 68569) / 146097) + 3) / 4 + 1) / 1461001) / 4 + 31 = 244 + d := by omega
  have h3 : 80 * ((1461 * (y + 4800)) / 4 + (367 * (10 - 2)) / 12 - 3 * ((y + 4900) / 100) / 4 + d - 32075 + 68569 - (146097 * (4 * ((1461 * (y + 4800)) / 4 + (367 * (10 - 2)) / 12 - 3 * ((y + 4900) / 100) / 4 + d - 32075 + 68569) / 146097) + 3) / 4 - 1461 * (4000 * ((1461 * (y + 4800)) / 4 + (367 * (10 - 2)) / 12 - 3 * ((y + 4900) / 100) / 4 + d - 32075 + 68569 - (146097 * (4 * ((1461 * (y + 4800)) / 4 + (367 * (10 - 2)) / 12 - 3 * ((y + 4900) / 100) / 4 + d - 32075 + 68569) / 146097) + 3) / 4 + 1) / 1461001) / 4 + 31) / 2447 = 8 := by omega
  have h4 : 2447 * (80 * ((1461 * (y + 4800)) / 4 + (367 * (10 - 2)) / 12 - 3 * ((y + 4900) / 100) / 4 + d - 32075 + 68569 - (146097 * (4 * ((1461 * (y + 4800)) / 4 + (367 * (10 - 2)) / 12 - 3 * ((y + 4900) / 100) / 4 + d - 32075 + 68569) / 146097) + 3) / 4 - 1461 * (4000 * ((1461 * (y + 4800)) / 4 + (367 * (10 - 2)) / 12 - 3 * ((y + 4900) / 100) / 4 + d - 32075 + 68569 - (146097 * (4 * ((1461 * (y + 4800)) / 4 + (367 * (10 - 2)) / 12 - 3 * ((y + 4900) / 100) / 4 + d - 32075 + 68569) / 146097) + 3) / 4 + 1) / 1461001) / 4 + 31) / 2447) / 80 = 244 := by omega
  have h5 : (80 * ((1461 * (y + 4800)) / 4 + (367 * (10 - 2)) / 12 - 3 * ((y + 4900) / 100) / 4 + d - 32075 + 68569 - (146097 * (4 * ((1461 * (y + 4800)) / 4 + (367 * (10 - 2)) / 12 - 3 * ((y + 4900) / 100) / 4 + d - 32075 + 68569) / 146097) + 3) / 4 - 1461 * (4000 * ((1461 * (y + 4800)) / 4 + (367 * (10 - 2)) / 12 - 3 * ((y + 4900) / 100) / 4 + d - 32075 + 68569 - (146097 * (4 * ((1461 * (y + 4800)) / 4 + (367 * (10 - 2)) / 12 - 3 * ((y + 4900) / 100) / 4 + d - 32075 + 68569) / 146097) + 3) / 4 + 1) / 1461001) / 4 + 31) / 2447) / 11 = 0 := by omega
  exact ⟨by omega, by omega, by omega⟩

lemma jdnToGregorianE_greg_m11 (y d : Int) (hy1 : 1582 ≤ y) (hy2 : y ≤ 3000)
    (hd1 : 1 ≤ d) (hd2 : d ≤ 30) :
    jdnToGregorianE ((1461 * (y + 4800)) / 4 + (367 * (11 - 2)) / 12 - 3 * ((y + 4900) / 100) / 4 + d - 32075) = (y, 11, d) := by
  simp only [jdnToGregorianE]
  rw [if_pos (by omega)]
  simp only [Prod.mk.injEq]
  have hA : (1461 * (y + 4800)) / 4 = 365 * (y + 4800) + (y + 4800) / 4 := by omega
  have hC1 : (y + 4900) / 100 = (y + 4800) / 100 + 1 := by omega
  have hc4 : (y + 4800) / 4 = 25 * ((y + 4800) / 100) + ((y + 4800) % 100) / 4 := by omega
  have hfg : 3 * ((y + 4900) / 100) / 4 + ((y + 4800) / 100) / 4 = (y + 4800) / 100 := by omega
  have h1 : 4 * ((1461 * (y + 4800)) / 4 + (367 * (11 - 2)) / 12 - 3 * ((y + 4900) / 100) / 4 + d - 32075 + 68569) / 146097 = (y + 4800) / 100 + 1 := by omega
  have h1b : (146097 * (4 * ((1461 * (y + 4800)) / 4 + (367 * (11 - 2)) / 12 - 3 * ((y + 4900) / 100) / 4 + d - 32075 + 68569) / 146097) + 3) / 4 = 36524 * ((y + 4800) / 100) + ((y + 4800) / 100) / 4 + 36525 := by omega
  have hl1 : (1461 * (y + 4800)) / 4 + (367 * (11 - 2)) / 12 - 3 * ((y + 4900) / 100) / 4 + d - 32075 + 68569 - (146097 * (4 * ((1461 * (y + 4800)) / 4 + (367 * (11 - 2)) / 12 - 3 * ((y + 4900) / 100) / 4 + d - 32075 + 68569) / 146097) + 3) / 4 = 365 * ((y + 4800) % 100) + ((y + 4800) % 100) / 4 + 245 + d - 1 := by omega
  have h2 : 4000 * ((1461 * (y + 4800)) / 4 + (367 * (11 - 2)) / 12 - 3 * ((y + 4900) / 100) / 4 + d - 32075 + 68569 - (146097 * (4 * ((1461 * (y + 4800)) / 4 + (367 * (11 - 2)) / 12 - 3 * ((y + 4900) / 100) / 4 + d - 32075 + 68569) / 146097) + 3) / 4 + 1) / 1461001 = (y + 4800) % 100 := by omega
  have h2b : 1461 * (4000 * ((1461 * (y + 4800)) / 4 + (367 * (11 - 2)) / 12 - 3 * ((y + 4900) / 100) / 4 + d - 32075 + 68569 - (146097 * (4 * ((1461 * (y + 4800)) / 4 + (367 * (11 - 2)) / 12 - 3 * ((y + 4900) / 100) / 4 + d - 32075 + 68569) / 146097) + 3) / 4 + 1) / 1461001) / 4 = 365 * ((y + 4800) % 100) + ((y + 4800) % 100) / 4 := by omega
  have hl2 : (1461 * (y + 4800)) / 4 + (367 * (11 - 2)) / 12 - 3 * ((y + 4900) / 100) / 4 + d - 32075 + 68569 - (146097 * (4 * ((1461 * (y + 4800)) / 4 + (367 * (11 - 2)) / 12 - 3 * ((y + 4900) / 100) / 4 + d - 32075 + 68569) / 146097) + 3) / 4 - 1461 * (4000 * ((1461 * (y + 4800)) / 4 + (367 * (11 - 2)) / 12 - 3 * ((y + 4900) / 100) / 4 + d - 32075 + 68569 - (146097 * (4 * ((1461 * (y + 4800)) / 4 + (367 * (11 - 2)) / 12 - 3 * ((y + 4900) / 100) / 4 + d - 32075 + 68569) / 146097) + 3) / 4 + 1) / 1461001) / 4 + 31 = 275 + d := by omega
  have h3 : 80 * ((1461 * (y + 4800)) / 4 + (367 * (11 - 2)) / 12 - 3 * ((y + 4900) / 100) / 4 + d - 32075 + 68569 - (146097 * (4 * ((1461 * (y + 4800)) / 4 + (367 * (11 - 2)) / 12 - 3 * ((y + 4900) / 100) / 4 + d - 32075 + 68569) / 146097) + 3) / 4 - 1461 * (4000 * ((1461 * (y + 4800)) / 4 + (367 * (11 - 2)) / 12 - 3 * ((y + 4900) / 100) / 4 + d - 32075 + 68569 - (146097 * (4 * ((1461 * (y + 4800)) / 4 + (367 * (11 - 2)) / 12 - 3 * ((y + 4900) / 100) / 4 + d - 32075 + 68569) / 146097) + 3) / 4 + 1) / 1461001) / 4 + 31) / 2447 = 9 := by omega
  have h4 : 2447 * (80 * ((1461 * (y + 4800)) / 4 + (367 * (11 - 2)) / 12 - 3 * ((y + 4900) / 100) / 4 + d - 32075 + 68569 - (146097 * (4 * ((1461 * (y + 4800)) / 4 + (367 * (11 - 2)) / 12 - 3 * ((y + 4900) / 100) / 4 + d - 32075 + 68569) / 146097) + 3) / 4 - 1461 * (4000 * ((1461 * (y + 4800)) / 4 + (367 * (11 - 2)) / 12 - 3 * ((y + 4900) / 100) / 4 + d - 32075 + 68569 - (146097 * (4 * ((1461 * (y + 4800)) / 4 + (367 * (11 - 2)) / 12 - 3 * ((y + 4900) / 100) / 4 + d - 32075 + 68569) / 146097) + 3) / 4 + 1) / 1461001) / 4 + 31) / 2447) / 80 = 275 := by omega
  have h5 : (80 * ((1461 * (y + 4800)) / 4 + (367 * (11 - 2)) / 12 - 3 * ((y + 4900) / 100) / 4 + d - 32075 + 68569 - (146097 * (4 * ((1461 * (y + 4800)) / 4 + (367 * (11 - 2)) / 12 - 3 * ((y + 4900) / 100) / 4 + d - 32075 + 68569) / 146097) + 3) / 4 - 1461 * (4000 * ((1461 * (y + 4800)) / 4 + (367 * (11 - 2)) / 12 - 3 * ((y + 4900) / 100) / 4 + d - 32075 + 68569 - (146097 * (4 * ((1461 * (y + 4800)) / 4 + (367 * (11 - 2)) / 12 - 3 * ((y + 4900) / 100) / 4 + d - 32075 + 68569) / 146097) + 3) / 4 + 1) / 1461001) / 4 + 31) / 2447) / 11 = 0 := by omega
  exact ⟨by omega, by omega, by omega⟩

lemma jdnToGregorianE_greg_m12 (y d : Int) (hy1 : 1582 ≤ y) (hy2 : y ≤ 3000)
    (hd1 : 1 ≤ d) (hd2 : d ≤ 31) :
    jdnToGregorianE ((1461 * (y + 4800)) / 4 + (367 * (12 - 2)) / 12 - 3 * ((y + 4900) / 100) / 4 + d - 32075) = (y, 12, d) := by
  simp only [jdnToGregorianE]
  rw [if_pos (by omega)]
  simp only [Prod.mk.injEq]
  have hA : (1461 * (y + 4800)) / 4 = 365 * (y + 4800) + (y + 4800) / 4 := by omega
  have hC1 : (y + 4900) / 100 = (y + 4800) / 100 + 1 := by omega
  have hc4 : (y + 4800) / 4 = 25 * ((y + 4800) / 100) + ((y + 4800) % 100) / 4 := by omega
  have hfg : 3 * ((y + 4900) / 100) / 4 + ((y + 4800) / 100) / 4 = (y + 4800) / 100 := by omega
  have h1 : 4 * ((1461 * (y + 4800)) / 4 + (367 * (12 - 2)) / 12 - 3 * ((y + 4900) / 100) / 4 + d - 32075 + 68569) / 146097 = (y + 4800) / 100 + 1 := by omega
  have h1b : (146097 * (4 * ((1461 * (y + 4800)) / 4 + (367 * (12 - 2)) / 12 - 3 * ((y + 4900) / 100) / 4 + d - 32075 + 68569) / 146097) + 3) / 4 = 36524 * ((y + 4800) / 100) + ((y + 4800) / 100) / 4 + 36525 := by omega
  have hl1 : (1461 * (y + 4800)) / 4 + (367 * (12 - 2)) / 12 - 3 * ((y + 4900) / 100) / 4 + d - 32075 + 68569 - (146097 * (4 * ((1461 * (y + 4800)) / 4 + (367 * (12 - 2)) / 12 - 3 * ((y + 4900) / 100) / 4 + d - 32075 + 68569) / 146097) + 3) / 4 = 365 * ((y + 4800) % 100) + ((y + 4800) % 100) / 4 + 275 + d - 1 := by omega
  have h2 : 4000 * ((1461 * (y + 4800)) / 4 + (367 * (12 - 2)) / 12 - 3 * ((y + 4900) / 100) / 4 + d - 32075 + 68569 - (146097 * (4 * ((1461 * (y + 4800)) / 4 + (367 * (12 - 2)) / 12 - 3 * ((y + 4900) / 100) / 4 + d - 32075 + 68569) / 146097) + 3) / 4 + 1) / 1461001 = (y + 4800) % 100 := by omega
  have h2b : 1461 * (4000 * ((1461 * (y + 4800)) / 4 + (367 * (12 - 2)) / 12 - 3 * ((y + 4900) / 100) / 4 + d - 32075 + 68569 - (146097 * (4 * ((1461 * (y + 4800)) / 4 + (367 * (12 - 2)) / 12 - 3 * ((y + 4900) / 100) / 4 + d - 32075 + 68569) / 146097) + 3) / 4 + 1) / 1461001) / 4 = 365 * ((y + 4800) % 100) + ((y + 4800) % 100) / 4 := by omega
  have hl2 : (1461 * (y + 4800)) / 4 + (367 * (12 - 2)) / 12 - 3 * ((y + 4900) / 100) / 4 + d - 32075 + 68569 - (146097 * (4 * ((1461 * (y + 4800)) / 4 + (367 * (12 - 2)) / 12 - 3 * ((y + 4900) / 100) / 4 + d - 32075 + 68569) / 146097) + 3) / 4 - 1461 * (4000 * ((1461 * (y + 4800)) / 4 + (367 * (12 - 2)) / 12 - 3 * ((y + 4900) / 100) / 4 + d - 32075 + 68569 - (146097 * (4 * ((1461 * (y + 4800)) / 4 + (367 * (12 - 2)) / 12 - 3 * ((y + 4900) / 100) / 4 + d - 32075 + 68569) / 146097) + 3) / 4 + 1) / 1461001) / 4 + 31 = 305 + d := by omega
  have h3 : 80 * ((1461 * (y + 4800)) / 4 + (367 * (12 - 2)) / 12 - 3 * ((y + 4900) / 100) / 4 + d - 32075 + 68569 - (146097 * (4 * ((1461 * (y + 4800)) / 4 + (367 * (12 - 2)) / 12 - 3 * ((y + 4900) / 100) / 4 + d - 32075 + 68569) / 146097) + 3) / 4 - 1461 * (4000 * ((1461 * (y + 4800)) / 4 + (367 * (12 - 2)) / 12 - 3 * ((y + 4900) / 100) / 4 + d - 32075 + 68569 - (146097 * (4 * ((1461 * (y + 4800)) / 4 + (367 * (12 - 2)) / 12 - 3 * ((y + 4900) / 100) / 4 + d - 32075 + 68569) / 146097) + 3) / 4 + 1) / 1461001) / 4 + 31) / 2447 = 10 := by omega
  have h4 : 2447 * (80 * ((1461 * (y + 4800)) / 4 + (367 * (12 - 2)) / 12 - 3 * ((y + 4900) / 100) / 4 + d - 32075 + 68569 - (146097 * (4 * ((1461 * (y + 4800)) / 4 + (367 * (12 - 2)) / 12 - 3 * ((y + 4900) / 100) / 4 + d - 32075 + 68569) / 146097) + 3) / 4 - 1461 * (4000 * ((1461 * (y + 4800)) / 4 + (367 * (12 - 2)) / 12 - 3 * ((y + 4900) / 100) / 4 + d - 32075 + 68569 - (146097 * (4 * ((1461 * (y + 4800)) / 4 + (367 * (12 - 2)) / 12 - 3 * ((y + 4900) / 100) / 4 + d - 32075 + 68569) / 146097) + 3) / 4 + 1) / 1461001) / 4 + 31) / 2447) / 80 = 305 := by omega
  have h5 : (80 * ((1461 * (y + 4800)) / 4 + (367 * (12 - 2)) / 12 - 3 * ((y + 4900) / 100) / 4 + d - 32075 + 68569 - (146097 * (4 * ((1461 * (y + 4800)) / 4 + (367 * (12 - 2)) / 12 - 3 * ((y + 4900) / 100) / 4 + d - 32075 + 68569) / 146097) + 3) / 4 - 1461 * (4000 * ((1461 * (y + 4800)) / 4 + (367 * (12 - 2)) / 12 - 3 * ((y + 4900) / 100) / 4 + d - 32075 + 68569 - (146097 * (4 * ((1461 * (y + 4800)) / 4 + (367 * (12 - 2)) / 12 - 3 * ((y + 4900) / 100) / 4 + d - 32075 + 68569) / 146097) + 3) / 4 + 1) / 1461001) / 4 + 31) / 2447) / 11 = 0 := by omega
  exact ⟨by omega, by omega, by omega⟩

lemma jdnToGregorianE_jul_m1 (y d : Int) (hy1 : 1 ≤ y) (hy2 : y ≤ 1582)
    (hd1 : 1 ≤ d) (hd2 : d ≤ 31) :
    jdnToGregorianE (367 * y - (7 * (y + 5000)) / 4 + (275 * 1) / 9 + d + 1729777) = (y, 1, d) := by
  simp only [jdnToGregorianE]
  rw [if_neg (by omega)]
  simp only [Prod.mk.injEq]
  rcases (by omega : y % 4 = 0 ∨ y % 4 = 1 ∨ y % 4 = 2 ∨ y % 4 = 3) with h4 | h4 | h4 | h4
  all_goals have hk : (367 * y - (7 * (y + 5000)) / 4 + (275 * 1) / 9 + d + 1729777 + 1402 - 1) / 1461 = (y + 3) / 4 + 1178 := by omega
  all_goals have hn : (367 * y - (7 * (y + 5000)) / 4 + (275 * 1) / 9 + d + 1729777 + 1402 - 1461 * ((367 * y - (7 * (y + 5000)) / 4 + (275 * 1) / 9 + d + 1729777 + 1402 - 1) / 1461) - 1) / 365 - (367 * y - (7 * (y + 5000)) / 4 + (275 * 1) / 9 + d + 1729777 + 1402 - 1461 * ((367 * y - (7 * (y + 5000)) / 4 + (275 * 1) / 9 + d + 1729777 + 1402 - 1) / 1461)) / 1461 = (y + 3) % 4 := by omega
  all_goals have hi0 : 367 * y - (7 * (y + 5000)) / 4 + (275 * 1) / 9 + d + 1729777 + 1402 - 1461 * ((367 * y - (7 * (y + 5000)) / 4 + (275 * 1) / 9 + d + 1729777 + 1402 - 1) / 1461) - 365 * ((367 * y - (7 * (y + 5000)) / 4 + (275 * 1) / 9 + d + 1729777 + 1402 - 1461 * ((367 * y - (7 * (y + 5000)) / 4 + (275 * 1) / 9 + d + 1729777 + 1402 - 1) / 1461) - 1) / 365 - (367 * y - (7 * (y + 5000)) / 4 + (275 * 1) / 9 + d + 1729777 + 1402 - 1461 * ((367 * y - (7 * (y + 5000)) / 4 + (275 * 1) / 9 + d + 1729777 + 1402 - 1) / 1461)) / 1461) + 30 = 336 + d := by omega
  all_goals have hj1 : 80 * (367 * y - (7 * (y + 5000)) / 4 + (275 * 1) / 9 + d + 1729777 + 1402 - 1461 * ((367 * y - (7 * (y + 5000)) / 4 + (275 * 1) / 9 + d + 1729777 + 1402 - 1) / 1461) - 365 * ((367 * y - (7 * (y + 5000)) / 4 + (275 * 1) / 9 + d + 1729777 + 1402 - 1461 * ((367 * y - (7 * (y + 5000)) / 4 + (275 * 1) / 9 + d + 1729777 + 1402 - 1) / 1461) - 1) / 365 - (367 * y - (7 * (y + 5000)) / 4 + (275 * 1) / 9 + d + 1729777 + 1402 - 1461 * ((367 * y - (7 * (y + 5000)) / 4 + (275 * 1) / 9 + d + 1729777 + 1402 - 1) / 1461)) / 1461) + 30) / 2447 = 11 := by omega
  all_goals have hday : 2447 * (80 * (367 * y - (7 * (y + 5000)) / 4 + (275 * 1) / 9 + d + 1729777 + 1402 - 1461 * ((367 * y - (7 * (y + 5000)) / 4 + (275 * 1) / 9 + d + 1729777 + 1402 - 1) / 1461) - 365 * ((367 * y - (7 * (y + 5000)) / 4 + (275 * 1) / 9 + d + 1729777 + 1402 - 1461 * ((367 * y - (7 * (y + 5000)) / 4 + (275 * 1) / 9 + d + 1729777 + 1402 - 1) / 1461) - 1) / 365 - (367 * y - (7 * (y + 5000)) / 4 + (275 * 1) / 9 + d + 1729777 + 1402 - 1461 * ((367 * y - (7 * (y + 5000)) / 4 + (275 * 1) / 9 + d + 1729777 + 1402 - 1) / 1461)) / 1461) + 30) / 2447) / 80 = 336 := by omega
  all_goals have hi1 : (80 * (367 * y - (7 * (y + 5000)) / 4 + (275 * 1) / 9 + d + 1729777 + 1402 - 1461 * ((367 * y - (7 * (y + 5000)) / 4 + (275 * 1) / 9 + d + 1729777 + 1402 - 1) / 1461) - 365 * ((367 * y - (7 * (y + 5000)) / 4 + (275 * 1) / 9 + d + 1729777 + 1402 - 1461 * ((367 * y - (7 * (y + 5000)) / 4 + (275 * 1) / 9 + d + 1729777 + 1402 - 1) / 1461) - 1) / 365 - (367 * y - (7 * (y + 5000)) / 4 + (275 * 1) / 9 + d + 1729777 + 1402 - 1461 * ((367 * y - (7 * (y + 5000)) / 4 + (275 * 1) / 9 + d + 1729777 + 1402 - 1) / 1461)) / 1461) + 30) / 2447) / 11 = 1 := by omega
  all_goals refine ⟨by omega, by omega, by omega⟩

lemma jdnToGregorianE_jul_m2 (y d : Int) (hy1 : 1 ≤ y) (hy2 : y ≤ 1582)
    (hd1 : 1 ≤ d) (hd2 : d ≤ 28 ∨ (y % 4 = 0 ∧ d ≤ 29)) :
    jdnToGregorianE (367 * y - (7 * (y + 5000)) / 4 + (275 * 2) / 9 + d + 1729777) = (y, 2, d) := by
  simp only [jdnToGregorianE]
  rw [if_neg (by omega)]
  simp only [Prod.mk.injEq]
  rcases (by omega : y % 4 = 0 ∨ y % 4 = 1 ∨ y % 4 = 2 ∨ y % 4 = 3) with h4 | h4 | h4 | h4
  all_goals have hk : (367 * y - (7 * (y + 5000)) / 4 + (275 * 2) / 9 + d + 1729777 + 1402 - 1) / 1461 = (y + 3) / 4 + 1178 := by omega
  all_goals have hn : (367 * y - (7 * (y + 5000)) / 4 + (275 * 2) / 9 + d + 1729777 + 1402 - 1461 * ((367 * y - (7 * (y + 5000)) / 4 + (275 * 2) / 9 + d + 1729777 + 1402 - 1) / 1461) - 1) / 365 - (367 * y - (7 * (y + 5000)) / 4 + (275 * 2) / 9 + d + 1729777 + 1402 - 1461 * ((367 * y - (7 * (y + 5000)) / 4 + (275 * 2) / 9 + d + 1729777 + 1402 - 1) / 1461)) / 1461 = (y + 3) % 4 := by omega
  all_goals have hi0 : 367 * y - (7 * (y + 5000)) / 4 + (275 * 2) / 9 + d + 1729777 + 1402 - 1461 * ((367 * y - (7 * (y + 5000)) / 4 + (275 * 2) / 9 + d + 1729777 + 1402 - 1) / 1461) - 365 * ((367 * y - (7 * (y + 5000)) / 4 + (275 * 2) / 9 + d + 1729777 + 1402 - 1461 * ((367 * y - (7 * (y + 5000)) / 4 + (275 * 2) / 9 + d + 1729777 + 1402 - 1) / 1461) - 1) / 365 - (367 * y - (7 * (y + 5000)) / 4 + (275 * 2) / 9 + d + 1729777 + 1402 - 1461 * ((367 * y - (7 * (y + 5000)) / 4 + (275 * 2) / 9 + d + 1729777 + 1402 - 1) / 1461)) / 1461) + 30 = 367 + d := by omega
  all_goals have hj1 : 80 * (367 * y - (7 * (y + 5000)) / 4 + (275 * 2) / 9 + d + 1729777 + 1402 - 1461 * ((367 * y - (7 * (y + 5000)) / 4 + (275 * 2) / 9 + d + 1729777 + 1402 - 1) / 1461) - 365 * ((367 * y - (7 * (y + 5000)) / 4 + (275 * 2) / 9 + d + 1729777 + 1402 - 1461 * ((367 * y - (7 * (y + 5000)) / 4 + (275 * 2) / 9 + d + 1729777 + 1402 - 1) / 1461) - 1) / 365 - (367 * y - (7 * (y + 5000)) / 4 + (275 * 2) / 9 + d + 1729777 + 1402 - 1461 * ((367 * y - (7 * (y + 5000)) / 4 + (275 * 2) / 9 + d + 1729777 + 1402 - 1) / 1461)) / 1461) + 30) / 2447 = 12 := by omega
  all_goals have hday : 2447 * (80 * (367 * y - (7 * (y + 5000)) / 4 + (275 * 2) / 9 + d + 1729777 + 1402 - 1461 * ((367 * y - (7 * (y + 5000)) / 4 + (275 * 2) / 9 + d + 1729777 + 1402 - 1) / 1461) - 365 * ((367 * y - (7 * (y + 5000)) / 4 + (275 * 2) / 9 + d + 1729777 + 1402 - 1461 * ((367 * y - (7 * (y + 5000)) / 4 + (275 * 2) / 9 + d + 1729777 + 1402 - 1) / 1461) - 1) / 365 - (367 * y - (7 * (y + 5000)) / 4 + (275 * 2) / 9 + d + 1729777 + 1402 - 1461 * ((367 * y - (7 * (y + 5000)) / 4 + (275 * 2) / 9 + d + 1729777 + 1402 - 1) / 1461)) / 1461) + 30) / 2447) / 80 = 367 := by omega
  all_goals have hi1 : (80 * (367 * y - (7 * (y + 5000)) / 4 + (275 * 2) / 9 + d + 1729777 + 1402 - 1461 * ((367 * y - (7 * (y + 5000)) / 4 + (275 * 2) / 9 + d + 1729777 + 1402 - 1) / 1461) - 365 * ((367 * y - (7 * (y + 5000)) / 4 + (275 * 2) / 9 + d + 1729777 + 1402 - 1461 * ((367 * y - (7 * (y + 5000)) / 4 + (275 * 2) / 9 + d + 1729777 + 1402 - 1) / 1461) - 1) / 365 - (367 * y - (7 * (y + 5000)) / 4 + (275 * 2) / 9 + d + 1729777 + 1402 - 1461 * ((367 * y - (7 * (y + 5000)) / 4 + (275 * 2) / 9 + d + 1729777 + 1402 - 1) / 1461)) / 1461) + 30) / 2447) / 11 = 1 := by omega
  all_goals refine ⟨by omega, by omega, by omega⟩

lemma jdnToGregorianE_jul_m3 (y d : Int) (hy1 : 1 ≤ y) (hy2 : y ≤ 1582)
    (hd1 : 1 ≤ d) (hd2 : d ≤ 31) :
    jdnToGregorianE (367 * y - (7 * (y + 5001)) / 4 + (275 * 3) / 9 + d + 1729777) = (y, 3, d) := by
  simp only [jdnToGregorianE]
  rw [if_neg (by omega)]
  simp only [Prod.mk.injEq]
  rcases (by omega : y % 4 = 0 ∨ y % 4 = 1 ∨ y % 4 = 2 ∨ y % 4 = 3) with h4 | h4 | h4 | h4
  all_goals have hk : (367 * y - (7 * (y + 5001)) / 4 + (275 * 3) / 9 + d + 1729777 + 1402 - 1) / 1461 = (y + 0) / 4 + 1179 := by omega
  all_goals have hn : (367 * y - (7 * (y + 5001)) / 4 + (275 * 3) / 9 + d + 1729777 + 1402 - 1461 * ((367 * y - (7 * (y + 5001)) / 4 + (275 * 3) / 9 + d + 1729777 + 1402 - 1) / 1461) - 1) / 365 - (367 * y - (7 * (y + 5001)) / 4 + (275 * 3) / 9 + d + 1729777 + 1402 - 1461 * ((367 * y - (7 * (y + 5001)) / 4 + (275 * 3) / 9 + d + 1729777 + 1402 - 1) / 1461)) / 1461 = (y + 0) % 4 := by omega
  all_goals have hi0 : 367 * y - (7 * (y + 5001)) / 4 + (275 * 3) / 9 + d + 1729777 + 1402 - 1461 * ((367 * y - (7 * (y + 5001)) / 4 + (275 * 3) / 9 + d + 1729777 + 1402 - 1) / 1461) - 365 * ((367 * y - (7 * (y + 5001)) / 4 + (275 * 3) / 9 + d + 1729777 + 1402 - 1461 * ((367 * y - (7 * (y + 5001)) / 4 + (275 * 3) / 9 + d + 1729777 + 1402 - 1) / 1461) - 1) / 365 - (367 * y - (7 * (y + 5001)) / 4 + (275 * 3) / 9 + d + 1729777 + 1402 - 1461 * ((367 * y - (7 * (y + 5001)) / 4 + (275 * 3) / 9 + d + 1729777 + 1402 - 1) / 1461)) / 1461) + 30 = 30 + d := by omega
  all_goals have hj1 : 80 * (367 * y - (7 * (y + 5001)) / 4 + (275 * 3) / 9 + d + 1729777 + 1402 - 1461 * ((367 * y - (7 * (y + 5001)) / 4 + (275 * 3) / 9 + d + 1729777 + 1402 - 1) / 1461) - 365 * ((367 * y - (7 * (y + 5001)) / 4 + (275 * 3) / 9 + d + 1729777 + 1402 - 1461 * ((367 * y - (7 * (y + 5001)) / 4 + (275 * 3) / 9 + d + 1729777 + 1402 - 1) / 1461) - 1) / 365 - (367 * y - (7 * (y + 5001)) / 4 + (275 * 3) / 9 + d + 1729777 + 1402 - 1461 * ((367 * y - (7 * (y + 5001)) / 4 + (275 * 3) / 9 + d + 1729777 + 1402 - 1) / 1461)) / 1461) + 30) / 2447 = 1 := by omega
  all_goals have hday : 2447 * (80 * (367 * y - (7 * (y + 5001)) / 4 + (275 * 3) / 9 + d + 1729777 + 1402 - 1461 * ((367 * y - (7 * (y + 5001)) / 4 + (275 * 3) / 9 + d + 1729777 + 1402 - 1) / 1461) - 365 * ((367 * y - (7 * (y + 5001)) / 4 + (275 * 3) / 9 + d + 1729777 + 1402 - 1461 * ((367 * y - (7 * (y + 5001)) / 4 + (275 * 3) / 9 + d + 1729777 + 1402 - 1) / 1461) - 1) / 365 - (367 * y - (7 * (y + 5001)) / 4 + (275 * 3) / 9 + d + 1729777 + 1402 - 1461 * ((367 * y - (7 * (y + 5001)) / 4 + (275 * 3) / 9 + d + 1729777 + 1402 - 1) / 1461)) / 1461) + 30) / 2447) / 80 = 30 := by omega
  all_goals have hi1 : (80 * (367 * y - (7 * (y + 5001)) / 4 + (275 * 3) / 9 + d + 1729777 + 1402 - 1461 * ((367 * y - (7 * (y + 5001)) / 4 + (275 * 3) / 9 + d + 1729777 + 1402 - 1) / 1461) - 365 * ((367 * y - (7 * (y + 5001)) / 4 + (275 * 3) / 9 + d + 1729777 + 1402 - 1461 * ((367 * y - (7 * (y + 5001)) / 4 + (275 * 3) / 9 + d + 1729777 + 1402 - 1) / 1461) - 1) / 365 - (367 * y - (7 * (y + 5001)) / 4 + (275 * 3) / 9 + d + 1729777 + 1402 - 1461 * ((367 * y - (7 * (y + 5001)) / 4 + (275 * 3) / 9 + d + 1729777 + 1402 - 1) / 1461)) / 1461) + 30) / 2447) / 11 = 0 := by omega
  all_goals refine ⟨by omega, by omega, by omega⟩

lemma jdnToGregorianE_jul_m4 (y d : Int) (hy1 : 1 ≤ y) (hy2 : y ≤ 1582)
    (hd1 : 1 ≤ d) (hd2 : d ≤ 30) :
    jdnToGregorianE (367 * y - (7 * (y + 5001)) / 4 + (275 * 4) / 9 + d + 1729777) = (y, 4, d) := by
  simp only [jdnToGregorianE]
  rw [if_neg (by omega)]
  simp only [Prod.mk.injEq]
  rcases (by omega : y % 4 = 0 ∨ y % 4 = 1 ∨ y % 4 = 2 ∨ y % 4 = 3) with h4 | h4 | h4 | h4
  all_goals have hk : (367 * y - (7 * (y + 5001)) / 4 + (275 * 4) / 9 + d + 1729777 + 1402 - 1) / 1461 = (y + 0) / 4 + 1179 := by omega
  all_goals have hn : (367 * y - (7 * (y + 5001)) / 4 + (275 * 4) / 9 + d + 1729777 + 1402 - 1461 * ((367 * y - (7 * (y + 5001)) / 4 + (275 * 4) / 9 + d + 1729777 + 1402 - 1) / 1461) - 1) / 365 - (367 * y - (7 * (y + 5001)) / 4 + (275 * 4) / 9 + d + 1729777 + 1402 - 1461 * ((367 * y - (7 * (y + 5001)) / 4 + (275 * 4) / 9 + d + 1729777 + 1402 - 1) / 1461)) / 1461 = (y + 0) % 4 := by omega
  all_goals have hi0 : 367 * y - (7 * (y + 5001)) / 4 + (275 * 4) / 9 + d + 1729777 + 1402 - 1461 * ((367 * y - (7 * (y + 5001)) / 4 + (275 * 4) / 9 + d + 1729777 + 1402 - 1) / 1461) - 365 * ((367 * y - (7 * (y + 5001)) / 4 + (275 * 4) / 9 + d + 1729777 + 1402 - 1461 * ((367 * y - (7 * (y + 5001)) / 4 + (275 * 4) / 9 + d + 1729777 + 1402 - 1) / 1461) - 1) / 365 - (367 * y - (7 * (y + 5001)) / 4 + (275 * 4) / 9 + d + 1729777 + 1402 - 1461 * ((367 * y - (7 * (y + 5001)) / 4 + (275 * 4) / 9 + d + 1729777 + 1402 - 1) / 1461)) / 1461) + 30 = 61 + d := by omega
  all_goals have hj1 : 80 * (367 * y - (7 * (y + 5001)) / 4 + (275 * 4) / 9 + d + 1729777 + 1402 - 1461 * ((367 * y - (7 * (y + 5001)) / 4 + (275 * 4) / 9 + d + 1729777 + 1402 - 1) / 1461) - 365 * ((367 * y - (7 * (y + 5001)) / 4 + (275 * 4) / 9 + d + 1729777 + 1402 - 1461 * ((367 * y - (7 * (y + 5001)) / 4 + (275 * 4) / 9 + d + 1729777 + 1402 - 1) / 1461) - 1) / 365 - (367 * y - (7 * (y + 5001)) / 4 + (275 * 4) / 9 + d + 1729777 + 1402 - 1461 * ((367 * y - (7 * (y + 5001)) / 4 + (275 * 4) / 9 + d + 1729777 + 1402 - 1) / 1461)) / 1461) + 30) / 2447 = 2 := by omega
  all_goals have hday : 2447 * (80 * (367 * y - (7 * (y + 5001)) / 4 + (275 * 4) / 9 + d + 1729777 + 1402 - 1461 * ((367 * y - (7 * (y + 5001)) / 4 + (275 * 4) / 9 + d + 1729777 + 1402 - 1) / 1461) - 365 * ((367 * y - (7 * (y + 5001)) / 4 + (275 * 4) / 9 + d + 1729777 + 1402 - 1461 * ((367 * y - (7 * (y + 5001)) / 4 + (275 * 4) / 9 + d + 1729777 + 1402 - 1) / 1461) - 1) / 365 - (367 * y - (7 * (y + 5001)) / 4 + (275 * 4) / 9 + d + 1729777 + 1402 - 1461 * ((367 * y - (7 * (y + 5001)) / 4 + (275 * 4) / 9 + d + 1729777 + 1402 - 1) / 1461)) / 1461) + 30) / 2447) / 80 = 61 := by omega
  all_goals have hi1 : (80 * (367 * y - (7 * (y + 5001)) / 4 + (275 * 4) / 9 + d + 1729777 + 1402 - 1461 * ((367 * y - (7 * (y + 5001)) / 4 + (275 * 4) / 9 + d + 1729777 + 1402 - 1) / 1461) - 365 * ((367 * y - (7 * (y + 5001)) / 4 + (275 * 4) / 9 + d + 1729777 + 1402 - 1461 * ((367 * y - (7 * (y + 5001)) / 4 + (275 * 4) / 9 + d + 1729777 + 1402 - 1) / 1461) - 1) / 365 - (367 * y - (7 * (y + 5001)) / 4 + (275 * 4) / 9 + d + 1729777 + 1402 - 1461 * ((367 * y - (7 * (y + 5001)) / 4 + (275 * 4) / 9 + d + 1729777 + 1402 - 1) / 1461)) / 1461) + 30) / 2447) / 11 = 0 := by omega
  all_goals refine ⟨by omega, by omega, by omega⟩

lemma jdnToGregorianE_jul_m5 (y d : Int) (hy1 : 1 ≤ y) (hy2 : y ≤ 1582)
    (hd1 : 1 ≤ d) (hd2 : d ≤ 31) :
    jdnToGregorianE (367 * y - (7 * (y + 5001)) / 4 + (275 * 5) / 9 + d + 1729777) = (y, 5, d) := by
  simp only [jdnToGregorianE]
  rw [if_neg (by omega)]
  simp only [Prod.mk.injEq]
  rcases (by omega : y % 4 = 0 ∨ y % 4 = 1 ∨ y % 4 = 2 ∨ y % 4 = 3) with h4 | h4 | h4 | h4
  all_goals have hk : (367 * y - (7 * (y + 5001)) / 4 + (275 * 5) / 9 + d + 1729777 + 1402 - 1) / 1461 = (y + 0) / 4 + 1179 := by omega
  all_goals have hn : (367 * y - (7 * (y + 5001)) / 4 + (275 * 5) / 9 + d + 1729777 + 1402 - 1461 * ((367 * y - (7 * (y + 5001)) / 4 + (275 * 5) / 9 + d + 1729777 + 1402 - 1) / 1461) - 1) / 365 - (367 * y - (7 * (y + 5001)) / 4 + (275 * 5) / 9 + d + 1729777 + 1402 - 1461 * ((367 * y - (7 * (y + 5001)) / 4 + (275 * 5) / 9 + d + 1729777 + 1402 - 1) / 1461)) / 1461 = (y + 0) % 4 := by omega
  all_goals have hi0 : 367 * y - (7 * (y + 5001)) / 4 + (275 * 5) / 9 + d + 1729777 + 1402 - 1461 * ((367 * y - (7 * (y + 5001)) / 4 + (275 * 5) / 9 + d + 1729777 + 1402 - 1) / 1461) - 365 * ((367 * y - (7 * (y + 5001)) / 4 + (275 * 5) / 9 + d + 1729777 + 1402 - 1461 * ((367 * y - (7 * (y + 5001)) / 4 + (275 * 5) / 9 + d + 1729777 + 1402 - 1) / 1461) - 1) / 365 - (367 * y - (7 * (y + 5001)) / 4 + (275 * 5) / 9 + d + 1729777 + 1402 - 1461 * ((367 * y - (7 * (y + 5001)) / 4 + (275 * 5) / 9 + d + 1729777 + 1402 - 1) / 1461)) / 1461) + 30 = 91 + d := by omega
  all_goals have hj1 : 80 * (367 * y - (7 * (y + 5001)) / 4 + (275 * 5) / 9 + d + 1729777 + 1402 - 1461 * ((367 * y - (7 * (y + 5001)) / 4 + (275 * 5) / 9 + d + 1729777 + 1402 - 1) / 1461) - 365 * ((367 * y - (7 * (y + 5001)) / 4 + (275 * 5) / 9 + d + 1729777 + 1402 - 1461 * ((367 * y - (7 * (y + 5001)) / 4 + (275 * 5) / 9 + d + 1729777 + 1402 - 1) / 1461) - 1) / 365 - (367 * y - (7 * (y + 5001)) / 4 + (275 * 5) / 9 + d + 1729777 + 1402 - 1461 * ((367 * y - (7 * (y + 5001)) / 4 + (275 * 5) / 9 + d + 1729777 + 1402 - 1) / 1461)) / 1461) + 30) / 2447 = 3 := by omega
  all_goals have hday : 2447 * (80 * (367 * y - (7 * (y + 5001)) / 4 + (275 * 5) / 9 + d + 1729777 + 1402 - 1461 * ((367 * y - (7 * (y + 5001)) / 4 + (275 * 5) / 9 + d + 1729777 + 1402 - 1) / 1461) - 365 * ((367 * y - (7 * (y + 5001)) / 4 + (275 * 5) / 9 + d + 1729777 + 1402 - 1461 * ((367 * y - (7 * (y + 5001)) / 4 + (275 * 5) / 9 + d + 1729777 + 1402 - 1) / 1461) - 1) / 365 - (367 * y - (7 * (y + 5001)) / 4 + (275 * 5) / 9 + d + 1729777 + 1402 - 1461 * ((367 * y - (7 * (y + 5001)) / 4 + (275 * 5) / 9 + d + 1729777 + 1402 - 1) / 1461)) / 1461) + 30) / 2447) / 80 = 91 := by omega
  all_goals have hi1 : (80 * (367 * y - (7 * (y + 5001)) / 4 + (275 * 5) / 9 + d + 1729777 + 1402 - 1461 * ((367 * y - (7 * (y + 5001)) / 4 + (275 * 5) / 9 + d + 1729777 + 1402 - 1) / 1461) - 365 * ((367 * y - (7 * (y + 5001)) / 4 + (275 * 5) / 9 + d + 1729777 + 1402 - 1461 * ((367 * y - (7 * (y + 5001)) / 4 + (275 * 5) / 9 + d + 1729777 + 1402 - 1) / 1461) - 1) / 365 - (367 * y - (7 * (y + 5001)) / 4 + (275 * 5) / 9 + d + 1729777 + 1402 - 1461 * ((367 * y - (7 * (y + 5001)) / 4 + (275 * 5) / 9 + d + 1729777 + 1402 - 1) / 1461)) / 1461) + 30) / 2447) / 11 = 0 := by omega
  all_goals refine ⟨by omega, by omega, by omega⟩

lemma jdnToGregorianE_jul_m6 (y d : Int) (hy1 : 1 ≤ y) (hy2 : y ≤ 1582)
    (hd1 : 1 ≤ d) (hd2 : d ≤ 30) :
    jdnToGregorianE (367 * y - (7 * (y + 5001)) / 4 + (275 * 6) / 9 + d + 1729777) = (y, 6, d) := by
  simp only [jdnToGregorianE]
  rw [if_neg (by omega)]
  simp only [Prod.mk.injEq]
  rcases (by omega : y % 4 = 0 ∨ y % 4 = 1 ∨ y % 4 = 2 ∨ y % 4 = 3) with h4 | h4 | h4 | h4
  all_goals have hk : (367 * y - (7 * (y + 5001)) / 4 + (275 * 6) / 9 + d + 1729777 + 1402 - 1) / 1461 = (y + 0) / 4 + 1179 := by omega
  all_goals have hn : (367 * y - (7 * (y + 5001)) / 4 + (275 * 6) / 9 + d + 1729777 + 1402 - 1461 * ((367 * y - (7 * (y + 5001)) / 4 + (275 * 6) / 9 + d + 1729777 + 1402 - 1) / 1461) - 1) / 365 - (367 * y - (7 * (y + 5001)) / 4 + (275 * 6) / 9 + d + 1729777 + 1402 - 1461 * ((367 * y - (7 * (y + 5001)) / 4 + (275 * 6) / 9 + d + 1729777 + 1402 - 1) / 1461)) / 1461 = (y + 0) % 4 := by omega
  all_goals have hi0 : 367 * y - (7 * (y + 5001)) / 4 + (275 * 6) / 9 + d + 1729777 + 1402 - 1461 * ((367 * y - (7 * (y + 5001)) / 4 + (275 * 6) / 9 + d + 1729777 + 1402 - 1) / 1461) - 365 * ((367 * y - (7 * (y + 5001)) / 4 + (275 * 6) / 9 + d + 1729777 + 1402 - 1461 * ((367 * y - (7 * (y + 5001)) / 4 + (275 * 6) / 9 + d + 1729777 + 1402 - 1) / 1461) - 1) / 365 - (367 * y - (7 * (y + 5001)) / 4 + (275 * 6) / 9 + d + 1729777 + 1402 - 1461 * ((367 * y - (7 * (y + 5001)) / 4 + (275 * 6) / 9 + d + 1729777 + 1402 - 1) / 1461)) / 1461) + 30 = 122 + d := by omega
  all_goals have hj1 : 80 * (367 * y - (7 * (y + 5001)) / 4 + (275 * 6) / 9 + d + 1729777 + 1402 - 1461 * ((367 * y - (7 * (y + 5001)) / 4 + (275 * 6) / 9 + d + 1729777 + 1402 - 1) / 1461) - 365 * ((367 * y - (7 * (y + 5001)) / 4 + (275 * 6) / 9 + d + 1729777 + 1402 - 1461 * ((367 * y - (7 * (y + 5001)) / 4 + (275 * 6) / 9 + d + 1729777 + 1402 - 1) / 1461) - 1) / 365 - (367 * y - (7 * (y + 5001)) / 4 + (275 * 6) / 9 + d + 1729777 + 1402 - 1461 * ((367 * y - (7 * (y + 5001)) / 4 + (275 * 6) / 9 + d + 1729777 + 1402 - 1) / 1461)) / 1461) + 30) / 2447 = 4 := by omega
  all_goals have hday : 2447 * (80 * (367 * y - (7 * (y + 5001)) / 4 + (275 * 6) / 9 + d + 1729777 + 1402 - 1461 * ((367 * y - (7 * (y + 5001)) / 4 + (275 * 6) / 9 + d + 1729777 + 1402 - 1) / 1461) - 365 * ((367 * y - (7 * (y + 5001)) / 4 + (275 * 6) / 9 + d + 1729777 + 1402 - 1461 * ((367 * y - (7 * (y + 5001)) / 4 + (275 * 6) / 9 + d + 1729777 + 1402 - 1) / 1461) - 1) / 365 - (367 * y - (7 * (y + 5001)) / 4 + (275 * 6) / 9 + d + 1729777 + 1402 - 1461 * ((367 * y - (7 * (y + 5001)) / 4 + (275 * 6) / 9 + d + 1729777 + 1402 - 1) / 1461)) / 1461) + 30) / 2447) / 80 = 122 := by omega
  all_goals have hi1 : (80 * (367 * y - (7 * (y + 5001)) / 4 + (275 * 6) / 9 + d + 1729777 + 1402 - 1461 * ((367 * y - (7 * (y + 5001)) / 4 + (275 * 6) / 9 + d + 1729777 + 1402 - 1) / 1461) - 365 * ((367 * y - (7 * (y + 5001)) / 4 + (275 * 6) / 9 + d + 1729777 + 1402 - 1461 * ((367 * y - (7 * (y + 5001)) / 4 + (275 * 6) / 9 + d + 1729777 + 1402 - 1) / 1461) - 1) / 365 - (367 * y - (7 * (y + 5001)) / 4 + (275 * 6) / 9 + d + 1729777 + 1402 - 1461 * ((367 * y - (7 * (y + 5001)) / 4 + (275 * 6) / 9 + d + 1729777 + 1402 - 1) / 1461)) / 1461) + 30) / 2447) / 11 = 0 := by omega
  all_goals refine ⟨by omega, by omega, by omega⟩

lemma jdnToGregorianE_jul_m7 (y d : Int) (hy1 : 1 ≤ y) (hy2 : y ≤ 1582)
    (hd1 : 1 ≤ d) (hd2 : d ≤ 31) :
    jdnToGregorianE (367 * y - (7 * (y + 5001)) / 4 + (275 * 7) / 9 + d + 1729777) = (y, 7, d) := by
  simp only [jdnToGregorianE]
  rw [if_neg (by omega)]
  simp only [Prod.mk.injEq]
  rcases (by omega : y % 4 = 0 ∨ y % 4 = 1 ∨ y % 4 = 2 ∨ y % 4 = 3) with h4 | h4 | h4 | h4
  all_goals have hk : (367 * y - (7 * (y + 5001)) / 4 + (275 * 7) / 9 + d + 1729777 + 1402 - 1) / 1461 = (y + 0) / 4 + 1179 := by omega
  all_goals have hn : (367 * y - (7 * (y + 5001)) / 4 + (275 * 7) / 9 + d + 1729777 + 1402 - 1461 * ((367 * y - (7 * (y + 5001)) / 4 + (275 * 7) / 9 + d + 1729777 + 1402 - 1) / 1461) - 1) / 365 - (367 * y - (7 * (y + 5001)) / 4 + (275 * 7) / 9 + d + 1729777 + 1402 - 1461 * ((367 * y - (7 * (y + 5001)) / 4 + (275 * 7) / 9 + d + 1729777 + 1402 - 1) / 1461)) / 1461 = (y + 0) % 4 := by omega
  all_goals have hi0 : 367 * y - (7 * (y + 5001)) / 4 + (275 * 7) / 9 + d + 1729777 + 1402 - 1461 * ((367 * y - (7 * (y + 5001)) / 4 + (275 * 7) / 9 + d + 1729777 + 1402 - 1) / 1461) - 365 * ((367 * y - (7 * (y + 5001)) / 4 + (275 * 7) / 9 + d + 1729777 + 1402 - 1461 * ((367 * y - (7 * (y + 5001)) / 4 + (275 * 7) / 9 + d + 1729777 + 1402 - 1) / 1461) - 1) / 365 - (367 * y - (7 * (y + 5001)) / 4 + (275 * 7) / 9 + d + 1729777 + 1402 - 1461 * ((367 * y - (7 * (y + 5001)) / 4 + (275 * 7) / 9 + d + 1729777 + 1402 - 1) / 1461)) / 1461) + 30 = 152 + d := by omega
  all_goals have hj1 : 80 * (367 * y - (7 * (y + 5001)) / 4 + (275 * 7) / 9 + d + 1729777 + 1402 - 1461 * ((367 * y - (7 * (y + 5001)) / 4 + (275 * 7) / 9 + d + 1729777 + 1402 - 1) / 1461) - 365 * ((367 * y - (7 * (y + 5001)) / 4 + (275 * 7) / 9 + d + 1729777 + 1402 - 1461 * ((367 * y - (7 * (y + 5001)) / 4 + (275 * 7) / 9 + d + 1729777 + 1402 - 1) / 1461) - 1) / 365 - (367 * y - (7 * (y + 5001)) / 4 + (275 * 7) / 9 + d + 1729777 + 1402 - 1461 * ((367 * y - (7 * (y + 5001)) / 4 + (275 * 7) / 9 + d + 1729777 + 1402 - 1) / 1461)) / 1461) + 30) / 2447 = 5 := by omega
  all_goals have hday : 2447 * (80 * (367 * y - (7 * (y + 5001)) / 4 + (275 * 7) / 9 + d + 1729777 + 1402 - 1461 * ((367 * y - (7 * (y + 5001)) / 4 + (275 * 7) / 9 + d + 1729777 + 1402 - 1) / 1461) - 365 * ((367 * y - (7 * (y + 5001)) / 4 + (275 * 7) / 9 + d + 1729777 + 1402 - 1461 * ((367 * y - (7 * (y + 5001)) / 4 + (275 * 7) / 9 + d + 1729777 + 1402 - 1) / 1461) - 1) / 365 - (367 * y - (7 * (y + 5001)) / 4 + (275 * 7) / 9 + d + 1729777 + 1402 - 1461 * ((367 * y - (7 * (y + 5001)) / 4 + (275 * 7) / 9 + d + 1729777 + 1402 - 1) / 1461)) / 1461) + 30) / 2447) / 80 = 152 := by omega
  all_goals have hi1 : (80 * (367 * y - (7 * (y + 5001)) / 4 + (275 * 7) / 9 + d + 1729777 + 1402 - 1461 * ((367 * y - (7 * (y + 5001)) / 4 + (275 * 7) / 9 + d + 1729777 + 1402 - 1) / 1461) - 365 * ((367 * y - (7 * (y + 5001)) / 4 + (275 * 7) / 9 + d + 1729777 + 1402 - 1461 * ((367 * y - (7 * (y + 5001)) / 4 + (275 * 7) / 9 + d + 1729777 + 1402 - 1) / 1461) - 1) / 365 - (367 * y - (7 * (y + 5001)) / 4 + (275 * 7) / 9 + d + 1729777 + 1402 - 1461 * ((367 * y - (7 * (y + 5001)) / 4 + (275 * 7) / 9 + d + 1729777 + 1402 - 1) / 1461)) / 1461) + 30) / 2447) / 11 = 0 := by omega
  all_goals refine ⟨by omega, by omega, by omega⟩

lemma jdnToGregorianE_jul_m8 (y d : Int) (hy1 : 1 ≤ y) (hy2 : y ≤ 1582)
    (hd1 : 1 ≤ d) (hd2 : d ≤ 31) :
    jdnToGregorianE (367 * y - (7 * (y + 5001)) / 4 + (275 * 8) / 9 + d + 1729777) = (y, 8, d) := by
  simp only [jdnToGregorianE]
  rw [if_neg (by omega)]
  simp only [Prod.mk.injEq]
  rcases (by omega : y % 4 = 0 ∨ y % 4 = 1 ∨ y % 4 = 2 ∨ y % 4 = 3) with h4 | h4 | h4 | h4
  all_goals have hk : (367 * y - (7 * (y + 5001)) / 4 + (275 * 8) / 9 + d + 1729777 + 1402 - 1) / 1461 = (y + 0) / 4 + 1179 := by omega
  all_goals have hn : (367 * y - (7 * (y + 5001)) / 4 + (275 * 8) / 9 + d + 1729777 + 1402 - 1461 * ((367 * y - (7 * (y + 5001)) / 4 + (275 * 8) / 9 + d + 1729777 + 1402 - 1) / 1461) - 1) / 365 - (367 * y - (7 * (y + 5001)) / 4 + (275 * 8) / 9 + d + 1729777 + 1402 - 1461 * ((367 * y - (7 * (y + 5001)) / 4 + (275 * 8) / 9 + d + 1729777 + 1402 - 1) / 1461)) / 1461 = (y + 0) % 4 := by omega
  all_goals have hi0 : 367 * y - (7 * (y + 5001)) / 4 + (275 * 8) / 9 + d + 1729777 + 1402 - 1461 * ((367 * y - (7 * (y + 5001)) / 4 + (275 * 8) / 9 + d + 1729777 + 1402 - 1) / 1461) - 365 * ((367 * y - (7 * (y + 5001)) / 4 + (275 * 8) / 9 + d + 1729777 + 1402 - 1461 * ((367 * y - (7 * (y + 5001)) / 4 + (275 * 8) / 9 + d + 1729777 + 1402 - 1) / 1461) - 1) / 365 - (367 * y - (7 * (y + 5001)) / 4 + (275 * 8) / 9 + d + 1729777 + 1402 - 1461 * ((367 * y - (7 * (y + 5001)) / 4 + (275 * 8) / 9 + d + 1729777 + 1402 - 1) / 1461)) / 1461) + 30 = 183 + d := by omega
  all_goals have hj1 : 80 * (367 * y - (7 * (y + 5001)) / 4 + (275 * 8) / 9 + d + 1729777 + 1402 - 1461 * ((367 * y - (7 * (y + 5001)) / 4 + (275 * 8) / 9 + d + 1729777 + 1402 - 1) / 1461) - 365 * ((367 * y - (7 * (y + 5001)) / 4 + (275 * 8) / 9 + d + 1729777 + 1402 - 1461 * ((367 * y - (7 * (y + 5001)) / 4 + (275 * 8) / 9 + d + 1729777 + 1402 - 1) / 1461) - 1) / 365 - (367 * y - (7 * (y + 5001)) / 4 + (275 * 8) / 9 + d + 1729777 + 1402 - 1461 * ((367 * y - (7 * (y + 5001)) / 4 + (275 * 8) / 9 + d + 1729777 + 1402 - 1) / 1461)) / 1461) + 30) / 2447 = 6 := by omega
  all_goals have hday : 2447 * (80 * (367 * y - (7 * (y + 5001)) / 4 + (275 * 8) / 9 + d + 1729777 + 1402 - 1461 * ((367 * y - (7 * (y + 5001)) / 4 + (275 * 8) / 9 + d + 1729777 + 1402 - 1) / 1461) - 365 * ((367 * y - (7 * (y + 5001)) / 4 + (275 * 8) / 9 + d + 1729777 + 1402 - 1461 * ((367 * y - (7 * (y + 5001)) / 4 + (275 * 8) / 9 + d + 1729777 + 1402 - 1) / 1461) - 1) / 365 - (367 * y - (7 * (y + 5001)) / 4 + (275 * 8) / 9 + d + 1729777 + 1402 - 1461 * ((367 * y - (7 * (y + 5001)) / 4 + (275 * 8) / 9 + d + 1729777 + 1402 - 1) / 1461)) / 1461) + 30) / 2447) / 80 = 183 := by omega
  all_goals have hi1 : (80 * (367 * y - (7 * (y + 5001)) / 4 + (275 * 8) / 9 + d + 1729777 + 1402 - 1461 * ((367 * y - (7 * (y + 5001)) / 4 + (275 * 8) / 9 + d + 1729777 + 1402 - 1) / 1461) - 365 * ((367 * y - (7 * (y + 5001)) / 4 + (275 * 8) / 9 + d + 1729777 + 1402 - 1461 * ((367 * y - (7 * (y + 5001)) / 4 + (275 * 8) / 9 + d + 1729777 + 1402 - 1) / 1461) - 1) / 365 - (367 * y - (7 * (y + 5001)) / 4 + (275 * 8) / 9 + d + 1729777 + 1402 - 1461 * ((367 * y - (7 * (y + 5001)) / 4 + (275 * 8) / 9 + d + 1729777 + 1402 - 1) / 1461)) / 1461) + 30) / 2447) / 11 = 0 := by omega
  all_goals refine ⟨by omega, by omega, by omega⟩

lemma jdnToGregorianE_jul_m9 (y d : Int) (hy1 : 1 ≤ y) (hy2 : y ≤ 1582)
    (hd1 : 1 ≤ d) (hd2 : d ≤ 30) :
    jdnToGregorianE (367 * y - (7 * (y + 5001)) / 4 + (275 * 9) / 9 + d + 1729777) = (y, 9, d) := by
  simp only [jdnToGregorianE]
  rw [if_neg (by omega)]
  simp only [Prod.mk.injEq]
  rcases (by omega : y % 4 = 0 ∨ y % 4 = 1 ∨ y % 4 = 2 ∨ y % 4 = 3) with h4 | h4 | h4 | h4
  all_goals have hk : (367 * y - (7 * (y + 5001)) / 4 + (275 * 9) / 9 + d + 1729777 + 1402 - 1) / 1461 = (y + 0) / 4 + 1179 := by omega
  all_goals have hn : (367 * y - (7 * (y + 5001)) / 4 + (275 * 9) / 9 + d + 1729777 + 1402 - 1461 * ((367 * y - (7 * (y + 5001)) / 4 + (275 * 9) / 9 + d + 1729777 + 1402 - 1) / 1461) - 1) / 365 - (367 * y - (7 * (y + 5001)) / 4 + (275 * 9) / 9 + d + 1729777 + 1402 - 1461 * ((367 * y - (7 * (y + 5001)) / 4 + (275 * 9) / 9 + d + 1729777 + 1402 - 1) / 1461)) / 1461 = (y + 0) % 4 := by omega
  all_goals have hi0 : 367 * y - (7 * (y + 5001)) / 4 + (275 * 9) / 9 + d + 1729777 + 1402 - 1461 * ((367 * y - (7 * (y + 5001)) / 4 + (275 * 9) / 9 + d + 1729777 + 1402 - 1) / 1461) - 365 * ((367 * y - (7 * (y + 5001)) / 4 + (275 * 9) / 9 + d + 1729777 + 1402 - 1461 * ((367 * y - (7 * (y + 5001)) / 4 + (275 * 9) / 9 + d + 1729777 + 1402 - 1) / 1461) - 1) / 365 - (367 * y - (7 * (y + 5001)) / 4 + (275 * 9) / 9 + d + 1729777 + 1402 - 1461 * ((367 * y - (7 * (y + 5001)) / 4 + (275 * 9) / 9 + d + 1729777 + 1402 - 1) / 1461)) / 1461) + 30 = 214 + d := by omega
  all_goals have hj1 : 80 * (367 * y - (7 * (y + 5001)) / 4 + (275 * 9) / 9 + d + 1729777 + 1402 - 1461 * ((367 * y - (7 * (y + 5001)) / 4 + (275 * 9) / 9 + d + 1729777 + 1402 - 1) / 1461) - 365 * ((367 * y - (7 * (y + 5001)) / 4 + (275 * 9) / 9 + d + 1729777 + 1402 - 1461 * ((367 * y - (7 * (y + 5001)) / 4 + (275 * 9) / 9 + d + 1729777 + 1402 - 1) / 1461) - 1) / 365 - (367 * y - (7 * (y + 5001)) / 4 + (275 * 9) / 9 + d + 1729777 + 1402 - 1461 * ((367 * y - (7 * (y + 5001)) / 4 + (275 * 9) / 9 + d + 1729777 + 1402 - 1) / 1461)) / 1461) + 30) / 2447 = 7 := by omega
  all_goals have hday : 2447 * (80 * (367 * y - (7 * (y + 5001)) / 4 + (275 * 9) / 9 + d + 1729777 + 1402 - 1461 * ((367 * y - (7 * (y + 5001)) / 4 + (275 * 9) / 9 + d + 1729777 + 1402 - 1) / 1461) - 365 * ((367 * y - (7 * (y + 5001)) / 4 + (275 * 9) / 9 + d + 1729777 + 1402 - 1461 * ((367 * y - (7 * (y + 5001)) / 4 + (275 * 9) / 9 + d + 1729777 + 1402 - 1) / 1461) - 1) / 365 - (367 * y - (7 * (y + 5001)) / 4 + (275 * 9) / 9 + d + 1729777 + 1402 - 1461 * ((367 * y - (7 * (y + 5001)) / 4 + (275 * 9) / 9 + d + 1729777 + 1402 - 1) / 1461)) / 1461) + 30) / 2447) / 80 = 214 := by omega
  all_goals have hi1 : (80 * (367 * y - (7 * (y + 5001)) / 4 + (275 * 9) / 9 + d + 1729777 + 1402 - 1461 * ((367 * y - (7 * (y + 5001)) / 4 + (275 * 9) / 9 + d + 1729777 + 1402 - 1) / 1461) - 365 * ((367 * y - (7 * (y + 5001)) / 4 + (275 * 9) / 9 + d + 1729777 + 1402 - 1461 * ((367 * y - (7 * (y + 5001)) / 4 + (275 * 9) / 9 + d + 1729777 + 1402 - 1) / 1461) - 1) / 365 - (367 * y - (7 * (y + 5001)) / 4 + (275 * 9) / 9 + d + 1729777 + 1402 - 1461 * ((367 * y - (7 * (y + 5001)) / 4 + (275 * 9) / 9 + d + 1729777 + 1402 - 1) / 1461)) / 1461) + 30) / 2447) / 11 = 0 := by omega
  all_goals refine ⟨by omega, by omega, by omega⟩

lemma jdnToGregorianE_jul_m10 (y d : Int) (hy1 : 1 ≤ y) (hy2 : y ≤ 1582)
    (hd1 : 1 ≤ d) (hd2 : d ≤ 31) (hj : y ≤ 1581 ∨ d ≤ 4) :
    jdnToGregorianE (367 * y - (7 * (y + 5001)) / 4 + (275 * 10) / 9 + d + 1729777) = (y, 10, d) := by
  simp only [jdnToGregorianE]
  rw [if_neg (by omega)]
  simp only [Prod.mk.injEq]
  rcases (by omega : y % 4 = 0 ∨ y % 4 = 1 ∨ y % 4 = 2 ∨ y % 4 = 3) with h4 | h4 | h4 | h4
  all_goals have hk : (367 * y - (7 * (y + 5001)) / 4 + (275 * 10) / 9 + d + 1729777 + 1402 - 1) / 1461 = (y + 0) / 4 + 1179 := by omega
  all_goals have hn : (367 * y - (7 * (y + 5001)) / 4 + (275 * 10) / 9 + d + 1729777 + 1402 - 1461 * ((367 * y - (7 * (y + 5001)) / 4 + (275 * 10) / 9 + d + 1729777 + 1402 - 1) / 1461) - 1) / 365 - (367 * y - (7 * (y + 5001)) / 4 + (275 * 10) / 9 + d + 1729777 + 1402 - 1461 * ((367 * y - (7 * (y + 5001)) / 4 + (275 * 10) / 9 + d + 1729777 + 1402 - 1) / 1461)) / 1461 = (y + 0) % 4 := by omega
  all_goals have hi0 : 367 * y - (7 * (y + 5001)) / 4 + (275 * 10) / 9 + d + 1729777 + 1402 - 1461 * ((367 * y - (7 * (y + 5001)) / 4 + (275 * 10) / 9 + d + 1729777 + 1402 - 1) / 1461) - 365 * ((367 * y - (7 * (y + 5001)) / 4 + (275 * 10) / 9 + d + 1729777 + 1402 - 1461 * ((367 * y - (7 * (y + 5001)) / 4 + (275 * 10) / 9 + d + 1729777 + 1402 - 1) / 1461) - 1) / 365 - (367 * y - (7 * (y + 5001)) / 4 + (275 * 10) / 9 + d + 1729777 + 1402 - 1461 * ((367 * y - (7 * (y + 5001)) / 4 + (275 * 10) / 9 + d + 1729777 + 1402 - 1) / 1461)) / 1461) + 30 = 244 + d := by omega
  all_goals have hj1 : 80 * (367 * y - (7 * (y + 5001)) / 4 + (275 * 10) / 9 + d + 1729777 + 1402 - 1461 * ((367 * y - (7 * (y + 5001)) / 4 + (275 * 10) / 9 + d + 1729777 + 1402 - 1) / 1461) - 365 * ((367 * y - (7 * (y + 5001)) / 4 + (275 * 10) / 9 + d + 1729777 + 1402 - 1461 * ((367 * y - (7 * (y + 5001)) / 4 + (275 * 10) / 9 + d + 1729777 + 1402 - 1) / 1461) - 1) / 365 - (367 * y - (7 * (y + 5001)) / 4 + (275 * 10) / 9 + d + 1729777 + 1402 - 1461 * ((367 * y - (7 * (y + 5001)) / 4 + (275 * 10) / 9 + d + 1729777 + 1402 - 1) / 1461)) / 1461) + 30) / 2447 = 8 := by omega
  all_goals have hday : 2447 * (80 * (367 * y - (7 * (y + 5001)) / 4 + (275 * 10) / 9 + d + 1729777 + 1402 - 1461 * ((367 * y - (7 * (y + 5001)) / 4 + (275 * 10) / 9 + d + 1729777 + 1402 - 1) / 1461) - 365 * ((367 * y - (7 * (y + 5001)) / 4 + (275 * 10) / 9 + d + 1729777 + 1402 - 1461 * ((367 * y - (7 * (y + 5001)) / 4 + (275 * 10) / 9 + d + 1729777 + 1402 - 1) / 1461) - 1) / 365 - (367 * y - (7 * (y + 5001)) / 4 + (275 * 10) / 9 + d + 1729777 + 1402 - 1461 * ((367 * y - (7 * (y + 5001)) / 4 + (275 * 10) / 9 + d + 1729777 + 1402 - 1) / 1461)) / 1461) + 30) / 2447) / 80 = 244 := by omega
  all_goals have hi1 : (80 * (367 * y - (7 * (y + 5001)) / 4 + (275 * 10) / 9 + d + 1729777 + 1402 - 1461 * ((367 * y - (7 * (y + 5001)) / 4 + (275 * 10) / 9 + d + 1729777 + 1402 - 1) / 1461) - 365 * ((367 * y - (7 * (y + 5001)) / 4 + (275 * 10) / 9 + d + 1729777 + 1402 - 1461 * ((367 * y - (7 * (y + 5001)) / 4 + (275 * 10) / 9 + d + 1729777 + 1402 - 1) / 1461) - 1) / 365 - (367 * y - (7 * (y + 5001)) / 4 + (275 * 10) / 9 + d + 1729777 + 1402 - 1461 * ((367 * y - (7 * (y + 5001)) / 4 + (275 * 10) / 9 + d + 1729777 + 1402 - 1) / 1461)) / 1461) + 30) / 2447) / 11 = 0 := by omega
  all_goals refine ⟨by omega, by omega, by omega⟩

lemma jdnToGregorianE_jul_m11 (y d : Int) (hy1 : 1 ≤ y) (hy2 : y ≤ 1581)
    (hd1 : 1 ≤ d) (hd2 : d ≤ 30) :
    jdnToGregorianE (367 * y - (7 * (y + 5001)) / 4 + (275 * 11) / 9 + d + 1729777) = (y, 11, d) := by
  simp only [jdnToGregorianE]
  rw [if_neg (by omega)]
  simp only [Prod.mk.injEq]
  rcases (by omega : y % 4 = 0 ∨ y % 4 = 1 ∨ y % 4 = 2 ∨ y % 4 = 3) with h4 | h4 | h4 | h4
  all_goals have hk : (367 * y - (7 * (y + 5001)) / 4 + (275 * 11) / 9 + d + 1729777 + 1402 - 1) / 1461 = (y + 0) / 4 + 1179 := by omega
  all_goals have hn : (367 * y - (7 * (y + 5001)) / 4 + (275 * 11) / 9 + d + 1729777 + 1402 - 1461 * ((367 * y - (7 * (y + 5001)) / 4 + (275 * 11) / 9 + d + 1729777 + 1402 - 1) / 1461) - 1) / 365 - (367 * y - (7 * (y + 5001)) / 4 + (275 * 11) / 9 + d + 1729777 + 1402 - 1461 * ((367 * y - (7 * (y + 5001)) / 4 + (275 * 11) / 9 + d + 1729777 + 1402 - 1) / 1461)) / 1461 = (y + 0) % 4 := by omega
  all_goals have hi0 : 367 * y - (7 * (y + 5001)) / 4 + (275 * 11) / 9 + d + 1729777 + 1402 - 1461 * ((367 * y - (7 * (y + 5001)) / 4 + (275 * 11) / 9 + d + 1729777 + 1402 - 1) / 1461) - 365 * ((367 * y - (7 * (y + 5001)) / 4 + (275 * 11) / 9 + d + 1729777 + 1402 - 1461 * ((367 * y - (7 * (y + 5001)) / 4 + (275 * 11) / 9 + d + 1729777 + 1402 - 1) / 1461) - 1) / 365 - (367 * y - (7 * (y + 5001)) / 4 + (275 * 11) / 9 + d + 1729777 + 1402 - 1461 * ((367 * y - (7 * (y + 5001)) / 4 + (275 * 11) / 9 + d + 1729777 + 1402 - 1) / 1461)) / 1461) + 30 = 275 + d := by omega
  all_goals have hj1 : 80 * (367 * y - (7 * (y + 5001)) / 4 + (275 * 11) / 9 + d + 1729777 + 1402 - 1461 * ((367 * y - (7 * (y + 5001)) / 4 + (275 * 11) / 9 + d + 1729777 + 1402 - 1) / 1461) - 365 * ((367 * y - (7 * (y + 5001)) / 4 + (275 * 11) / 9 + d + 1729777 + 1402 - 1461 * ((367 * y - (7 * (y + 5001)) / 4 + (275 * 11) / 9 + d + 1729777 + 1402 - 1) / 1461) - 1) / 365 - (367 * y - (7 * (y + 5001)) / 4 + (275 * 11) / 9 + d + 1729777 + 1402 - 1461 * ((367 * y - (7 * (y + 5001)) / 4 + (275 * 11) / 9 + d + 1729777 + 1402 - 1) / 1461)) / 1461) + 30) / 2447 = 9 := by omega
  all_goals have hday : 2447 * (80 * (367 * y - (7 * (y + 5001)) / 4 + (275 * 11) / 9 + d + 1729777 + 1402 - 1461 * ((367 * y - (7 * (y + 5001)) / 4 + (275 * 11) / 9 + d + 1729777 + 1402 - 1) / 1461) - 365 * ((367 * y - (7 * (y + 5001)) / 4 + (275 * 11) / 9 + d + 1729777 + 1402 - 1461 * ((367 * y - (7 * (y + 5001)) / 4 + (275 * 11) / 9 + d + 1729777 + 1402 - 1) / 1461) - 1) / 365 - (367 * y - (7 * (y + 5001)) / 4 + (275 * 11) / 9 + d + 1729777 + 1402 - 1461 * ((367 * y - (7 * (y + 5001)) / 4 + (275 * 11) / 9 + d + 1729777 + 1402 - 1) / 1461)) / 1461) + 30) / 2447) / 80 = 275 := by omega
  all_goals have hi1 : (80 * (367 * y - (7 * (y + 5001)) / 4 + (275 * 11) / 9 + d + 1729777 + 1402 - 1461 * ((367 * y - (7 * (y + 5001)) / 4 + (275 * 11) / 9 + d + 1729777 + 1402 - 1) / 1461) - 365 * ((367 * y - (7 * (y + 5001)) / 4 + (275 * 11) / 9 + d + 1729777 + 1402 - 1461 * ((367 * y - (7 * (y + 5001)) / 4 + (275 * 11) / 9 + d + 1729777 + 1402 - 1) / 1461) - 1) / 365 - (367 * y - (7 * (y + 5001)) / 4 + (275 * 11) / 9 + d + 1729777 + 1402 - 1461 * ((367 * y - (7 * (y + 5001)) / 4 + (275 * 11) / 9 + d + 1729777 + 1402 - 1) / 1461)) / 1461) + 30) / 2447) / 11 = 0 := by omega
  all_goals refine ⟨by omega, by omega, by omega⟩

lemma jdnToGregorianE_jul_m12 (y d : Int) (hy1 : 1 ≤ y) (hy2 : y ≤ 1581)
    (hd1 : 1 ≤ d) (hd2 : d ≤ 31) :
    jdnToGregorianE (367 * y - (7 * (y + 5001)) / 4 + (275 * 12) / 9 + d + 1729777) = (y, 12, d) := by
  simp only [jdnToGregorianE]
  rw [if_neg (by omega)]
  simp only [Prod.mk.injEq]
  rcases (by omega : y % 4 = 0 ∨ y % 4 = 1 ∨ y % 4 = 2 ∨ y % 4 = 3) with h4 | h4 | h4 | h4
  all_goals have hk : (367 * y - (7 * (y + 5001)) / 4 + (275 * 12) / 9 + d + 1729777 + 1402 - 1) / 1461 = (y + 0) / 4 + 1179 := by omega
  all_goals have hn : (367 * y - (7 * (y + 5001)) / 4 + (275 * 12) / 9 + d + 1729777 + 1402 - 1461 * ((367 * y - (7 * (y + 5001)) / 4 + (275 * 12) / 9 + d + 1729777 + 1402 - 1) / 1461) - 1) / 365 - (367 * y - (7 * (y + 5001)) / 4 + (275 * 12) / 9 + d + 1729777 + 1402 - 1461 * ((367 * y - (7 * (y + 5001)) / 4 + (275 * 12) / 9 + d + 1729777 + 1402 - 1) / 1461)) / 1461 = (y + 0) % 4 := by omega
  all_goals have hi0 : 367 * y - (7 * (y + 5001)) / 4 + (275 * 12) / 9 + d + 1729777 + 1402 - 1461 * ((367 * y - (7 * (y + 5001)) / 4 + (275 * 12) / 9 + d + 1729777 + 1402 - 1) / 1461) - 365 * ((367 * y - (7 * (y + 5001)) / 4 + (275 * 12) / 9 + d + 1729777 + 1402 - 1461 * ((367 * y - (7 * (y + 5001)) / 4 + (275 * 12) / 9 + d + 1729777 + 1402 - 1) / 1461) - 1) / 365 - (367 * y - (7 * (y + 5001)) / 4 + (275 * 12) / 9 + d + 1729777 + 1402 - 1461 * ((367 * y - (7 * (y + 5001)) / 4 + (275 * 12) / 9 + d + 1729777 + 1402 - 1) / 1461)) / 1461) + 30 = 305 + d := by omega
  all_goals have hj1 : 80 * (367 * y - (7 * (y + 5001)) / 4 + (275 * 12) / 9 + d + 1729777 + 1402 - 1461 * ((367 * y - (7 * (y + 5001)) / 4 + (275 * 12) / 9 + d + 1729777 + 1402 - 1) / 1461) - 365 * ((367 * y - (7 * (y + 5001)) / 4 + (275 * 12) / 9 + d + 1729777 + 1402 - 1461 * ((367 * y - (7 * (y + 5001)) / 4 + (275 * 12) / 9 + d + 1729777 + 1402 - 1) / 1461) - 1) / 365 - (367 * y - (7 * (y + 5001)) / 4 + (275 * 12) / 9 + d + 1729777 + 1402 - 1461 * ((367 * y - (7 * (y + 5001)) / 4 + (275 * 12) / 9 + d + 1729777 + 1402 - 1) / 1461)) / 1461) + 30) / 2447 = 10 := by omega
  all_goals have hday : 2447 * (80 * (367 * y - (7 * (y + 5001)) / 4 + (275 * 12) / 9 + d + 1729777 + 1402 - 1461 * ((367 * y - (7 * (y + 5001)) / 4 + (275 * 12) / 9 + d + 1729777 + 1402 - 1) / 1461) - 365 * ((367 * y - (7 * (y + 5001)) / 4 + (275 * 12) / 9 + d + 1729777 + 1402 - 1461 * ((367 * y - (7 * (y + 5001)) / 4 + (275 * 12) / 9 + d + 1729777 + 1402 - 1) / 1461) - 1) / 365 - (367 * y - (7 * (y + 5001)) / 4 + (275 * 12) / 9 + d + 1729777 + 1402 - 1461 * ((367 * y - (7 * (y + 5001)) / 4 + (275 * 12) / 9 + d + 1729777 + 1402 - 1) / 1461)) / 1461) + 30) / 2447) / 80 = 305 := by omega
  all_goals have hi1 : (80 * (367 * y - (7 * (y + 5001)) / 4 + (275 * 12) / 9 + d + 1729777 + 1402 - 1461 * ((367 * y - (7 * (y + 5001)) / 4 + (275 * 12) / 9 + d + 1729777 + 1402 - 1) / 1461) - 365 * ((367 * y - (7 * (y + 5001)) / 4 + (275 * 12) / 9 + d + 1729777 + 1402 - 1461 * ((367 * y - (7 * (y + 5001)) / 4 + (275 * 12) / 9 + d + 1729777 + 1402 - 1) / 1461) - 1) / 365 - (367 * y - (7 * (y + 5001)) / 4 + (275 * 12) / 9 + d + 1729777 + 1402 - 1461 * ((367 * y - (7 * (y + 5001)) / 4 + (275 * 12) / 9 + d + 1729777 + 1402 - 1) / 1461)) / 1461) + 30) / 2447) / 11 = 0 := by omega
  all_goals refine ⟨by omega, by omega, by omega⟩

/-! ## Claim theorems -/

/-- C2: for every valid Gregorian date with year in [1, 3000] (validity in
the hybrid historical calendar the code implements, see validGregorian),
converting it to a JDN with the Gregorian-to-JDN fragment of SetTime and
inverting that JDN with the body of Time.Time() yields exactly the
original (year, month, day). -/
theorem gregorian_roundtrip (y m d : Int) (h : validGregorian y m d) :
    jdnToGregorian (gregorianToJDN y m d) = (y, m, d) := by
  obtain ⟨hy1, hy2, hm1, hm2, hd1, hdim, hskip⟩ := h
  by_cases hc : y > 1582 ∨ (y = 1582 ∧ m > 10) ∨ (y = 1582 ∧ m = 10 ∧ d > 14)
  · interval_cases m
    · have hdim2 : d ≤ 31 := hdim
      rw [gregorianToJDN_greg_le2 y 1 d hc (by omega) (by omega) (by omega)]
      exact (jdnToGregorian_eq_E _ (by omega)).trans
        (jdnToGregorianE_greg_m1 y d (by omega) (by omega) (by omega) (by omega))
    · have hdim2 : d ≤ (if hybridLeap y then 29 else 28) := hdim
      have hfeb : d ≤ 28 ∨ (y % 4 = 0 ∧ (¬y % 100 = 0 ∨ y % 400 = 0) ∧ d ≤ 29) := by
        by_cases hl : hybridLeap y
        · rw [if_pos hl] at hdim2
          unfold hybridLeap at hl
          omega
        · rw [if_neg hl] at hdim2
          unfold hybridLeap at hl
          omega
      rw [gregorianToJDN_greg_le2 y 2 d hc (by omega) (by omega) (by omega)]
      exact (jdnToGregorian_eq_E _ (by omega)).trans
        (jdnToGregorianE_greg_m2 y d (by omega) (by omega) (by omega) hfeb)
    · have hdim2 : d ≤ 31 := hdim
      rw [gregorianToJDN_greg_ge3 y 3 d hc (by omega) (by omega) (by omega)]
      exact (jdnToGregorian_eq_E _ (by omega)).trans
        (jdnToGregorianE_greg_m3 y d (by omega) (by omega) (by omega) (by omega))
    · have hdim2 : d ≤ 30 := hdim
      rw [gregorianToJDN_greg_ge3 y 4 d hc (by omega) (by omega) (by omega)]
      exact (jdnToGregorian_eq_E _ (by omega)).trans
        (jdnToGregorianE_greg_m4 y d (by omega) (by omega) (by omega) (by omega))
    · have hdim2 : d ≤ 31 := hdim
      rw [gregorianToJDN_greg_ge3 y 5 d hc (by omega) (by omega) (by omega)]
      exact (jdnToGregorian_eq_E _ (by omega)).trans
        (jdnToGregorianE_greg_m5 y d (by omega) (by omega) (by omega) (by omega))
    · have hdim2 : d ≤ 30 := hdim
      rw [gregorianToJDN_greg_ge3 y 6 d hc (by omega) (by omega) (by omega)]
      exact (jdnToGregorian_eq_E _ (by omega)).trans
        (jdnToGregorianE_greg_m6 y d (by omega) (by omega) (by omega) (by omega))
    · have hdim2 : d ≤ 31 := hdim
      rw [gregorianToJDN_greg_ge3 y 7 d hc (by omega) (by omega) (by omega)]
      exact (jdnToGregorian_eq_E _ (by omega)).trans
        (jdnToGregorianE_greg_m7 y d (by omega) (by omega) (by omega) (by omega))
    · have hdim2 : d ≤ 31 := hdim
      rw [gregorianToJDN_greg_ge3 y 8 d hc (by omega) (by omega) (by omega)]
      exact (jdnToGregorian_eq_E _ (by omega)).trans
        (jdnToGregorianE_greg_m8 y d (by omega) (by omega) (by omega) (by omega))
    · have hdim2 : d ≤ 30 := hdim
      rw [gregorianToJDN_greg_ge3 y 9 d hc (by omega) (by omega) (by omega)]
      exact (jdnToGregorian_eq_E _ (by omega)).trans
        (jdnToGregorianE_greg_m9 y d (by omega) (by omega) (by omega) (by omega))
    · have hdim2 : d ≤ 31 := hdim
      rw [gregorianToJDN_greg_ge3 y 10 d hc (by omega) (by omega) (by omega)]
      exact (jdnToGregorian_eq_E _ (by omega)).trans
        (jdnToGregorianE_greg_m10 y d (by omega) (by omega) (by omega) (by omega))
    · have hdim2 : d ≤ 30 := hdim
      rw [gregorianToJDN_greg_ge3 y 11 d hc (by omega) (by omega) (by omega)]
      exact (jdnToGregorian_eq_E _ (by omega)).trans
        (jdnToGregorianE_greg_m11 y d (by omega) (by omega) (by omega) (by omega))
    · have hdim2 : d ≤ 31 := hdim
      rw [gregorianToJDN_greg_ge3 y 12 d hc (by omega) (by omega) (by omega)]
      exact (jdnToGregorian_eq_E _ (by omega)).trans
        (jdnToGregorianE_greg_m12 y d (by omega) (by omega) (by omega) (by omega))
  · interval_cases m
    · have hdim2 : d ≤ 31 := hdim
      rw [gregorianToJDN_jul_le2 y 1 d hc (by omega) (by omega) (by omega)]
      exact (jdnToGregorian_eq_E _ (by omega)).trans
        (jdnToGregorianE_jul_m1 y d (by omega) (by omega) (by omega) (by omega))
    · have hdim2 : d ≤ (if hybridLeap y then 29 else 28) := hdim
      have hfeb : d ≤ 28 ∨ (y % 4 = 0 ∧ d ≤ 29) := by
        by_cases hl : hybridLeap y
        · rw [if_pos hl] at hdim2
          unfold hybridLeap at hl
          omega
        · rw [if_neg hl] at hdim2
          unfold hybridLeap at hl
          omega
      rw [gregorianToJDN_jul_le2 y 2 d hc (by omega) (by omega) (by omega)]
      exact (jdnToGregorian_eq_E _ (by omega)).trans
        (jdnToGregorianE_jul_m2 y d (by omega) (by omega) (by omega) hfeb)
    · have hdim2 : d ≤ 31 := hdim
      rw [gregorianToJDN_jul_ge3 y 3 d hc (by omega) (by omega) (by omega)]
      exact (jdnToGregorian_eq_E _ (by omega)).trans
        (jdnToGregorianE_jul_m3 y d (by omega) (by omega) (by omega) (by omega))
    · have hdim2 : d ≤ 30 := hdim
      rw [gregorianToJDN_jul_ge3 y 4 d hc (by omega) (by omega) (by omega)]
      exact (jdnToGregorian_eq_E _ (by omega)).trans
        (jdnToGregorianE_jul_m4 y d (by omega) (by omega) (by omega) (by omega))
    · have hdim2 : d ≤ 31 := hdim
      rw [gregorianToJDN_jul_ge3 y 5 d hc (by omega) (by omega) (by omega)]
      exact (jdnToGregorian_eq_E _ (by omega)).trans
        (jdnToGregorianE_jul_m5 y d (by omega) (by omega) (by omega) (by omega))
    · have hdim2 : d ≤ 30 := hdim
      rw [gregorianToJDN_jul_ge3 y 6 d hc (by omega) (by omega) (by omega)]
      exact (jdnToGregorian_eq_E _ (by omega)).trans
        (jdnToGregorianE_jul_m6 y d (by omega) (by omega) (by omega) (by omega))
    · have hdim2 : d ≤ 31 := hdim
      rw [gregorianToJDN_jul_ge3 y 7 d hc (by omega) (by omega) (by omega)]
      exact (jdnToGregorian_eq_E _ (by omega)).trans
        (jdnToGregorianE_jul_m7 y d (by omega) (by omega) (by omega) (by omega))
    · have hdim2 : d ≤ 31 := hdim
      rw [gregorianToJDN_jul_ge3 y 8 d hc (by omega) (by omega) (by omega)]
      exact (jdnToGregorian_eq_E _ (by omega)).trans
        (jdnToGregorianE_jul_m8 y d (by omega) (by omega) (by omega) (by omega))
    · have hdim2 : d ≤ 30 := hdim
      rw [gregorianToJDN_jul_ge3 y 9 d hc (by omega) (by omega) (by omega)]
      exact (jdnToGregorian_eq_E _ (by omega)).trans
        (jdnToGregorianE_jul_m9 y d (by omega) (by omega) (by omega) (by omega))
    · have hdim2 : d ≤ 31 := hdim
      rw [gregorianToJDN_jul_ge3 y 10 d hc (by omega) (by omega) (by omega)]
      exact (jdnToGregorian_eq_E _ (by omega)).trans
        (jdnToGregorianE_jul_m10 y d (by omega) (by omega) (by omega) (by omega) (by omega))
    · have hdim2 : d ≤ 30 := hdim
      rw [gregorianToJDN_jul_ge3 y 11 d hc (by omega) (by omega) (by omega)]
      exact (jdnToGregorian_eq_E _ (by omega)).trans
        (jdnToGregorianE_jul_m11 y d (by omega) (by omega) (by omega) (by omega))
    · have hdim2 : d ≤ 31 := hdim
      rw [gregorianToJDN_jul_ge3 y 12 d hc (by omega) (by omega) (by omega)]
      exact (jdnToGregorian_eq_E _ (by omega)).trans
        (jdnToGregorianE_jul_m12 y d (by omega) (by omega) (by omega) (by omega))

/-- Witness for gregorian_roundtrip at the leap day 2024-02-29. -/
theorem gregorian_roundtrip_witness :
    validGregorian 2024 2 29
      ∧ jdnToGregorian (gregorianToJDN 2024 2 29) = (2024, 2, 29) :=
  ⟨by decide, gregorian_roundtrip 2024 2 29 (by decide)⟩


/-- C3: IsLeap is exactly the floor-style (mathematical, non-truncating)
leap test, for every integer year including negative years: IsLeap holds
iff (25 * year + 11) mod 33 < 8 with the Euclidean remainder; in particular
year 1403 is leap and year 1404 is not. -/
theorem isLeap_iff_floor_mod :
    (∀ t : Time, t.IsLeap = true ↔ (25 * t.year + 11) % 33 < 8)
      ∧ Time.IsLeap ⟨1403, 1, 1, 0, 0, 0, 0, some (), 0⟩ = true
      ∧ Time.IsLeap ⟨1404, 1, 1, 0, 0, 0, 0, some (), 0⟩ = false := by
  refine ⟨fun t => ?_, by decide, by decide⟩
  have hkey : divider (25 * t.year + 11) 33 = (25 * t.year + 11) % 33 := by
    unfold divider
    rcases lt_trichotomy (25 * t.year + 11) 0 with h | h | h
    · rw [if_neg (by omega)]
      rw [tdiv_nonpos_eq (25 * t.year + 11 + 1) 33 (by omega) (by norm_num)]
      omega
    · exfalso
      omega
    · rw [if_pos (by omega), tmodE (25 * t.year + 11) 33 (by omega) (by norm_num)]
  rw [Time.IsLeap, decide_eq_true_eq, hkey]

/-- C10: for every denominator den ≥ 2, divider 0 den evaluates to den, not
to the floor-style remainder 0: the truncating-remainder branch is taken
only for a strictly positive numerator, and the negative-numerator formula
yields den at numerator 0. This input is unreachable from IsLeap since
25 * year + 11 is never zero for an integer year. -/
theorem divider_zero_eq_den (den : Int) (h : 2 ≤ den) :
    divider 0 den = den ∧ divider 0 den ≠ 0 % den
      ∧ ∀ y : Int, 25 * y + 11 ≠ 0 := by
  have hmain : divider 0 den = den := by
    unfold divider
    rw [if_neg (by omega), tdivE (0 + 1) den (by norm_num) (by omega)]
    have h1 : (0 + 1 : Int) / den = 0 := Int.ediv_eq_zero_of_lt (by norm_num) (by omega)
    rw [h1]
    ring
  refine ⟨hmain, ?_, fun y => by omega⟩
  rw [hmain, Int.zero_emod]
  omega

/-- Witness for divider_zero_eq_den at den = 33. -/
theorem divider_zero_eq_den_witness :
    (2 : Int) ≤ 33 ∧ (divider 0 33 = 33 ∧ divider 0 33 ≠ 0 % 33
      ∧ ∀ y : Int, 25 * y + 11 ≠ 0) :=
  ⟨by norm_num, divider_zero_eq_den 33 (by norm_num)⟩

/-- C7: SetMinute sets the minute to its argument clamped into [0, 59] by
saturation (75 gives 59, with no carry) and leaves every other field of the
receiver unchanged. -/
theorem setMinute_clamps_frame :
    ∀ (t : Time) (x : Int),
      (t.SetMinute x).min = (if x < 0 then 0 else if x > 59 then 59 else x)
        ∧ (t.SetMinute 75).min = 59
        ∧ (t.SetMinute x).year = t.year
        ∧ (t.SetMinute x).month = t.month
        ∧ (t.SetMinute x).day = t.day
        ∧ (t.SetMinute x).hour = t.hour
        ∧ (t.SetMinute x).sec = t.sec
        ∧ (t.SetMinute x).nsec = t.nsec
        ∧ (t.SetMinute x).loc = t.loc
        ∧ (t.SetMinute x).wday = t.wday := by
  intro t x
  refine ⟨rfl, rfl, rfl, rfl, rfl, rfl, rfl, rfl, rfl, rfl⟩

/-- C8: AmPm returns PM exactly when hour > 12, or hour = 12 with a nonzero
minute or second; in particular 12:00:00 is AM and 12:01 is PM. -/
theorem amPm_iff :
    (∀ t : Time,
        t.AmPm = PM ↔ (t.hour > 12 ∨ (t.hour = 12 ∧ (t.min > 0 ∨ t.sec > 0))))
      ∧ Time.AmPm ⟨1395, 1, 1, 12, 0, 0, 0, some (), 0⟩ = AM
      ∧ Time.AmPm ⟨1395, 1, 1, 12, 1, 0, 0, some (), 0⟩ = PM := by
  refine ⟨fun t => ?_, by decide, by decide⟩
  unfold Time.AmPm
  split
  · rename_i h
    exact ⟨fun _ => h, fun _ => rfl⟩
  · rename_i h
    unfold PM AM
    constructor
    · intro h1
      exact absurd h1 (by norm_num)
    · intro h1
      exact absurd h1 h

/-- C9 counterexample: at hour = 12 the claim demands the hour unchanged
(12), but Hour12 subtracts at hour ≥ 12 and returns 0. -/
theorem hour12_claim_counterexample :
    Time.Hour12 ⟨1395, 1, 1, 12, 0, 0, 0, some (), 0⟩ ≠ 12
      ∧ Time.Hour12 ⟨1395, 1, 1, 12, 0, 0, 0, some (), 0⟩ = 0 := by
  refine ⟨by decide, by decide⟩

/-- C9 (amended): Hour12 returns hour - 12 when hour ≥ 12 (not > 12) and
the hour unchanged otherwise, so hour 0 stays 0 and hour 12 gives 0; a
reported zero is remapped to the format maximum only by modifyHour at
formatting time, never in the underlying field. -/
theorem hour12_amended :
    (∀ t : Time, t.Hour12 = if t.hour ≥ 12 then t.hour - 12 else t.hour)
      ∧ Time.Hour12 ⟨1395, 1, 1, 0, 0, 0, 0, some (), 0⟩ = 0
      ∧ (∀ v mx : Int, modifyHour v mx = if v = 0 then mx else v)
      ∧ modifyHour 0 12 = 12 ∧ modifyHour 0 24 = 24 ∧ modifyHour 5 12 = 5 := by
  exact ⟨fun t => rfl, by decide, fun v mx => rfl, by decide, by decide, by decide⟩

/-- C4: converting the Gregorian instant 2016-03-20 00:00:00 UTC with
SetTime produces the Persian date 1395-01-01 (Farvardin 1, 1395). -/
theorem setTime_nowruz_1395 :
    (Time.SetTime zeroTime 2016 3 20 0 0 0 0 (some ())).year = 1395
      ∧ (Time.SetTime zeroTime 2016 3 20 0 0 0 0 (some ())).month = 1
      ∧ (Time.SetTime zeroTime 2016 3 20 0 0 0 0 (some ())).day = 1 := by
  refine ⟨by decide, by decide, by decide⟩

/-- C1 evaluation at failing inputs: the Persian round trip through getJdn
and the JDN-to-Persian fragment of SetTime fails inside [1, 1500]: the
valid date (1, 1, 1) comes back as (2, -11, 8), and the valid date
(1403, 12, 30) (Esfand 30 of the leap year 1403, daysInMonth 1403 12 = 30)
comes back as (1404, 1, 1), since getJdn gives it the same JDN as
(1404, 1, 1). -/
theorem persian_roundtrip_fails_eval :
    jdnToPersian (getJdn 1 1 1) = (2, -11, 8)
      ∧ daysInMonth 1 1 = 31
      ∧ jdnToPersian (getJdn 1403 12 30) = (1404, 1, 1)
      ∧ daysInMonth 1403 12 = 30
      ∧ getJdn 1403 12 30 = getJdn 1404 1 1 := by
  refine ⟨by decide, by decide, by decide, by decide, by decide⟩

/-- C5 evaluation at a failing input: SetTime applied to the Gregorian
instant 2026-03-20 produces the Persian fields (1404, 12, 30), but
daysInMonth 1404 12 = 29, so the documented invariant
day ≤ daysInMonth(year, month) is violated by SetTime. -/
theorem setTime_invariant_fails_eval :
    (Time.SetTime zeroTime 2026 3 20 0 0 0 0 (some ())).year = 1404
      ∧ (Time.SetTime zeroTime 2026 3 20 0 0 0 0 (some ())).month = 12
      ∧ (Time.SetTime zeroTime 2026 3 20 0 0 0 0 (some ())).day = 30
      ∧ daysInMonth 1404 12 = 29 := by
  refine ⟨by decide, by decide, by decide, by decide⟩

/-- C6: every constructor or zone-setter receiving a location fails
(panics, modeled as none) exactly when the location is nil (none), and for
a non-nil location always produces a value, whose out-of-range fields are
silently clamped (never rejected): shown for Date, Unix, Now, Set, SetUnix
and In. -/
theorem loc_nil_iff_none :
    (∀ y mo d h mi s ns, Date y mo d h mi s ns none = none)
      ∧ (∀ y mo d h mi s ns, (Date y mo d h mi s ns (some ())).isSome = true)
      ∧ (∀ gy gm gd gh gmi gs gns, Unix gy gm gd gh gmi gs gns none = none)
      ∧ (∀ gy gm gd gh gmi gs gns,
          (Unix gy gm gd gh gmi gs gns (some ())).isSome = true)
      ∧ (∀ gy gm gd gh gmi gs gns, Now gy gm gd gh gmi gs gns none = none)
      ∧ (∀ gy gm gd gh gmi gs gns,
          (Now gy gm gd gh gmi gs gns (some ())).isSome = true)
      ∧ (∀ t y mo d h mi s ns, Time.Set t y mo d h mi s ns none = none)
      ∧ (∀ t y mo d h mi s ns,
          (Time.Set t y mo d h mi s ns (some ())).isSome = true)
      ∧ (∀ t gy gm gd gh gmi gs gns,
          Time.SetUnix t gy gm gd gh gmi gs gns none = none)
      ∧ (∀ t gy gm gd gh gmi gs gns,
          (Time.SetUnix t gy gm gd gh gmi gs gns (some ())).isSome = true)
      ∧ (∀ t : Time, t.In none = none)
      ∧ (∀ t : Time, (t.In (some ())).isSome = true)
      ∧ (∀ y mo d h mi s ns, ∃ t : Time,
          Date y mo d h mi s ns (some ()) = some t
            ∧ t.year = y
            ∧ t.month = between mo 1 12
            ∧ t.hour = between h 0 23
            ∧ t.min = between mi 0 59
            ∧ t.sec = between s 0 59
            ∧ t.nsec = between ns 0 999999999) := by
  refine ⟨fun _ _ _ _ _ _ _ => rfl, fun _ _ _ _ _ _ _ => rfl,
    fun _ _ _ _ _ _ _ => rfl, fun _ _ _ _ _ _ _ => rfl,
    fun _ _ _ _ _ _ _ => rfl, fun _ _ _ _ _ _ _ => rfl,
    fun _ _ _ _ _ _ _ _ => rfl, fun _ _ _ _ _ _ _ _ => rfl,
    fun _ _ _ _ _ _ _ _ => rfl, fun _ _ _ _ _ _ _ _ => rfl,
    fun _ => rfl, fun _ => rfl, ?_⟩
  intro y mo d h mi s ns
  exact ⟨_, rfl, rfl, rfl, rfl, rfl, rfl, rfl⟩

end Ptime
